import Mathlib

/-!
# dt_cg.c : the BPF code generator of libdtrace, as a shallow embedding

The embedding follows `src/libdtrace/dt_cg.c` function by function.

* The compilation context (`yypcb`) is the explicit state `Pcb`; every emitter is a
  state transformer `CG α` whose outcome is either a normal return or a raise
  (`longjmp`, `xyerror`, `dnerror`, a failed `assert`, or C undefined behaviour),
  and both outcomes carry the context as it was at that moment.
* `dt_cg_node` recurses through pointers that live in mutable identifier records
  (inline roots, translator members), so the visitor is defined by recursion on
  a fuel argument (running out of it is the outcome `OUT_OF_FUEL`, which is not an
  outcome of the C code); each helper emitter takes the recursive call as the
  argument `visit`.
* The mutable slot `dn_reg` of a node is modelled by the value the visitor
  returns: the content of `dnp->dn_reg` when `dt_cg_node(dnp)` returns.
* Facts computed by the external type machinery (CTF sizes, kinds, encodings,
  member records, `dt_node_is_*`) arrive resolved on the node (`NodeInfo`).
* Constants that the source takes from headers outside the repository sources
  (`FIRST_BPF_HELPER`, `BPF_NCLOBBERED`, the pointer size, ...) are fields of `Cfg`.
* An automatic variable that is read before any assignment has an indeterminate
  content; that content is a field of `Cfg` as well, so that a statement about every
  `Cfg` is a statement about every such content.

Tokens of the source that do not resolve to any declaration are read as the
evident referent, and each such reading is noted where it is made.
-/

namespace DtCg

/-! ## Instructions -/

/-- ALU operation selectors (`BPF_ADD` ... `BPF_ARSH`). -/
inductive AluOp where
  | ADD | SUB | MUL | DIV | MOD | AND | OR | XOR | LSH | RSH | ARSH | NEG
  deriving DecidableEq, Repr

/-- Jump operation selectors. -/
inductive JmpOp where
  | JA | JEQ | JNE | JLT | JLE | JGT | JGE | JSLT | JSLE | JSGT | JSGE
  deriving DecidableEq, Repr

/-- Width code `BPF_W` of linux/bpf_common.h. -/
def BPF_W : Nat := 0x00
/-- Width code `BPF_H` of linux/bpf_common.h. -/
def BPF_H : Nat := 0x08
/-- Width code `BPF_B` of linux/bpf_common.h. -/
def BPF_B : Nat := 0x10
/-- Width code `BPF_DW` of linux/bpf_common.h. -/
def BPF_DW : Nat := 0x18

/-- Register number of the return register. -/
def BPF_REG_0 : Int := 0
/-- Register number of the frame pointer. -/
def BPF_REG_FP : Int := 10

/-- A register field of `struct bpf_insn`: four bits wide. -/
abbrev Reg : Type := Fin 16

/-- Conversion of a C integer to a register field: the value modulo 16. -/
def reg4 (i : Int) : Reg := ⟨(i % 16).toNat, by omega⟩

/-- One `struct bpf_insn`, by its shape. `dst` and `src` are the two four-bit
register fields; `imm` and `off` hold the integer the source passes, before its
conversion to the 32-bit and the 16-bit field. `BPF_LD_IMM64` expands to two
instruction words, `LD_IMM64_LO` and `LD_IMM64_HI`. `RAW` is any other instruction
word, by its five fields. -/
inductive Insn where
  | MOV64_REG (dst src : Reg)
  | MOV32_IMM (dst : Reg) (imm : Nat)
  | LD_IMM64_LO (dst : Reg) (lo : Nat)
  | LD_IMM64_HI (hi : Nat)
  | ALU64_REG (op : AluOp) (dst src : Reg)
  | ALU64_IMM (op : AluOp) (dst : Reg) (imm : Int)
  | STX_MEM (size : Nat) (dst src : Reg) (off : Int)
  | LDX_MEM (size : Nat) (dst src : Reg) (off : Int)
  | ST_MEM (size : Nat) (dst : Reg) (off : Int) (imm : Int)
  | JMP_IMM (op : JmpOp) (dst : Reg) (imm : Int) (lbl : Nat)
  | CALL (helper : Nat)
  | EXIT
  | NOP
  | RAW (code : Nat) (dst src : Reg) (off imm : Int)
  deriving DecidableEq, Repr

/-- Initialiser `BPF_MOV64_REG(DST, SRC)`: the operands are C integers, stored into
the register fields. -/
@[simp] def BPF_MOV64_REG (dst src : Int) : Insn := Insn.MOV64_REG (reg4 dst) (reg4 src)
/-- Initialiser `BPF_MOV32_IMM(DST, IMM)`. -/
@[simp] def BPF_MOV32_IMM (dst : Int) (imm : Nat) : Insn := Insn.MOV32_IMM (reg4 dst) imm
/-- Initialiser `BPF_ALU64_REG(OP, DST, SRC)`. -/
@[simp] def BPF_ALU64_REG (op : AluOp) (dst src : Int) : Insn :=
  Insn.ALU64_REG op (reg4 dst) (reg4 src)
/-- Initialiser `BPF_ALU64_IMM(OP, DST, IMM)`. -/
@[simp] def BPF_ALU64_IMM (op : AluOp) (dst : Int) (imm : Int) : Insn :=
  Insn.ALU64_IMM op (reg4 dst) imm
/-- Initialiser `BPF_STX_MEM(SIZE, DST, SRC, OFF)`. -/
@[simp] def BPF_STX_MEM (size : Nat) (dst src : Int) (off : Int) : Insn :=
  Insn.STX_MEM size (reg4 dst) (reg4 src) off
/-- Initialiser `BPF_LDX_MEM(SIZE, DST, SRC, OFF)`. -/
@[simp] def BPF_LDX_MEM (size : Nat) (dst src : Int) (off : Int) : Insn :=
  Insn.LDX_MEM size (reg4 dst) (reg4 src) off
/-- Initialiser `BPF_ST_MEM(SIZE, DST, OFF, IMM)`. -/
@[simp] def BPF_ST_MEM (size : Nat) (dst : Int) (off : Int) (imm : Int) : Insn :=
  Insn.ST_MEM size (reg4 dst) off imm
/-- Initialiser `BPF_JMP_IMM(OP, DST, IMM, OFF)`; the offset is a label until the
assembler resolves it. -/
@[simp] def BPF_JMP_IMM (op : JmpOp) (dst : Int) (imm : Int) (lbl : Nat) : Insn :=
  Insn.JMP_IMM op (reg4 dst) imm lbl

/-- One `dt_irnode_t`: label (`none` is `DT_LBL_NONE`), instruction, and the
identifier back-pointer `di_extern` (an index into the identifier table). -/
structure IrNode where
  di_label : Option Nat
  di_instr : Insn
  di_extern_ident : Option Nat
  deriving DecidableEq, Repr

/-! ## The input AST -/

/-- Operator tags `dn_op` dispatched on by `dt_cg_node`; `OTHER` stands for every
token that reaches the `default:` arm. -/
inductive Tok where
  | COMMA | ASGN | ADD_EQ | SUB_EQ | MUL_EQ | DIV_EQ | MOD_EQ | AND_EQ | XOR_EQ | OR_EQ
  | LSH_EQ | RSH_EQ | QUESTION | LOR | LXOR | LAND | BOR | XOR | BAND | EQU | NEQ
  | LT | LE | GT | GE | LSH | RSH | ADD | SUB | MUL | DIV | MOD | LNEG | BNEG
  | PREINC | POSTINC | PREDEC | POSTDEC | IPOS | INEG | DEREF | ADDROF | SIZEOF
  | STRINGOF | XLATE | LPAR | PTR | DOT | STRING | IDENT | INT | OTHER
  deriving DecidableEq, Repr

/-- Node kinds `dn_kind`. -/
inductive Kind where
  | INT | STRING | IDENT | VAR | SYM | FUNC | OP1 | OP2 | OP3 | XLATOR | MEMBER | OTHER
  deriving DecidableEq, Repr

/-- Identifier kinds `di_kind`. -/
inductive IdKind where
  | SCALAR | ARRAY | FUNC | XLSOU | XLPTR | SYMBOL | OTHER
  deriving DecidableEq, Repr

/-- CTF type kinds as far as the code generator looks at them. -/
inductive CtfKind where
  | POINTER | ARRAY | FORWARD | OTHER
  deriving DecidableEq, Repr

/-- The semantic flag bits `DT_NF_*` of a node. -/
structure NFlags where
  SIGNED : Bool := false
  BITFIELD : Bool := false
  USERLAND : Bool := false
  REF : Bool := false
  WRITABLE : Bool := false
  LVALUE : Bool := false
  deriving DecidableEq, Repr

/-- What `ctf_type_size` and `ctf_type_encoding` answer for one CTF type:
`enc_bits = none` is `CTF_ERR`. -/
structure TyInfo where
  size : Int := 8
  enc_bits : Option Nat := none
  deriving DecidableEq, Repr

/-- A member record `ctf_membinfo_t` together with the facts about `ctm_type`. -/
structure MembInfo where
  ctm_offset : Nat := 0
  ctm_ty : TyInfo := {}
  deriving DecidableEq, Repr

/-- The answer of `dt_node_diftype` for a node. -/
structure DifType where
  BYREF : Bool := false
  is_string : Bool := false
  dtdt_size : Nat := 0
  deriving DecidableEq, Repr

/-- The non-recursive content of a `dt_node_t`, with the answers of the external
type machinery for this node. -/
structure NodeInfo where
  dn_op : Tok := Tok.INT
  dn_kind : Kind := Kind.INT
  dn_flags : NFlags := {}
  dn_reg : Int := -1
  dn_value : Nat := 0
  dn_string : String := ""
  dn_membname : String := ""
  dn_ident : Nat := 0
  dn_xlator : Nat := 0
  /-- Answers of `ctf_type_size`/`ctf_type_encoding` for `(dn_ctfp, dn_type)`; `size` is also
  `dt_node_type_size`. -/
  ty : TyInfo := {}
  /-- Value of `dt_node_sizeof` for this node. -/
  node_sizeof : Nat := 8
  is_scalar : Bool := true
  is_pointer : Bool := false
  is_string : Bool := false
  is_arith : Bool := true
  is_dynamic : Bool := false
  /-- Value of `ctf_type_kind` for the resolved `dn_type`. -/
  type_kind : CtfKind := CtfKind.OTHER
  /-- Whether `ctf_array_info` succeeds on the resolved `dn_type`. -/
  array_info_ok : Bool := true
  /-- Value of `ctf_type_size` for the referenced type (pointer) or the contents type (array). -/
  ref_size : Int := 1
  diftype : DifType := {}
  /-- For `.` and `->`: the answer of `dt_cg_membinfo` for the right-hand name. -/
  memb : Option MembInfo := none
  /-- Answer of `dt_node_resolve(dnp, DT_IDENT_XLSOU)`: an identifier index. -/
  resolve_xlsou : Option Nat := none
  /-- Answer of `dt_node_resolve(dnp, DT_IDENT_XLPTR)`: an identifier index. -/
  resolve_xlptr : Option Nat := none
  /-- Flag `DT_NF_SIGNED` of the node that `dt_node_promote(left, right)` fills in. -/
  promote_signed : Bool := false
  /-- Answer of `dtrace_lookup_by_name`: the symbol value, `none` when the lookup fails. -/
  sym_value : Option Nat := none
  deriving DecidableEq, Repr

/-- A `dt_node_t`. `dn_left` is also `dn_child` (the two names are one slot of the
node union, and the source uses them interchangeably); a `dn_list` chain is a list. -/
inductive Node where
  | mk (info : NodeInfo) (dn_left dn_right dn_expr dn_membexpr : Option Node)
       (dn_args : List Node)

namespace Node
/-- The non-recursive fields. -/
def info : Node → NodeInfo | mk i _ _ _ _ _ => i
/-- Left child, also the only child of a unary node. -/
def dn_left : Node → Option Node | mk _ l _ _ _ _ => l
/-- Right child. -/
def dn_right : Node → Option Node | mk _ _ r _ _ _ => r
/-- Condition of the ternary operator. -/
def dn_expr : Node → Option Node | mk _ _ _ e _ _ => e
/-- Member expression of a translator member node. -/
def dn_membexpr : Node → Option Node | mk _ _ _ _ m _ => m
/-- Argument chain. -/
def dn_args : Node → List Node | mk _ _ _ _ _ a => a
/-- The node with `DT_NF_REF` set (`dn_flags |= DT_NF_REF`). -/
def forceRef : Node → Node
  | mk i l r e m a => mk { i with dn_flags := { i.dn_flags with REF := true } } l r e m a
/-- The node with `dn_value` replaced. -/
def withValue (v : Nat) : Node → Node
  | mk i l r e m a => mk { i with dn_value := v } l r e m a
/-- A leaf node. -/
def leaf (i : NodeInfo) : Node := mk i none none none none []
end Node

/-- The formal of a signature, `isp->dis_args[i]`, as `dt_cg_typecast` reads it. -/
structure ArgSig where
  size : Int := 8
  is_scalar : Bool := true
  SIGNED : Bool := false
  deriving DecidableEq, Repr

/-- A `dt_ident_t` with its inline payload (`di_iarg`) and signature (`di_data`). -/
structure Ident where
  di_kind : IdKind := IdKind.SCALAR
  di_id : Int := 0
  LOCAL : Bool := false
  TLS : Bool := false
  CGREG : Bool := false
  INLINE : Bool := false
  DIFR : Bool := false
  DIFW : Bool := false
  /-- Field `di_data` when it is a translator: index into the translator table. -/
  di_xlator : Nat := 0
  /-- Formals `dis_args` of the signature in `di_data`. -/
  dis_args : List ArgSig := []
  din_root : Option Node := none
  /-- Formals `din_argv`: identifier indexes, `none` for a NULL entry. -/
  din_argv : List (Option Nat) := []
  din_argc : Nat := 0

/-- A `dt_xlator_t`. -/
structure Xlator where
  dx_ident : Nat := 0
  dx_members : List Node := []
  /-- Value of `ctf_type_size(dx_dst_ctfp, dx_dst_base)`. -/
  dx_dst_size : Nat := 0
  dx_arg : Int := 0
  /-- Answer of `dt_xlator_dynamic`. -/
  dynamic : Bool := false

/-! ## Context, errors and the emitter monad -/

/-- Error kinds raised through `pcb_jmpbuf`, plus two outcomes that end a C run
without a return: a failed `assert`, and undefined behaviour (a read outside an
object, a NULL dereference). -/
inductive Err where
  | EDT_NOMEM | EDT_NOREG | EDT_RESERVEDREG | EDT_INVALIDBPFHELPER | EDT_CTF
  | EDT_STR2BIG | D_UNKNOWN | D_CG_DYN | D_CG_EXPR | ASSERT | UNDEFINED
  /-- Not an outcome of the C code: the fuel of the embedded visitor ran out. -/
  | OUT_OF_FUEL
  deriving DecidableEq, Repr

/-- The compilation context `dt_pcb_t` as far as the code generator uses it. -/
structure Pcb where
  /-- Field `pcb_ir`: the instruction list in program order. -/
  pcb_ir : List IrNode := []
  /-- Label counter of the instruction list. -/
  dl_label : Nat := 0
  /-- Bitmap `pcb_regs->dr_bitmap`: bit `r` set means register `r` is allocated. -/
  pcb_regs : List Bool := []
  pcb_stackdepth : Int := 0
  pcb_strtab : List String := []
  /-- Identifier table; nodes name identifiers by index. -/
  idents : List Ident := []
  xlators : List Xlator := []
  /-- Mapping `pcb_probe->pr_mapping`. -/
  pr_mapping : List Nat := []
  /-- Field `pcb_dret`: the root the driver was given, `none` for NULL. -/
  pcb_dret : Option Node := none

/-- Constants and external policies the source takes from outside. -/
structure Cfg where
  FIRST_BPF_HELPER : Nat
  BPF_NCLOBBERED : Nat
  /-- Value of `sizeof (char *)`. -/
  ptr_size : Nat
  /-- Setting `dtc_difnregs`: the cardinality of the register set. -/
  difnregs : Nat
  /-- Allocation policy of `dt_regset_alloc`: given the free registers in
  ascending order, the position of the one to take (reduced modulo their number). -/
  alloc_policy : List Nat → Nat
  /-- The variable `intoff` read by `dt_cg_xsetx`; the source neither declares nor
  assigns it. -/
  intoff : Int
  /-- Whether `_BIG_ENDIAN` is defined for the build. -/
  big_endian : Bool
  /-- The content of an automatic variable that is read before any assignment. -/
  indeterminate : Int
  /-- The content of the automatic `struct bpf_insn` of `dt_cg_mov`, which is read
  without ever being assigned; it may differ from call to call. -/
  indeterminate_insn : Pcb → Insn
  /-- The value of a node pointer converted to `uint32_t`. -/
  node_addr : Node → Nat
  DIF_VAR_ARGS : Int
  DIF_VAR_ARRAY_MAX : Int
  DIF_STROFF_MAX : Int

/-- Outcome of an emitter: normal return, or a raise. -/
inductive Res (α : Type) where
  | ok (a : α) (s : Pcb)
  | err (e : Err) (s : Pcb)

/-- An emitter. -/
def CG (α : Type) : Type := Pcb → Res α

namespace CG
/-- Normal return. -/
def ret {α : Type} (a : α) : CG α := fun s => Res.ok a s
/-- Sequencing: a raise in the first part skips the second. -/
def andThen {α β : Type} (m : CG α) (f : α → CG β) : CG β := fun s =>
  match m s with
  | Res.ok a s1 => f a s1
  | Res.err e s1 => Res.err e s1
/-- A `longjmp(yypcb->pcb_jmpbuf, e)`. -/
def raise {α : Type} (e : Err) : CG α := fun s => Res.err e s
/-- Read the context. -/
def get : CG Pcb := fun s => Res.ok s s
/-- Update the context. -/
def modify (f : Pcb → Pcb) : CG Unit := fun s => Res.ok () (f s)
end CG

instance : Monad CG where
  pure := CG.ret
  bind := CG.andThen

/-- Dereference of a pointer that may be NULL. -/
def deref {α : Type} : Option α → CG α
  | some a => pure a
  | none => CG.raise Err.UNDEFINED

/-- The statement `if (c) longjmp(yypcb->pcb_jmpbuf, e);` (or `xyerror`). -/
def raiseIf (c : Prop) [Decidable c] (e : Err) : CG Unit :=
  if c then CG.raise e else pure ()

/-- The statement `if (c) m;` without an `else`. -/
def doIf (c : Prop) [Decidable c] (m : CG Unit) : CG Unit :=
  if c then m else pure ()

/-- The value of an optional answer, or a raise of `e` when there is none. -/
def orRaise {α : Type} (o : Option α) (e : Err) : CG α :=
  match o with
  | none => CG.raise e
  | some a => pure a

/-- A C `assert`. -/
def cassert (b : Bool) : CG Unit := if b then pure () else CG.raise Err.ASSERT

/-- Conversion of a C integer to `uint64_t` / `size_t`. -/
def u64 (i : Int) : Nat := (i % (2 ^ 64 : Int)).toNat

/-! ## Instruction list, labels, register set -/

/-- Allocation of an instruction node, `dt_cg_node_alloc_labelled`. The arguments
are in the order every call site passes them (label, instruction); `malloc` is
taken to succeed. -/
def dt_cg_node_alloc_labelled (label : Option Nat) (instr : Insn) : IrNode :=
  { di_label := label, di_instr := instr, di_extern_ident := none }

/-- Allocation of an unlabelled instruction node, `dt_cg_node_alloc`: the source
calls `dt_cg_node_labelled(DT_LBL_NONE, instr)`, read as the labelled allocator. -/
def dt_cg_node_alloc (instr : Insn) : IrNode := dt_cg_node_alloc_labelled none instr

/-- Modelled from the spec: `dt_irlist_append` (dt_as.c is not among the sources):
the list is append-only and preserves insertion order exactly. -/
def dt_irlist_append (dip : IrNode) : CG Unit :=
  CG.modify fun s => { s with pcb_ir := s.pcb_ir ++ [dip] }

/-- Modelled from the spec: `dt_irlist_label` mints label ids from a monotonically
increasing counter. -/
def dt_irlist_label : CG Nat := fun s =>
  Res.ok s.dl_label { s with dl_label := s.dl_label + 1 }

/-- The registers that are free in a bitmap, ascending. -/
def freeRegs (bm : List Bool) : List Nat :=
  (List.range bm.length).filter fun r => !(bm.getD r true)

/-- Modelled from the spec: `dt_regset_alloc` takes any free register (which one is
the policy of `Cfg`) and returns -1 when none is free. -/
def dt_regset_alloc (cfg : Cfg) : CG Int := fun s =>
  let fr := freeRegs s.pcb_regs
  match fr.get? (cfg.alloc_policy fr % fr.length) with
  | some r => Res.ok (r : Int) { s with pcb_regs := s.pcb_regs.set r true }
  | none => Res.ok (-1) s

/-- Modelled from the spec: `dt_regset_free` marks the register free. -/
def dt_regset_free (reg : Int) : CG Unit :=
  CG.modify fun s =>
    if 0 ≤ reg then { s with pcb_regs := s.pcb_regs.set reg.toNat false } else s

/-- Modelled from the spec: `dt_regset_iter(drp, lo, hi, ...)` calls the visitor
once per currently allocated register in the half-open range `[lo, hi)`; this is the
sequence of registers visited. -/
def dt_regset_iter (bm : List Bool) (lo hi : Nat) : List Nat :=
  (List.range bm.length).filter fun r => decide (lo ≤ r) && decide (r < hi) && bm.getD r false

/-- The test `BT_TEST(drp->dr_bitmap, r) != 0`. -/
def BT_TEST (bm : List Bool) (r : Nat) : Bool := bm.getD r false

/-- Run an emitter over a list, in order. -/
def forEach {α : Type} (f : α → CG Unit) : List α → CG Unit
  | [] => pure ()
  | a :: as => do f a; forEach f as

/-! ## Moves, spills -/

/-- Emitter `dt_cg_mov`. The body evaluates `BPF_MOV64_REG(to, from);` as an
expression statement and discards the value; what it appends is its automatic
variable `instr`, which is never assigned. The operands therefore do not reach the
instruction list: the appended word is the indeterminate content of `instr`. -/
def dt_cg_mov (cfg : Cfg) (_to _from : Int) : CG Unit := do
  let s ← CG.get
  dt_irlist_append (dt_cg_node_alloc (cfg.indeterminate_insn s))

/-- What an argument of type `dt_irlist_t *` points to: the instruction list of the
context, or some other object. -/
inductive ListRef where
  | ir
  | other
  deriving DecidableEq, Repr

/-- Function `dt_irlist_append` through a list pointer: only an append to the
instruction list of the context changes that list. -/
def dt_irlist_append_to (dlp : ListRef) (dip : IrNode) : CG Unit :=
  match dlp with
  | ListRef.ir => dt_irlist_append dip
  | ListRef.other => pure ()

/-- Visitor `dt_spill`: grow the stack by 8 and store the register there, appending
to the list its cookie `d` points to. The members `stackdepth` and `stackkdepth` the
source names are read as `pcb_stackdepth`. -/
def dt_spill (d : ListRef) (reg : Nat) : CG Unit := do
  CG.modify fun s => { s with pcb_stackdepth := s.pcb_stackdepth + 8 }
  let s ← CG.get
  dt_irlist_append_to d (dt_cg_node_alloc
    (BPF_STX_MEM BPF_DW BPF_REG_FP reg (-s.pcb_stackdepth)))

/-- Visitor `dt_unspill`: reload the register from the top slot and shrink the
stack by 8. -/
def dt_unspill (d : ListRef) (reg : Nat) : CG Unit := do
  let s ← CG.get
  dt_irlist_append_to d (dt_cg_node_alloc
    (BPF_LDX_MEM BPF_DW reg BPF_REG_FP (-s.pcb_stackdepth)))
  CG.modify fun s => { s with pcb_stackdepth := s.pcb_stackdepth - 8 }

/-! ## Immediate loader -/

/-- Emitter `dt_cg_xsetx`. The comparison is `x < (unsigned int) -1`. -/
def dt_cg_xsetx (cfg : Cfg) (idp : Option Nat) (lbl : Option Nat) (reg : Int) (x : Nat) :
    CG Unit := do
  raiseIf (cfg.intoff = -1) Err.EDT_NOMEM
  (if x < 2 ^ 32 - 1 then
    dt_irlist_append (dt_cg_node_alloc_labelled lbl (BPF_MOV32_IMM reg x))
  else do
    dt_irlist_append (dt_cg_node_alloc_labelled lbl (Insn.LD_IMM64_LO (reg4 reg) (x % 2 ^ 32)))
    dt_irlist_append (dt_cg_node_alloc (Insn.LD_IMM64_HI (x / 2 ^ 32))))
  match idp with
  | none => pure ()
  | some i => CG.modify fun s =>
      match s.pcb_ir.getLast? with
      | none => s
      | some l => { s with pcb_ir := s.pcb_ir.dropLast ++ [{ l with di_extern_ident := some i }] }

/-- Emitter `dt_cg_setx`. -/
def dt_cg_setx (cfg : Cfg) (reg : Int) (x : Nat) : CG Unit :=
  dt_cg_xsetx cfg none none reg x

/-! ## Helper calls -/

/-- The prototype table `bpf_protos`; each string is the list of its characters, the
terminator being implicit. -/
def bpf_protos : List (List Char) :=
  [ ['r', 'r', 'i'],        -- dtrace_copys
    ['i'],                  -- dtrace_sets
    ['r', 'r'],             -- dtrace_strlen
    ['i', 'r'],             -- dtrace_set_global
    ['i', 'r'],             -- dtrace_set_thread
    ['i', 'r'],             -- dtrace_set_local
    ['i', 'r', 'd', 'i'],   -- dtrace_set_global_assoc
    ['i', 'r', 'd', 'i'],   -- dtrace_set_thread_assoc
    ['i'],                  -- dtrace_get_global
    ['i'],                  -- dtrace_get_thread
    ['i'],                  -- dtrace_get_local
    ['i', 'd', 'i'],        -- dtrace_get_global_assoc
    ['i', 'd', 'i'],        -- dtrace_get_thread_assoc
    ['i', 'r'],             -- dtrace_get_global_array
    ['i', 'r'],             -- dtrace_get_thread_array
    ['r', 'r'],             -- dtrace_strcmp
    ['r'],                  -- dtrace_alloc_scratch
    ['i', 'd', 'i'] ]       -- dtrace_subr

/-- The value of `sizeof(bpf_protos)`: the table is an array of 18 `char *`. -/
def sizeof_bpf_protos (cfg : Cfg) : Nat := 18 * cfg.ptr_size

/-- First loop of `dt_cg_call`. Its condition `argstr != '\0'` compares the pointer
with the null pointer constant, so it holds at every step and the loop is left only
by the `break` at a `d`; every step also advances `reg`. A prototype without `d`
makes it read past the terminator of the string, outside the object. The result is
`(needs_stackdepth, reg)`. -/
def dt_cg_call_scan : List Char → Nat → CG (Bool × Nat)
  | [], _ => CG.raise Err.UNDEFINED
  | c :: cs, reg => if c = 'd' then pure (true, reg) else dt_cg_call_scan cs (reg + 1)

/-- Second loop of `dt_cg_call`, with the same condition: after the last prototype
character the loop body runs on the terminator, which no `case` matches, so the
`default:` arm raises. `va_arg` past the last argument matters only where the value
is used (`r`, `i`). -/
def dt_cg_call_args (cfg : Cfg) : List Char → Nat → List Int → CG Unit
  | [], _, _ => CG.raise Err.EDT_INVALIDBPFHELPER
  | c :: cs, reg, ap =>
    if c = 'r' then do
      let arg ← deref ap.head?
      dt_cg_mov cfg reg arg
      dt_cg_call_args cfg cs (reg + 1) ap.tail
    else if c = 'i' then do
      let arg ← deref ap.head?
      dt_cg_setx cfg reg (arg % (2 ^ 32 : Int)).toNat
      dt_cg_call_args cfg cs (reg + 1) ap.tail
    else if c = 'd' then do
      dt_cg_mov cfg reg BPF_REG_0
      dt_cg_call_args cfg cs (reg + 1) ap.tail
    else CG.raise Err.EDT_INVALIDBPFHELPER

/-- Emitter `dt_cg_call`: a helper function call. `ap` is the variadic argument
list. The stack depth is passed to `BPF_ALU64_REG` in the source-register position.
The cookie handed to both register iterations is `&dlp`, the address of the
parameter and not the list it points to, so what the visitors append does not reach
the instruction list. -/
def dt_cg_call (cfg : Cfg) (helper : Nat) (ap : List Int) : CG Int := do
  let s ← CG.get
  raiseIf (BT_TEST s.pcb_regs 0) Err.EDT_RESERVEDREG
  raiseIf (helper < cfg.FIRST_BPF_HELPER ∨
      helper - cfg.FIRST_BPF_HELPER > sizeof_bpf_protos cfg) Err.EDT_INVALIDBPFHELPER
  let argstr ← deref (bpf_protos.get? (helper - cfg.FIRST_BPF_HELPER))
  let scan ← dt_cg_call_scan argstr 1
  let needs_stackdepth := scan.1
  let reg := scan.2
  doIf (needs_stackdepth) (do
    dt_cg_mov cfg BPF_REG_0 BPF_REG_FP
    let s ← CG.get
    dt_irlist_append (dt_cg_node_alloc
      (BPF_ALU64_REG AluOp.SUB BPF_REG_0 s.pcb_stackdepth)))
  let s ← CG.get
  forEach (dt_spill ListRef.other) (dt_regset_iter s.pcb_regs 1 cfg.BPF_NCLOBBERED)
  dt_cg_call_args cfg argstr reg ap
  dt_irlist_append (dt_cg_node_alloc (Insn.CALL helper))
  let s ← CG.get
  forEach (dt_unspill ListRef.other) (dt_regset_iter s.pcb_regs cfg.BPF_NCLOBBERED 1)
  pure BPF_REG_0

/-! ## Load and store selection, bit-fields, casts -/

/-- Function `clp2` on a 64-bit `size_t`. -/
def clp2 (x : Nat) : Nat :=
  let x0 := (x + 2 ^ 64 - 1) % 2 ^ 64
  let x1 := x0 ||| (x0 >>> 1)
  let x2 := x1 ||| (x1 >>> 2)
  let x3 := x2 ||| (x2 >>> 4)
  let x4 := x3 ||| (x3 >>> 8)
  let x5 := x4 ||| (x4 >>> 16)
  (x5 + 1) % 2 ^ 64

/-- Rounding `P2ROUNDUP(x, NBBY)` with `NBBY = 8`. -/
def P2ROUNDUP8 (x : Nat) : Nat := (x + 7) / 8 * 8

/-- The static table `ops` of `dt_cg_load`: four rows of five entries. -/
def dt_cg_load_ops : List Nat :=
  [ BPF_B, BPF_H, 0, BPF_W, BPF_DW,
    BPF_B, BPF_H, 0, BPF_W, BPF_DW,
    BPF_B, BPF_H, 0, BPF_W, BPF_DW,
    BPF_B, BPF_H, 0, BPF_W, BPF_DW ]

/-- Selector `dt_cg_load`: the load width code for a node and a CTF type. -/
def dt_cg_load (dn_flags : NFlags) (type : TyInfo) : CG Nat := do
  let size : Int :=
    match dn_flags.BITFIELD, type.enc_bits with
    | true, some bits => (clp2 (P2ROUNDUP8 bits / 8) : Int)
    | _, _ => type.size
  raiseIf (size < 1 ∨ size > 16 ∨ (size.toNat &&& (size.toNat - 1)) ≠ 0) Err.D_UNKNOWN
  let size := size - 1
  raiseIf (dn_flags.USERLAND) Err.D_UNKNOWN
  deref (dt_cg_load_ops.get? size.toNat)

/-- Emitter `dt_cg_ptrsize`: scale `dreg` by the element size of the pointer or
array type of `dnp`. `BP_DIV` at the second call site is read as `BPF_DIV`. -/
def dt_cg_ptrsize (cfg : Cfg) (dnp : NodeInfo) (op : AluOp) (dreg : Int) : CG Unit := do
  let sreg ← dt_regset_alloc cfg
  raiseIf (sreg = -1) Err.EDT_NOREG
  cassert (dnp.type_kind = CtfKind.POINTER || dnp.type_kind = CtfKind.ARRAY)
  raiseIf (dnp.type_kind = CtfKind.ARRAY ∧ dnp.array_info_ok = false) Err.EDT_CTF
  let size := dnp.ref_size
  if size = 1 then
    pure ()
  else do
    dt_cg_setx cfg sreg (u64 size)
    dt_irlist_append (dt_cg_node_alloc (BPF_ALU64_REG op dreg sreg))
    dt_regset_free sreg

/-- The left-shift position of a bit-field in its container (`shift` of
`dt_cg_field_set`, and of the unsigned arm of `dt_cg_field_get`). -/
def field_shift (cfg : Cfg) (ctm_offset bits : Nat) : Nat :=
  if cfg.big_endian then
    u64 ((clp2 (P2ROUNDUP8 bits / 8) * 8 : Int) - ((ctm_offset % 8 + bits : Nat) : Int))
  else ctm_offset % 8

/-- Emitter `dt_cg_field_get`: the epilogue of a bit-field load; `r1` is
`dnp->dn_left->dn_reg`. -/
def dt_cg_field_get (cfg : Cfg) (dnp : NodeInfo) (r1 : Int) (mp : MembInfo) : CG Unit := do
  let bits ← orRaise mp.ctm_ty.enc_bits Err.D_UNKNOWN
  raiseIf (bits > 64) Err.D_UNKNOWN
  cassert (dnp.dn_op = Tok.PTR || dnp.dn_op = Tok.DOT)
  let r2 ← dt_regset_alloc cfg
  raiseIf (r2 = -1) Err.EDT_NOREG
  (if dnp.dn_flags.SIGNED then do
    let shift : Nat :=
      if cfg.big_endian then
        u64 ((clp2 (P2ROUNDUP8 bits / 8) * 8 : Int) - ((mp.ctm_offset % 8 : Nat) : Int))
      else mp.ctm_offset % 8 + bits
    dt_cg_setx cfg r2 (u64 (64 - (shift : Int)))
    dt_irlist_append (dt_cg_node_alloc (BPF_ALU64_REG AluOp.LSH r2 r1))
    dt_cg_setx cfg r2 (u64 (64 - (bits : Int)))
    dt_irlist_append (dt_cg_node_alloc (BPF_ALU64_REG AluOp.ARSH r1 r2))
  else do
    let shift := field_shift cfg mp.ctm_offset bits
    dt_cg_setx cfg r2 shift
    dt_irlist_append (dt_cg_node_alloc (BPF_ALU64_REG AluOp.LSH r2 r1))
    dt_cg_setx cfg r2 (u64 ((2 : Int) ^ bits - 1))
    dt_irlist_append (dt_cg_node_alloc (BPF_ALU64_REG AluOp.AND r2 r1)))
  dt_regset_free r2

/-- Emitter `dt_cg_field_set`: the prologue of a bit-field store. Returns the fresh
register that holds the value to store. -/
def dt_cg_field_set (cfg : Cfg) (src_reg : Int) (dst : Node) (dst_reg : Int) : CG Int := do
  cassert (dst.info.dn_op = Tok.PTR || dst.info.dn_op = Tok.DOT)
  let right ← deref dst.dn_right
  cassert (right.info.dn_kind = Kind.IDENT)
  let m ← orRaise dst.info.memb Err.EDT_CTF
  let bits ← orRaise m.ctm_ty.enc_bits Err.D_UNKNOWN
  raiseIf (bits > 64) Err.D_UNKNOWN
  let r1 ← dt_regset_alloc cfg
  raiseIf (r1 = -1) Err.EDT_NOREG
  let r2 ← dt_regset_alloc cfg
  raiseIf (r2 = -1) Err.EDT_NOREG
  let r3 ← dt_regset_alloc cfg
  raiseIf (r3 = -1) Err.EDT_NOREG
  let shift := field_shift cfg m.ctm_offset bits
  let fmask := u64 ((2 : Int) ^ bits - 1)
  let cmask := u64 (-1 - ((fmask <<< shift) % 2 ^ 64 : Nat))
  dt_cg_mov cfg r1 dst_reg
  dt_cg_setx cfg r2 cmask
  dt_irlist_append (dt_cg_node_alloc (BPF_ALU64_REG AluOp.AND r1 r2))
  dt_cg_setx cfg r2 fmask
  dt_irlist_append (dt_cg_node_alloc (BPF_ALU64_REG AluOp.AND r2 src_reg))
  dt_cg_setx cfg r3 shift
  dt_irlist_append (dt_cg_node_alloc (BPF_ALU64_REG AluOp.LSH r3 r2))
  dt_irlist_append (dt_cg_node_alloc (BPF_ALU64_REG AluOp.OR r1 r2))
  dt_regset_free r3
  dt_regset_free r2
  pure r1

/-- Helper id of `dtrace_copys`, the first entry of the prototype table; the
helper ids follow the order of `bpf_protos` from `FIRST_BPF_HELPER`. -/
def BPF_FUNC_dtrace_copys (cfg : Cfg) : Nat := cfg.FIRST_BPF_HELPER
/-- Helper id of `dtrace_sets`. -/
def BPF_FUNC_dtrace_sets (cfg : Cfg) : Nat := cfg.FIRST_BPF_HELPER + 1
/-- Helper id of `dtrace_strlen`. -/
def BPF_FUNC_dtrace_strlen (cfg : Cfg) : Nat := cfg.FIRST_BPF_HELPER + 2
/-- Helper id of `dtrace_set_global`. -/
def BPF_FUNC_dtrace_set_global (cfg : Cfg) : Nat := cfg.FIRST_BPF_HELPER + 3
/-- Helper id of `dtrace_set_thread`. -/
def BPF_FUNC_dtrace_set_thread (cfg : Cfg) : Nat := cfg.FIRST_BPF_HELPER + 4
/-- Helper id of `dtrace_set_local`. -/
def BPF_FUNC_dtrace_set_local (cfg : Cfg) : Nat := cfg.FIRST_BPF_HELPER + 5
/-- Helper id of `dtrace_set_global_assoc`. -/
def BPF_FUNC_dtrace_set_global_assoc (cfg : Cfg) : Nat := cfg.FIRST_BPF_HELPER + 6
/-- Helper id of `dtrace_set_thread_assoc`. -/
def BPF_FUNC_dtrace_set_thread_assoc (cfg : Cfg) : Nat := cfg.FIRST_BPF_HELPER + 7
/-- Helper id of `dtrace_get_global`. -/
def BPF_FUNC_dtrace_get_global (cfg : Cfg) : Nat := cfg.FIRST_BPF_HELPER + 8
/-- Helper id of `dtrace_get_thread`. -/
def BPF_FUNC_dtrace_get_thread (cfg : Cfg) : Nat := cfg.FIRST_BPF_HELPER + 9
/-- Helper id of `dtrace_get_local`. -/
def BPF_FUNC_dtrace_get_local (cfg : Cfg) : Nat := cfg.FIRST_BPF_HELPER + 10
/-- Helper id of `dtrace_get_global_assoc`. -/
def BPF_FUNC_dtrace_get_global_assoc (cfg : Cfg) : Nat := cfg.FIRST_BPF_HELPER + 11
/-- Helper id of `dtrace_get_thread_assoc`. -/
def BPF_FUNC_dtrace_get_thread_assoc (cfg : Cfg) : Nat := cfg.FIRST_BPF_HELPER + 12
/-- Helper id of `dtrace_get_global_array`. -/
def BPF_FUNC_dtrace_get_global_array (cfg : Cfg) : Nat := cfg.FIRST_BPF_HELPER + 13
/-- Helper id of `dtrace_get_thread_array`. -/
def BPF_FUNC_dtrace_get_thread_array (cfg : Cfg) : Nat := cfg.FIRST_BPF_HELPER + 14
/-- Helper id of `dtrace_strcmp`. -/
def BPF_FUNC_dtrace_strcmp (cfg : Cfg) : Nat := cfg.FIRST_BPF_HELPER + 15
/-- Helper id of `dtrace_alloc_scratch`. -/
def BPF_FUNC_dtrace_alloc_scratch (cfg : Cfg) : Nat := cfg.FIRST_BPF_HELPER + 16
/-- Helper id of `dtrace_subr`. -/
def BPF_FUNC_dtrace_subr (cfg : Cfg) : Nat := cfg.FIRST_BPF_HELPER + 17

/-- Emitter `dt_cg_store`: store the value of `src` (in `src_reg`) to the address
in `dst_reg`. -/
def dt_cg_store (cfg : Cfg) (src : NodeInfo) (src_reg : Int) (dst : Node) (dst_reg : Int) :
    CG Unit := do
  let size : Nat :=
    match dst.info.dn_flags.BITFIELD, dst.info.ty.enc_bits with
    | true, some bits => clp2 (P2ROUNDUP8 bits / 8)
    | _, _ => u64 src.ty.size
  if src.dn_flags.REF then do
    let _ ← dt_cg_call cfg (BPF_FUNC_dtrace_copys cfg) [src_reg, dst_reg, (size : Int)]
    pure ()
  else do
    let reg ← (if dst.info.dn_flags.BITFIELD then dt_cg_field_set cfg src_reg dst dst_reg
               else pure src_reg)
    let size ←
      (if size = 1 then pure BPF_B
       else if size = 2 then pure BPF_H
       else if size = 4 then pure BPF_W
       else if size = 8 then pure BPF_DW
       else CG.raise Err.D_UNKNOWN)
    dt_irlist_append (dt_cg_node_alloc (BPF_STX_MEM size dst_reg reg 0))
    doIf (dst.info.dn_flags.BITFIELD) (dt_regset_free reg)

/-- Emitter `dt_cg_typecast`: `src_reg` and `dst_reg` are `src->dn_reg` and
`dst->dn_reg`. -/
def dt_cg_typecast (src : NodeInfo) (src_reg : Int) (dst : ArgSig) (dst_reg : Int) :
    CG Unit := do
  let srcsize := u64 src.ty.size
  let dstsize := u64 dst.size
  if dst.is_scalar ∧ (dstsize < srcsize ∨ src.dn_flags.SIGNED ≠ dst.SIGNED) then do
    let n : Int := if dstsize < srcsize then 64 - (dstsize : Int) * 8
                   else 64 - (srcsize : Int) * 8
    dt_irlist_append (dt_cg_node_alloc (BPF_ALU64_REG AluOp.LSH dst_reg src_reg))
    dt_irlist_append (dt_cg_node_alloc
      (BPF_ALU64_IMM (if dst.SIGNED then AluOp.ARSH else AluOp.RSH) dst_reg n))

/-- The view of a node that `dt_cg_typecast` takes of its destination. -/
def NodeInfo.sig (n : NodeInfo) : ArgSig :=
  { size := n.ty.size, is_scalar := n.is_scalar, SIGNED := n.dn_flags.SIGNED }

/-! ## Identifier table access -/

/-- Read identifier `i` of the table. -/
def getIdent (i : Nat) : CG Ident := do
  let s ← CG.get
  deref (s.idents.get? i)

/-- Update identifier `i` of the table in place. -/
def modIdent (i : Nat) (f : Ident → Ident) : CG Unit :=
  CG.modify fun s => { s with idents := s.idents.modify f i }

/-- Read translator `i` of the table. -/
def getXlator (i : Nat) : CG Xlator := do
  let s ← CG.get
  deref (s.xlators.get? i)

/-- Assignment to `yypcb->pcb_stackdepth`. -/
def setStackdepth (d : Int) : CG Unit :=
  CG.modify fun s => { s with pcb_stackdepth := d }

/-- Run an emitter over a list and collect the results, in order. -/
def mapEach {α β : Type} (f : α → CG β) : List α → CG (List β)
  | [] => pure []
  | a :: as => do
    let b ← f a
    let bs ← mapEach f as
    pure (b :: bs)

/-! ## Expression emitters -/

/-- Second loop of `dt_cg_arglist`, over the arguments with their result
registers; `i` indexes `dis_args`, `curarg` is the running slot offset. For an
argument that is not by-reference `size_reg` is read without having been assigned. -/
def dt_cg_arglist_push (cfg : Cfg) (dis_args : List ArgSig) :
    List (Node × Int) → Nat → Int → CG Unit
  | [], _, _ => pure ()
  | (dnp, reg) :: rest, i, curarg => do
    let t := dnp.info.diftype
    let formal ← deref (dis_args.get? i)
    dt_cg_typecast dnp.info reg formal reg
    let size_reg ←
      (if t.BYREF then
        if t.is_string then
          dt_cg_call cfg (BPF_FUNC_dtrace_strlen cfg) [reg, (t.dtdt_size : Int)]
        else do
          dt_cg_setx cfg BPF_REG_0 t.dtdt_size
          pure BPF_REG_0
      else pure cfg.indeterminate)
    dt_irlist_append (dt_cg_node_alloc (BPF_STX_MEM BPF_DW BPF_REG_FP reg (-curarg)))
    let curarg := curarg + 8
    (if t.BYREF then
      dt_irlist_append (dt_cg_node_alloc (BPF_ST_MEM BPF_DW BPF_REG_FP (-curarg) 0))
    else
      dt_irlist_append (dt_cg_node_alloc (BPF_STX_MEM BPF_DW BPF_REG_FP size_reg (-curarg))))
    dt_cg_arglist_push cfg dis_args rest (i + 1) (curarg + 8)

/-- Emitter `dt_cg_arglist`: push an argument list onto the stack; returns the
number of arguments. -/
def dt_cg_arglist (cfg : Cfg) (visit : Node → CG Int) (idp : Nat) (args : List Node) :
    CG Int := do
  let id ← getIdent idp
  let s ← CG.get
  let curarg := s.pcb_stackdepth
  let regs ← mapEach visit args
  let argcount : Int := args.length
  CG.modify fun s => { s with pcb_stackdepth := s.pcb_stackdepth + (argcount * 2) * 8 }
  dt_cg_arglist_push cfg id.dis_args (args.zip regs) 0 curarg
  pure argcount

/-- Emitter `dt_cg_arithmetic_op`. Returns `dnp->dn_reg` and
`dnp->dn_right->dn_reg`. -/
def dt_cg_arithmetic_op (cfg : Cfg) (visit : Node → CG Int) (dnp : Node) (op : AluOp) :
    CG (Int × Int) := do
  let o := dnp.info.dn_op
  let is_ptr_op0 := o = Tok.ADD || o = Tok.SUB || o = Tok.ADD_EQ || o = Tok.SUB_EQ
  let left ← deref dnp.dn_left
  let right ← deref dnp.dn_right
  let lp_is_ptr := left.info.is_pointer
  let rp_is_ptr := right.info.is_pointer
  doIf (lp_is_ptr && rp_is_ptr) (cassert (o = Tok.SUB))
  let is_ptr_op := if lp_is_ptr && rp_is_ptr then false else is_ptr_op0
  let lreg ← visit left
  doIf (is_ptr_op && rp_is_ptr) (dt_cg_ptrsize cfg dnp.info AluOp.MUL lreg)
  let rreg ← visit right
  doIf (is_ptr_op && lp_is_ptr) (dt_cg_ptrsize cfg dnp.info AluOp.MUL rreg)
  dt_irlist_append (dt_cg_node_alloc (BPF_ALU64_REG op lreg rreg))
  dt_regset_free rreg
  doIf (lp_is_ptr && rp_is_ptr) (dt_cg_ptrsize cfg right.info AluOp.DIV lreg)
  pure (lreg, rreg)

/-- Selector `dt_cg_stvar`: the store helper for an identifier. The tables have
three entries each and the index can be 3. -/
def dt_cg_stvar (cfg : Cfg) (idp : Ident) : CG Nat :=
  let aops : List Nat :=
    [BPF_FUNC_dtrace_set_global_assoc cfg, BPF_FUNC_dtrace_set_thread_assoc cfg, 0]
  let sops : List Nat :=
    [BPF_FUNC_dtrace_set_global cfg, BPF_FUNC_dtrace_set_thread cfg,
     BPF_FUNC_dtrace_set_local cfg]
  let i := (if idp.LOCAL then 2 else 0) + (if idp.TLS then 1 else 0)
  deref (if idp.di_kind = IdKind.ARRAY then aops.get? i else sops.get? i)

/-- The step of `++` and `--`: the pointee size for a pointer, else 1. -/
def arith_step (dnp : NodeInfo) : CG Int :=
  if dnp.is_pointer then do
    cassert (dnp.type_kind = CtfKind.POINTER)
    pure dnp.ref_size
  else pure 1

/-- Emitter `dt_cg_prearith_op`. -/
def dt_cg_prearith_op (cfg : Cfg) (visit : Node → CG Int) (dnp : Node) (op : AluOp) :
    CG Int := do
  let size ← arith_step dnp.info
  let child ← deref dnp.dn_left
  let dn_reg ← visit child
  let reg ← dt_regset_alloc cfg
  raiseIf (reg = -1) Err.EDT_NOREG
  dt_cg_setx cfg reg (u64 size)
  dt_irlist_append (dt_cg_node_alloc (BPF_ALU64_REG op dn_reg reg))
  dt_regset_free reg
  if child.info.dn_kind = Kind.VAR then do
    modIdent child.info.dn_ident fun i => { i with DIFW := true }
    let idp ← getIdent child.info.dn_ident
    let h ← dt_cg_stvar cfg idp
    let _ ← dt_cg_call cfg h [idp.di_id, dn_reg]
    pure dn_reg
  else do
    cassert child.info.dn_flags.WRITABLE
    cassert child.info.dn_flags.LVALUE
    let creg ← visit child.forceRef
    dt_cg_store cfg dnp.info dn_reg child.forceRef creg
    dt_regset_free creg
    pure dn_reg

/-- Emitter `dt_cg_postarith_op`. -/
def dt_cg_postarith_op (cfg : Cfg) (visit : Node → CG Int) (dnp : Node) (op : AluOp) :
    CG Int := do
  let size ← arith_step dnp.info
  let child ← deref dnp.dn_left
  let dn_reg ← visit child
  let nreg ← dt_regset_alloc cfg
  raiseIf (nreg = -1) Err.EDT_NOREG
  dt_cg_setx cfg nreg (u64 size)
  dt_irlist_append (dt_cg_node_alloc (BPF_ALU64_REG op nreg dn_reg))
  (if child.info.dn_kind = Kind.VAR then do
    modIdent child.info.dn_ident fun i => { i with DIFW := true }
    let idp ← getIdent child.info.dn_ident
    let h ← dt_cg_stvar cfg idp
    let _ ← dt_cg_call cfg h [idp.di_id, nreg]
    pure ()
  else do
    cassert child.info.dn_flags.WRITABLE
    cassert child.info.dn_flags.LVALUE
    let creg ← visit child.forceRef
    dt_cg_store cfg dnp.info nreg child.forceRef creg
    dt_regset_free creg)
  dt_regset_free nreg
  pure dn_reg

/-- Predicate `dt_cg_compare_signed`. -/
def dt_cg_compare_signed (dnp : Node) : CG Bool := do
  let left ← deref dnp.dn_left
  let right ← deref dnp.dn_right
  if left.info.is_string || right.info.is_string then pure true
  else if !left.info.is_arith || !right.info.is_arith then pure false
  else pure dnp.info.promote_signed

/-- Emitter `dt_cg_compare_op`. In the string arm the source moves into
`dst->dn_left->dn_reg`; `dst` is read as `dnp`. -/
def dt_cg_compare_op (cfg : Cfg) (visit : Node → CG Int) (dnp : Node) (op : JmpOp) :
    CG Int := do
  let lbl_true ← dt_irlist_label
  let lbl_post ← dt_irlist_label
  let left ← deref dnp.dn_left
  let lreg ← visit left
  let right ← deref dnp.dn_right
  let rreg ← visit right
  (if left.info.is_string || right.info.is_string then do
    let reg ← dt_cg_call cfg (BPF_FUNC_dtrace_strcmp cfg) [lreg, rreg]
    dt_cg_mov cfg lreg reg
  else
    dt_irlist_append (dt_cg_node_alloc (BPF_ALU64_REG AluOp.SUB lreg rreg)))
  dt_regset_free rreg
  dt_irlist_append (dt_cg_node_alloc (BPF_JMP_IMM op lreg 0 lbl_true))
  dt_cg_setx cfg lreg 0
  dt_irlist_append (dt_cg_node_alloc (BPF_JMP_IMM JmpOp.JA 0 0 lbl_post))
  dt_cg_xsetx cfg none (some lbl_true) lreg 1
  dt_irlist_append (dt_cg_node_alloc_labelled (some lbl_post) Insn.NOP)
  pure lreg

/-- Overwrite `di_instr` of the instruction node at position `pos` of the list
(the assignment through the saved pointer `dip`). -/
def patchInstr (pos : Nat) (instr : Insn) : CG Unit :=
  CG.modify fun s =>
    { s with pcb_ir := s.pcb_ir.modify (fun n => { n with di_instr := instr }) pos }

/-- Emitter `dt_cg_ternary_op`. `BPF_JE` is read as `BPF_JEQ` and `DIF_REG_R0` as
`BPF_REG_0`. -/
def dt_cg_ternary_op (visit : Node → CG Int) (dnp : Node) : CG Int := do
  let lbl_false ← dt_irlist_label
  let lbl_post ← dt_irlist_label
  let expr ← deref dnp.dn_expr
  let ereg ← visit expr
  dt_irlist_append (dt_cg_node_alloc (BPF_JMP_IMM JmpOp.JEQ ereg 0 lbl_false))
  dt_regset_free ereg
  let left ← deref dnp.dn_left
  let lreg ← visit left
  let s ← CG.get
  let dip := s.pcb_ir.length
  dt_irlist_append (dt_cg_node_alloc (BPF_MOV64_REG lreg BPF_REG_0))
  dt_regset_free lreg
  dt_irlist_append (dt_cg_node_alloc (BPF_JMP_IMM JmpOp.JA 0 0 lbl_post))
  dt_irlist_append (dt_cg_node_alloc_labelled (some lbl_false) Insn.NOP)
  let right ← deref dnp.dn_right
  let dn_reg ← visit right
  patchInstr dip (BPF_MOV64_REG lreg dn_reg)
  dt_irlist_append (dt_cg_node_alloc_labelled (some lbl_post) Insn.NOP)
  pure dn_reg

/-- Emitter `dt_cg_logical_and`. -/
def dt_cg_logical_and (cfg : Cfg) (visit : Node → CG Int) (dnp : Node) : CG Int := do
  let lbl_false ← dt_irlist_label
  let lbl_post ← dt_irlist_label
  let left ← deref dnp.dn_left
  let lreg ← visit left
  dt_irlist_append (dt_cg_node_alloc (BPF_JMP_IMM JmpOp.JEQ lreg 0 lbl_false))
  dt_regset_free lreg
  let right ← deref dnp.dn_right
  let dn_reg ← visit right
  dt_irlist_append (dt_cg_node_alloc (BPF_JMP_IMM JmpOp.JEQ dn_reg 0 lbl_false))
  dt_cg_setx cfg dn_reg 1
  dt_irlist_append (dt_cg_node_alloc (BPF_JMP_IMM JmpOp.JA 0 0 lbl_post))
  dt_cg_xsetx cfg none (some lbl_false) dn_reg 0
  dt_irlist_append (dt_cg_node_alloc_labelled (some lbl_post) Insn.NOP)
  pure dn_reg

/-- Emitter `dt_cg_logical_xor`. -/
def dt_cg_logical_xor (cfg : Cfg) (visit : Node → CG Int) (dnp : Node) : CG Int := do
  let lbl_next ← dt_irlist_label
  let lbl_tail ← dt_irlist_label
  let left ← deref dnp.dn_left
  let lreg ← visit left
  dt_irlist_append (dt_cg_node_alloc (BPF_JMP_IMM JmpOp.JEQ lreg 0 lbl_next))
  dt_cg_setx cfg lreg 1
  dt_irlist_append (dt_cg_node_alloc_labelled (some lbl_next) Insn.NOP)
  let right ← deref dnp.dn_right
  let rreg ← visit right
  dt_irlist_append (dt_cg_node_alloc (BPF_JMP_IMM JmpOp.JEQ rreg 0 lbl_tail))
  dt_cg_setx cfg rreg 1
  dt_irlist_append (dt_cg_node_alloc_labelled (some lbl_tail)
    (BPF_ALU64_REG AluOp.XOR lreg rreg))
  dt_regset_free rreg
  pure lreg

/-- Emitter `dt_cg_logical_or`. -/
def dt_cg_logical_or (cfg : Cfg) (visit : Node → CG Int) (dnp : Node) : CG Int := do
  let lbl_true ← dt_irlist_label
  let lbl_false ← dt_irlist_label
  let lbl_post ← dt_irlist_label
  let left ← deref dnp.dn_left
  let lreg ← visit left
  dt_irlist_append (dt_cg_node_alloc (BPF_JMP_IMM JmpOp.JNE lreg 0 lbl_true))
  dt_regset_free lreg
  let right ← deref dnp.dn_right
  let dn_reg ← visit right
  dt_irlist_append (dt_cg_node_alloc (BPF_JMP_IMM JmpOp.JEQ dn_reg 0 lbl_false))
  dt_cg_xsetx cfg none (some lbl_true) dn_reg 1
  dt_irlist_append (dt_cg_node_alloc (BPF_JMP_IMM JmpOp.JA 0 0 lbl_post))
  dt_cg_xsetx cfg none (some lbl_false) dn_reg 0
  dt_irlist_append (dt_cg_node_alloc_labelled (some lbl_post) Insn.NOP)
  pure dn_reg

/-- Emitter `dt_cg_logical_neg`. -/
def dt_cg_logical_neg (cfg : Cfg) (visit : Node → CG Int) (dnp : Node) : CG Int := do
  let lbl_zero ← dt_irlist_label
  let lbl_post ← dt_irlist_label
  let child ← deref dnp.dn_left
  let dn_reg ← visit child
  dt_irlist_append (dt_cg_node_alloc (BPF_JMP_IMM JmpOp.JEQ dn_reg 0 lbl_zero))
  dt_cg_setx cfg dn_reg 0
  dt_irlist_append (dt_cg_node_alloc (BPF_JMP_IMM JmpOp.JA 0 0 lbl_post))
  dt_cg_xsetx cfg none (some lbl_zero) dn_reg 1
  dt_irlist_append (dt_cg_node_alloc_labelled (some lbl_post) Insn.NOP)
  pure dn_reg

/-- The member loop of the translator arm of `dt_cg_asgn_op`; `r1` holds the scratch
base. The fake `.` node `dn` takes type and flags of the member
(`dt_node_type_propagate`), with an identifier node on its right. -/
def dt_cg_asgn_members (cfg : Cfg) (visit : Node → CG Int) (r1 : Int) : List Node → CG Unit
  | [] => pure ()
  | mnp :: rest => do
    let membexpr ← deref mnp.dn_membexpr
    let mreg ← visit membexpr
    dt_cg_typecast membexpr.info mreg mnp.info.sig mreg
    let ctm ← orRaise mnp.info.memb Err.EDT_CTF
    doIf (ctm.ctm_offset ≠ 0) (dt_irlist_append (dt_cg_node_alloc
        (BPF_ALU64_IMM AluOp.ADD r1 ((ctm.ctm_offset / 8 : Nat) : Int))))
    let mn : Node := Node.leaf { dn_kind := Kind.IDENT, dn_op := Tok.IDENT,
                                 dn_string := mnp.info.dn_membname }
    let dn : Node := Node.mk { mnp.info with dn_kind := Kind.OP2, dn_op := Tok.DOT, dn_reg := r1 }
      none (some mn) none none []
    dt_cg_store cfg mnp.info mreg dn r1
    dt_regset_free mreg
    dt_cg_asgn_members cfg visit r1 rest

/-- Emitter `dt_cg_asgn_op`. `dn_reg` and `right_reg` are `dnp->dn_reg` and
`dnp->dn_right->dn_reg` at the call; the result is `dnp->dn_reg` at the return.
`is_thread` is initialised from `idp->di_flags` while `idp` still holds the outcome
of the translator lookup, which is NULL unless the right-hand side is a translator
output. -/
def dt_cg_asgn_op (cfg : Cfg) (visit : Node → CG Int) (dnp : Node) (dn_reg right_reg : Int) :
    CG Int := do
  let right ← deref dnp.dn_right
  let dn_reg ←
    (match right.info.resolve_xlsou with
    | some ix => do
      let idp ← getIdent ix
      let dxp ← getXlator idp.di_xlator
      let r1 ← dt_regset_alloc cfg
      raiseIf (r1 = -1) Err.EDT_NOREG
      dt_cg_setx cfg r1 dxp.dx_dst_size
      let ret ← dt_cg_call cfg (BPF_FUNC_dtrace_alloc_scratch cfg) [r1]
      dt_cg_mov cfg r1 ret
      modIdent dxp.dx_ident fun i => { i with CGREG := true, di_id := right_reg }
      dt_cg_asgn_members cfg visit r1 dxp.dx_members
      modIdent dxp.dx_ident fun i => { i with CGREG := false, di_id := 0 }
      doIf (right_reg ≠ -1) (dt_regset_free right_reg)
      cassert (dn_reg = right_reg)
      pure r1
    | none => pure dn_reg)
  let left ← deref dnp.dn_left
  (if left.info.dn_kind = Kind.VAR then do
    let _ ← deref right.info.resolve_xlsou
    modIdent left.info.dn_ident fun i => { i with DIFW := true }
    let idp ← getIdent left.info.dn_ident
    if idp.di_kind = IdKind.ARRAY then do
      let s ← CG.get
      let prev_depth := s.pcb_stackdepth
      let argcount ← dt_cg_arglist cfg visit left.info.dn_ident left.dn_args
      let h ← dt_cg_stvar cfg idp
      let _ ← dt_cg_call cfg h [idp.di_id, dn_reg, 0, argcount]
      setStackdepth prev_depth
    else do
      let h ← dt_cg_stvar cfg idp
      let _ ← dt_cg_call cfg h [idp.di_id, dn_reg]
      pure ()
  else do
    cassert left.info.dn_flags.WRITABLE
    cassert left.info.dn_flags.LVALUE
    let lreg ← visit left.forceRef
    dt_cg_store cfg dnp.info dn_reg left.forceRef lreg
    dt_regset_free lreg)
  pure dn_reg

/-- The arm `if (dnp->dn_flags & DT_NF_REF)` of `dt_cg_assoc_op`: the code that
installs scratch storage for an element and reads it again. `dn_reg` is
`dnp->dn_reg` and `op` the get helper chosen before the arm. -/
def dt_cg_assoc_ref (cfg : Cfg) (dnp : Node) (dn_reg : Int) (op : Nat) : CG Unit := do
  let stvop := if op = BPF_FUNC_dtrace_get_thread_assoc cfg
               then BPF_FUNC_dtrace_set_thread_assoc cfg
               else BPF_FUNC_dtrace_set_global_assoc cfg
  let label ← dt_irlist_label
  dt_irlist_append (dt_cg_node_alloc (BPF_JMP_IMM JmpOp.JEQ dn_reg 0 label))
  dt_cg_setx cfg dn_reg (u64 dnp.info.ty.size)
  let ret ← dt_cg_call cfg (BPF_FUNC_dtrace_alloc_scratch cfg) [dn_reg]
  dt_cg_mov cfg dn_reg ret
  modIdent dnp.info.dn_ident fun i => { i with DIFW := true }
  let id2 ← getIdent dnp.info.dn_ident
  let _ ← dt_cg_call cfg stvop [id2.di_id, dn_reg]
  let ret ← dt_cg_call cfg op [id2.di_id]
  dt_cg_mov cfg dn_reg ret
  dt_irlist_append (dt_cg_node_alloc_labelled (some label) Insn.NOP)

/-- Emitter `dt_cg_assoc_op`. The identifier `idp`, which this function does not
declare, is read as `dnp->dn_ident` (and `idp->dn_ident` likewise). -/
def dt_cg_assoc_op (cfg : Cfg) (visit : Node → CG Int) (dnp : Node) : CG Int := do
  let s ← CG.get
  let prev_depth := s.pcb_stackdepth
  cassert (dnp.info.dn_kind = Kind.VAR)
  let id0 ← getIdent dnp.info.dn_ident
  cassert (!id0.LOCAL)
  cassert (!dnp.dn_args.isEmpty)
  let argcount ← dt_cg_arglist cfg visit dnp.info.dn_ident dnp.dn_args
  let dn_reg ← dt_regset_alloc cfg
  raiseIf (dn_reg = -1) Err.EDT_NOREG
  let id1 ← getIdent dnp.info.dn_ident
  let op := if id1.TLS then BPF_FUNC_dtrace_get_thread_assoc cfg
            else BPF_FUNC_dtrace_get_global_assoc cfg
  modIdent dnp.info.dn_ident fun i => { i with DIFR := true }
  let ret ← dt_cg_call cfg op [id1.di_id, 0, argcount]
  dt_cg_mov cfg dn_reg ret
  doIf (dnp.info.dn_flags.REF) (dt_cg_assoc_ref cfg dnp dn_reg op)
  setStackdepth prev_depth
  pure dn_reg

/-- Emitter `dt_cg_array_op`. -/
def dt_cg_array_op (cfg : Cfg) (visit : Node → CG Int) (dnp : Node) : CG Int := do
  let s ← CG.get
  let arg ← deref dnp.dn_args.head?
  let saved := arg.info.dn_value
  let idp ← getIdent dnp.info.dn_ident
  cassert (dnp.info.dn_kind = Kind.VAR)
  cassert (!idp.LOCAL)
  cassert (arg.info.dn_kind = Kind.INT)
  cassert (dnp.dn_args.length = 1)
  let dynamic ←
    (if idp.di_id = cfg.DIF_VAR_ARGS ∧
        (idp.di_kind = IdKind.XLPTR ∨ idp.di_kind = IdKind.XLSOU) then do
      let dxp ← getXlator idp.di_xlator
      pure dxp.dynamic
    else pure false)
  if dynamic then
    pure (-1)
  else do
    let arg1 ←
      (if idp.di_id = cfg.DIF_VAR_ARGS then do
        let v ← deref (s.pr_mapping.get? saved)
        pure (arg.withValue v)
      else pure arg)
    let dn_reg ← visit arg1
    let op := if idp.TLS then BPF_FUNC_dtrace_get_thread_array cfg
              else BPF_FUNC_dtrace_get_global_array cfg
    modIdent dnp.info.dn_ident fun i => { i with DIFR := true }
    let ret ← dt_cg_call cfg op [idp.di_id, dn_reg]
    dt_cg_mov cfg dn_reg ret
    if idp.di_id ≠ cfg.DIF_VAR_ARGS ∨ dnp.info.is_scalar = false then
      pure dn_reg
    else
      let size := u64 dnp.info.ty.size
      if size = 8 then
        pure dn_reg
      else do
        cassert (decide (size < 8))
        let n : Int := 64 - (size : Int) * 8
        dt_irlist_append (dt_cg_node_alloc (BPF_ALU64_IMM AluOp.LSH dn_reg n))
        dt_irlist_append (dt_cg_node_alloc
          (BPF_ALU64_IMM (if dnp.info.dn_flags.SIGNED then AluOp.ARSH else AluOp.RSH) dn_reg n))
        pure dn_reg

/-- First loop of `dt_cg_inline`: bind the argument subtrees to the formals. -/
def dt_cg_inline_bind (din_argv : List (Option Nat)) : List Node → Nat → CG Unit
  | [], _ => pure ()
  | pnp :: rest, i => do
    let a ← deref (din_argv.get? i)
    (match a with
    | some ix => modIdent ix fun p => { p with din_root := some pnp }
    | none => pure ())
    dt_cg_inline_bind din_argv rest (i + 1)

/-- Second loop of `dt_cg_inline`: reset the roots of the formals `0 .. din_argc-1`;
a NULL formal is dereferenced here. -/
def dt_cg_inline_unbind (din_argv : List (Option Nat)) : List Nat → CG Unit
  | [] => pure ()
  | i :: rest => do
    let a ← deref (din_argv.get? i)
    let ix ← deref a
    modIdent ix fun p => { p with din_root := none }
    dt_cg_inline_unbind din_argv rest

/-- Emitter `dt_cg_inline`. The assertion on `di_ops` is about the identifier's
operations vector, which the embedding does not carry. -/
def dt_cg_inline (visit : Node → CG Int) (dnp : Node) : CG Int := do
  let idp ← getIdent dnp.info.dn_ident
  cassert idp.INLINE
  doIf (idp.di_kind = IdKind.ARRAY) (dt_cg_inline_bind idp.din_argv dnp.dn_args 0)
  let inp ← getIdent dnp.info.dn_ident
  let root ← deref inp.din_root
  let dn_reg ← visit root
  dt_cg_typecast root.info dn_reg dnp.info.sig dn_reg
  doIf (idp.di_kind = IdKind.ARRAY)
    (dt_cg_inline_unbind inp.din_argv (List.range inp.din_argc))
  pure dn_reg

/-! ## The visitor and the driver -/

/-- An operator-assignment arm of `dt_cg_node`: `dt_cg_arithmetic_op` followed by
`dt_cg_asgn_op`. -/
def dt_cg_op_asgn (cfg : Cfg) (visit : Node → CG Int) (dnp : Node) (op : AluOp) : CG Int := do
  let regs ← dt_cg_arithmetic_op cfg visit dnp op
  dt_cg_asgn_op cfg visit dnp regs.1 regs.2

/-- A plain binary arithmetic arm of `dt_cg_node`. -/
def dt_cg_op_arith (cfg : Cfg) (visit : Node → CG Int) (dnp : Node) (op : AluOp) : CG Int := do
  let regs ← dt_cg_arithmetic_op cfg visit dnp op
  pure regs.1

/-- An ordered-comparison arm of `dt_cg_node`: the signed or the unsigned jump. -/
def dt_cg_op_compare (cfg : Cfg) (visit : Node → CG Int) (dnp : Node) (sop uop : JmpOp) :
    CG Int := do
  let sgn ← dt_cg_compare_signed dnp
  dt_cg_compare_op cfg visit dnp (if sgn then sop else uop)

/-- The arm `case DT_TOK_PTR: case DT_TOK_DOT:` of `dt_cg_node`. The record `ctm`
that the source tests for the offset is read as `m`. -/
def dt_cg_member (cfg : Cfg) (visit : Node → CG Int) (dnp : Node) : CG Int := do
  let right ← deref dnp.dn_right
  cassert (right.info.dn_kind = Kind.IDENT)
  let left ← deref dnp.dn_left
  let lreg ← visit left
  let idp := match left.info.resolve_xlsou with
    | some i => some i
    | none => left.info.resolve_xlptr
  match idp with
  | some ix => do
    let id ← getIdent ix
    let dxp ← getXlator id.di_xlator
    let mnp? := dxp.dx_members.find? fun m => m.info.dn_membname == right.info.dn_string
    cassert mnp?.isSome
    let mnp ← deref mnp?
    modIdent dxp.dx_ident fun i => { i with CGREG := true, di_id := lreg }
    let membexpr ← deref mnp.dn_membexpr
    let dn_reg ← visit membexpr
    dt_cg_typecast membexpr.info dn_reg dnp.info.sig dn_reg
    modIdent dxp.dx_ident fun i => { i with CGREG := false, di_id := 0 }
    doIf (lreg ≠ -1) (dt_regset_free lreg)
    pure dn_reg
  | none => do
    let m ← orRaise dnp.info.memb Err.EDT_CTF
    doIf (m.ctm_offset ≠ 0) (dt_irlist_append (dt_cg_node_alloc
        (BPF_ALU64_IMM AluOp.ADD lreg ((m.ctm_offset / 8 : Nat) : Int))))
    doIf (!dnp.info.dn_flags.REF) (do
      let fl := { dnp.info.dn_flags with
                  USERLAND := dnp.info.dn_flags.USERLAND || left.info.dn_flags.USERLAND }
      let w ← dt_cg_load fl m.ctm_ty
      dt_irlist_append (dt_cg_node_alloc (BPF_LDX_MEM w lreg lreg 0))
      doIf (dnp.info.dn_flags.BITFIELD) (dt_cg_field_get cfg dnp.info lreg m))
    pure lreg

/-- Modelled from the spec: `dt_strtab_insert` is an insertion-order interner that
returns a stable non-negative offset (here: the bytes interned before the string). -/
def dt_strtab_insert (str : String) : CG Int := fun s =>
  let off (l : List String) : Int := ((l.map fun x => x.length + 1).sum : Nat)
  match s.pcb_strtab.indexOf? str with
  | some i => Res.ok (off (s.pcb_strtab.take i)) s
  | none => Res.ok (off s.pcb_strtab) { s with pcb_strtab := s.pcb_strtab ++ [str] }

/-- The arm `case DT_TOK_IDENT:` of `dt_cg_node`. In the function arm the source
passes `dnp` in the position of the helper id, so the helper `dt_cg_call` receives
is the node pointer converted to `uint32_t`, and `BPF_FUNC_dtrace_subr`, the
identifier id, `0` and the argument count are its four variadic arguments;
`dnp->dn_reg` is not assigned there. In the scalar
variable arm the identifier is taken from the local `idp`, which no statement on
that path assigns. -/
def dt_cg_ident (cfg : Cfg) (visit : Node → CG Int) (dnp : Node) : CG Int := do
  let k := dnp.info.dn_kind
  let cgreg ← (if k = Kind.VAR then do
      let id ← getIdent dnp.info.dn_ident
      pure id.CGREG
    else pure false)
  if cgreg then do
    let id ← getIdent dnp.info.dn_ident
    let dn_reg ← dt_regset_alloc cfg
    raiseIf (dn_reg = -1) Err.EDT_NOREG
    dt_cg_setx cfg dn_reg (u64 id.di_id)
    pure dn_reg
  else do
  let inl ← (if k = Kind.VAR then do
      let id ← getIdent dnp.info.dn_ident
      pure id.INLINE
    else pure false)
  if inl then dt_cg_inline visit dnp
  else
  match k with
  | Kind.FUNC => do
    let s ← CG.get
    let prev_depth := s.pcb_stackdepth
    let idp ← getIdent dnp.info.dn_ident
    raiseIf (idp.di_kind ≠ IdKind.FUNC) Err.D_CG_EXPR
    let argcount ← dt_cg_arglist cfg visit dnp.info.dn_ident dnp.dn_args
    let _ ← dt_cg_call cfg (cfg.node_addr dnp)
      [(BPF_FUNC_dtrace_subr cfg : Nat), idp.di_id, 0, argcount]
    setStackdepth prev_depth
    pure dnp.info.dn_reg
  | Kind.VAR => do
    let id ← getIdent dnp.info.dn_ident
    if id.di_kind = IdKind.XLSOU ∨ id.di_kind = IdKind.XLPTR then do
      cassert (id.di_id = cfg.DIF_VAR_ARGS)
      dt_cg_array_op cfg visit dnp
    else if id.di_kind = IdKind.ARRAY then
      if id.di_id > cfg.DIF_VAR_ARRAY_MAX then dt_cg_assoc_op cfg visit dnp
      else dt_cg_array_op cfg visit dnp
    else do
      let dn_reg ← dt_regset_alloc cfg
      raiseIf (dn_reg = -1) Err.EDT_NOREG
      let op := if id.LOCAL then BPF_FUNC_dtrace_get_local cfg
                else if id.TLS then BPF_FUNC_dtrace_get_thread cfg
                else BPF_FUNC_dtrace_get_global cfg
      modIdent dnp.info.dn_ident fun i => { i with DIFR := true }
      let idp : Ident ← deref none
      let ret ← dt_cg_call cfg op [idp.di_id]
      dt_cg_mov cfg dn_reg ret
      pure dn_reg
  | Kind.SYM => do
    let v ← orRaise dnp.info.sym_value Err.D_UNKNOWN
    let dn_reg ← dt_regset_alloc cfg
    raiseIf (dn_reg = -1) Err.EDT_NOREG
    dt_cg_xsetx cfg (some dnp.info.dn_ident) none dn_reg v
    doIf (!dnp.info.dn_flags.REF) (do
      let w ← dt_cg_load dnp.info.dn_flags dnp.info.ty
      dt_irlist_append (dt_cg_node_alloc (BPF_LDX_MEM w dn_reg dn_reg 0)))
    pure dn_reg
  | _ => CG.raise Err.D_UNKNOWN

/-- Visit the only child and take its register (`IPOS`, `STRINGOF`). -/
def dt_cg_child (visit : Node → CG Int) (dnp : Node) : CG Int := do
  let child ← deref dnp.dn_left
  visit child

/-- The body of `dt_cg_node`, with the recursive call as `visit`. -/
def dt_cg_node_body (cfg : Cfg) (visit : Node → CG Int) (dnp : Node) : CG Int :=
  let sg := dnp.info.dn_flags.SIGNED
  match dnp.info.dn_op with
  | Tok.COMMA => do
    let left ← deref dnp.dn_left
    let lreg ← visit left
    dt_regset_free lreg
    let right ← deref dnp.dn_right
    visit right
  | Tok.ASGN => do
    let right ← deref dnp.dn_right
    let rreg ← visit right
    dt_cg_asgn_op cfg visit dnp rreg rreg
  | Tok.ADD_EQ => dt_cg_op_asgn cfg visit dnp AluOp.ADD
  | Tok.SUB_EQ => dt_cg_op_asgn cfg visit dnp AluOp.SUB
  | Tok.MUL_EQ => dt_cg_op_asgn cfg visit dnp AluOp.MUL
  | Tok.DIV_EQ => dt_cg_op_asgn cfg visit dnp (if sg then AluOp.DIV else AluOp.DIV)
  | Tok.MOD_EQ => dt_cg_op_asgn cfg visit dnp (if sg then AluOp.MOD else AluOp.MOD)
  | Tok.AND_EQ => dt_cg_op_asgn cfg visit dnp AluOp.AND
  | Tok.XOR_EQ => dt_cg_op_asgn cfg visit dnp AluOp.XOR
  | Tok.OR_EQ => dt_cg_op_asgn cfg visit dnp AluOp.OR
  | Tok.LSH_EQ => dt_cg_op_asgn cfg visit dnp AluOp.LSH
  | Tok.RSH_EQ => dt_cg_op_asgn cfg visit dnp (if sg then AluOp.ARSH else AluOp.RSH)
  | Tok.QUESTION => dt_cg_ternary_op visit dnp
  | Tok.LOR => dt_cg_logical_or cfg visit dnp
  | Tok.LXOR => dt_cg_logical_xor cfg visit dnp
  | Tok.LAND => dt_cg_logical_and cfg visit dnp
  | Tok.BOR => dt_cg_op_arith cfg visit dnp AluOp.OR
  | Tok.XOR => dt_cg_op_arith cfg visit dnp AluOp.XOR
  | Tok.BAND => dt_cg_op_arith cfg visit dnp AluOp.AND
  | Tok.EQU => dt_cg_compare_op cfg visit dnp JmpOp.JEQ
  | Tok.NEQ => dt_cg_compare_op cfg visit dnp JmpOp.JNE
  | Tok.LT => dt_cg_op_compare cfg visit dnp JmpOp.JSLT JmpOp.JLT
  | Tok.LE => dt_cg_op_compare cfg visit dnp JmpOp.JSLE JmpOp.JLE
  | Tok.GT => dt_cg_op_compare cfg visit dnp JmpOp.JSGT JmpOp.JGT
  | Tok.GE => dt_cg_op_compare cfg visit dnp JmpOp.JSGE JmpOp.JGE
  | Tok.LSH => dt_cg_op_arith cfg visit dnp AluOp.LSH
  | Tok.RSH => dt_cg_op_arith cfg visit dnp (if sg then AluOp.ARSH else AluOp.RSH)
  | Tok.ADD => dt_cg_op_arith cfg visit dnp AluOp.ADD
  | Tok.SUB => dt_cg_op_arith cfg visit dnp AluOp.SUB
  | Tok.MUL => dt_cg_op_arith cfg visit dnp AluOp.MUL
  | Tok.DIV => dt_cg_op_arith cfg visit dnp (if sg then AluOp.DIV else AluOp.DIV)
  | Tok.MOD => dt_cg_op_arith cfg visit dnp (if sg then AluOp.MOD else AluOp.MOD)
  | Tok.LNEG => dt_cg_logical_neg cfg visit dnp
  | Tok.BNEG => do
    let child ← deref dnp.dn_left
    let dn_reg ← visit child
    dt_irlist_append (dt_cg_node_alloc (BPF_ALU64_REG AluOp.NEG dn_reg dn_reg))
    pure dn_reg
  | Tok.PREINC => dt_cg_prearith_op cfg visit dnp AluOp.ADD
  | Tok.POSTINC => dt_cg_postarith_op cfg visit dnp AluOp.ADD
  | Tok.PREDEC => dt_cg_prearith_op cfg visit dnp AluOp.SUB
  | Tok.POSTDEC => dt_cg_postarith_op cfg visit dnp AluOp.SUB
  | Tok.IPOS => dt_cg_child visit dnp
  | Tok.INEG => do
    let r1 ← dt_regset_alloc cfg
    raiseIf (r1 = -1) Err.EDT_NOREG
    let child ← deref dnp.dn_left
    let dn_reg ← visit child
    dt_cg_mov cfg r1 dn_reg
    dt_cg_setx cfg dn_reg 0
    dt_irlist_append (dt_cg_node_alloc (BPF_ALU64_REG AluOp.SUB dn_reg r1))
    dt_regset_free r1
    pure dn_reg
  | Tok.DEREF => do
    let child ← deref dnp.dn_left
    let dn_reg ← visit child
    doIf (!dnp.info.dn_flags.REF) (do
      let fl := { dnp.info.dn_flags with
                  USERLAND := dnp.info.dn_flags.USERLAND || child.info.dn_flags.USERLAND }
      let w ← dt_cg_load fl dnp.info.ty
      dt_irlist_append (dt_cg_node_alloc (BPF_LDX_MEM w dn_reg dn_reg 0)))
    pure dn_reg
  | Tok.ADDROF => do
    let child ← deref dnp.dn_left
    visit child.forceRef
  | Tok.SIZEOF => do
    let child ← deref dnp.dn_left
    let size := child.info.node_sizeof
    let dn_reg ← dt_regset_alloc cfg
    raiseIf (dn_reg = -1) Err.EDT_NOREG
    cassert (size != 0)
    dt_cg_setx cfg dn_reg size
    pure dn_reg
  | Tok.STRINGOF => dt_cg_child visit dnp
  | Tok.XLATE =>
    if dnp.info.dn_kind = Kind.XLATOR then do
      let dxp ← getXlator dnp.info.dn_xlator
      let id ← getIdent dxp.dx_ident
      cassert id.CGREG
      cassert (id.di_id != 0)
      let dn_reg ← dt_regset_alloc cfg
      raiseIf (dn_reg = -1) Err.EDT_NOREG
      doIf (dxp.dx_arg = -1) (dt_irlist_append (dt_cg_node_alloc Insn.NOP))
      pure dn_reg
    else do
      cassert (dnp.info.dn_kind = Kind.OP2)
      let right ← deref dnp.dn_right
      visit right
  | Tok.LPAR => do
    let right ← deref dnp.dn_right
    let dn_reg ← visit right
    dt_cg_typecast right.info dn_reg dnp.info.sig dn_reg
    pure dn_reg
  | Tok.PTR => dt_cg_member cfg visit dnp
  | Tok.DOT => dt_cg_member cfg visit dnp
  | Tok.STRING => do
    let dn_reg ← dt_regset_alloc cfg
    raiseIf (dn_reg = -1) Err.EDT_NOREG
    cassert (dnp.info.dn_kind = Kind.STRING)
    let stroff ← dt_strtab_insert dnp.info.dn_string
    raiseIf (stroff = -1) Err.EDT_NOMEM
    raiseIf (stroff > cfg.DIF_STROFF_MAX) Err.EDT_STR2BIG
    let ret ← dt_cg_call cfg (BPF_FUNC_dtrace_sets cfg) [stroff]
    dt_cg_mov cfg dn_reg ret
    pure dn_reg
  | Tok.IDENT => dt_cg_ident cfg visit dnp
  | Tok.INT => do
    let dn_reg ← dt_regset_alloc cfg
    raiseIf (dn_reg = -1) Err.EDT_NOREG
    dt_cg_setx cfg dn_reg dnp.info.dn_value
    pure dn_reg
  | Tok.OTHER => CG.raise Err.D_UNKNOWN

/-- The visitor `dt_cg_node`, by recursion on fuel. -/
def dt_cg_node (cfg : Cfg) : Nat → Node → CG Int
  | 0, _ => CG.raise Err.OUT_OF_FUEL
  | fuel + 1, dnp => dt_cg_node_body cfg (dt_cg_node cfg fuel) dnp

/-- Modelled from the spec: the driver resets the register set (`dt_regset_reset`,
every register free), recreates the string table and resets the instruction list. -/
def dt_cg_reset (cfg : Cfg) : CG Unit :=
  CG.modify fun s => { s with pcb_regs := List.replicate cfg.difnregs false,
                              pcb_strtab := [], pcb_ir := [], dl_label := 0 }

/-- The driver `dt_cg`. The creation of the register set and of the string table is
taken to succeed. The last test reads `dnp->dn_kind` after `dnp` has been replaced
by the member expression. -/
def dt_cg (cfg : Cfg) (fuel : Nat) (dnp : Node) : CG Unit := do
  dt_cg_reset cfg
  let s ← CG.get
  cassert s.pcb_dret.isNone
  CG.modify fun s => { s with pcb_dret := some dnp }
  raiseIf (dnp.info.is_dynamic) Err.D_CG_DYN
  let root ←
    (if dnp.info.dn_kind = Kind.MEMBER then do
      let dxp ← getXlator dnp.info.dn_xlator
      let expr ← deref dnp.dn_membexpr
      modIdent dxp.dx_ident fun i => { i with CGREG := true }
      let r ← dt_regset_alloc cfg
      modIdent dxp.dx_ident fun i => { i with di_id := r }
      pure (expr, some dxp)
    else pure (dnp, none))
  let dnp := root.1
  let dxp : Option Xlator := root.2
  let dn_reg ← dt_cg_node cfg fuel dnp
  dt_regset_free dn_reg
  dt_irlist_append (dt_cg_node_alloc Insn.EXIT)
  doIf (dnp.info.dn_kind = Kind.MEMBER) (do
    let dxp ← deref dxp
    let id ← getIdent dxp.dx_ident
    dt_regset_free id.di_id
    modIdent dxp.dx_ident fun i => { i with di_id := 0, CGREG := false })

/-! ## Observations on outcomes, and the concrete target used for evaluation -/

namespace Res
/-- The context carried by an outcome. -/
def state {α : Type} : Res α → Pcb
  | ok _ s => s
  | err _ s => s
/-- The error kind of a raise. -/
def error? {α : Type} : Res α → Option Err
  | ok _ _ => none
  | err e _ => some e
/-- The value of a normal return. -/
def value? {α : Type} : Res α → Option α
  | ok a _ => some a
  | err _ _ => none
/-- The instructions of the list carried by an outcome, in order. -/
def instrs {α : Type} (r : Res α) : List Insn := r.state.pcb_ir.map fun n => n.di_instr
end Res

/-- An emitter never raises the error kind `e`. -/
def NoRaise {α : Type} (e : Err) (m : CG α) : Prop := ∀ s s1, m s ≠ Res.err e s1

/-- An emitter never returns normally. -/
def NeverOk {α : Type} (m : CG α) : Prop := ∀ s a s1, m s ≠ Res.ok a s1

/-- A concrete target: helper ids from 100, caller-saved registers below 6, 8-byte
pointers, registers R0..R9, allocation of the highest free register, little-endian;
the unassigned instruction of `dt_cg_mov` is the all-zero word, and node pointers
convert to 65536. -/
def target0 : Cfg where
  FIRST_BPF_HELPER := 100
  BPF_NCLOBBERED := 6
  ptr_size := 8
  difnregs := 10
  alloc_policy := fun fr => fr.length - 1
  intoff := 0
  big_endian := false
  indeterminate := 0
  indeterminate_insn := fun _ => Insn.RAW 0 0 0 0 0
  node_addr := fun _ => 65536
  DIF_VAR_ARGS := 5
  DIF_VAR_ARRAY_MAX := 10
  DIF_STROFF_MAX := 65535

/-- The target `target0` with `g` as the word that `dt_cg_mov` appends. -/
def target_mov (g : Insn) : Cfg := { target0 with indeterminate_insn := fun _ => g }

/-- A context in which registers 2 and 4 are allocated, R0 is free, and the stack
depth is 0. -/
def pcb24 : Pcb :=
  { pcb_regs := [false, false, true, false, true, false, false, false, false, false] }

/-- A context in which every register is free and the stack depth is 0. -/
def pcbFree : Pcb := { pcb_regs := List.replicate 10 false }

/-- A context in which only R0 is allocated. -/
def pcbR0 : Pcb :=
  { pcb_regs := [true, false, false, false, false, false, false, false, false, false] }

/-! ## Invariants of the emitted list -/

/-- The branch target of an instruction: the label a jump names. -/
def Insn.target? : Insn → Option Nat
  | Insn.JMP_IMM _ _ _ l => some l
  | _ => none

/-- No instruction of the list is the program exit. -/
def NoExit (s : Pcb) : Prop := ∀ n ∈ s.pcb_ir, n.di_instr ≠ Insn.EXIT

/-- Label `l` is attached to some instruction of the list. -/
def Attached (s : Pcb) (l : Nat) : Prop := ∃ n ∈ s.pcb_ir, n.di_label = some l

/-- Every branch of the list names a label that has been minted. -/
def Minted (s : Pcb) : Prop :=
  ∀ n ∈ s.pcb_ir, ∀ l, n.di_instr.target? = some l → l < s.dl_label

/-- The unassigned instruction word of `dt_cg_mov` is never the program exit and
never a jump. -/
def BenignMov (cfg : Cfg) : Prop :=
  ∀ s, cfg.indeterminate_insn s ≠ Insn.EXIT ∧ (cfg.indeterminate_insn s).target? = none

/-- What a completed emitter guarantees about the context `s1` it returns in,
relative to the context `s` it started in. -/
structure Frame (s s1 : Pcb) : Prop where
  /-- The stack depth is restored. -/
  depth : s1.pcb_stackdepth = s.pcb_stackdepth
  /-- No program exit has been emitted. -/
  noexit : NoExit s → NoExit s1
  /-- The label counter only grows. -/
  dl : s.dl_label ≤ s1.dl_label
  /-- Attached labels stay attached. -/
  att : ∀ l, Attached s l → Attached s1 l
  /-- Branches still name minted labels only. -/
  minted : Minted s → Minted s1
  /-- Every label minted in between is attached. -/
  fresh : ∀ l, s.dl_label ≤ l → l < s1.dl_label → Attached s1 l

/-- An emitter that, started with at least `k` labels minted, returns only in a
context related to its start by `Frame`. -/
structure SoundFrom {α : Type} (k : Nat) (m : CG α) : Prop where
  frame : ∀ s a s1, k ≤ s.dl_label → m s = Res.ok a s1 → Frame s s1

/-- An emitter that keeps attached labels attached. -/
structure Mono {α : Type} (m : CG α) : Prop where
  att : ∀ s a s1, m s = Res.ok a s1 → ∀ l, Attached s l → Attached s1 l

/-- An emitter that returns only with label `l` attached. -/
structure Attaches {α : Type} (l : Nat) (m : CG α) : Prop where
  att : ∀ s a s1, m s = Res.ok a s1 → Attached s1 l

/-- An emitter that leaves the instruction list as it is. -/
def KeepsIr {α : Type} (m : CG α) : Prop := ∀ s a s1, m s = Res.ok a s1 → s1.pcb_ir = s.pcb_ir

/-- The literal `7` as a root. -/
def lit7 : Node := Node.leaf { dn_op := Tok.INT, dn_kind := Kind.INT, dn_value := 7 }

/-- The cast `(char *)7`: a pointer whose referenced type has size 1. -/
def cast_ptr7 : Node :=
  Node.mk { dn_op := Tok.LPAR, dn_kind := Kind.OP2, is_pointer := true, is_arith := false,
            type_kind := CtfKind.POINTER, ref_size := 1 }
    none (some lit7) none none []

/-- The root `(char *)7 + 7`. -/
def ptr_plus_lit : Node :=
  Node.mk { dn_op := Tok.ADD, dn_kind := Kind.OP2, is_pointer := true, is_arith := false,
            type_kind := CtfKind.POINTER, ref_size := 1 }
    (some cast_ptr7) (some lit7) none none []

/-- The root `-7`. -/
def neg_lit7 : Node :=
  Node.mk { dn_op := Tok.INEG, dn_kind := Kind.OP1 } (some lit7) none none none []

/-! ## Execution of emitted code

The meaning of the instructions on the target machine (the eBPF instruction set):
64-bit registers, byte-addressed little-endian memory. Only what the claims about
executed code need: the straight-line instructions and the condition of a jump. -/

/-- State of the machine that runs emitted code. -/
structure Vm where
  reg : Reg → Nat
  mem : Nat → Nat

namespace Vm

/-- Write a 64-bit register. -/
def setReg (m : Vm) (r : Reg) (v : Nat) : Vm :=
  { m with reg := fun x => if x = r then v % 2 ^ 64 else m.reg x }

/-- Read `n` bytes at `addr`, little-endian, zero-extended. -/
def load (m : Vm) (addr : Nat) : Nat → Nat
  | 0 => 0
  | n + 1 => m.mem addr % 256 + 256 * load m (addr + 1) n

/-- Write the low `n` bytes of `v` at `addr`, little-endian. -/
def store (m : Vm) (addr : Nat) (v : Nat) : Nat → Vm
  | 0 => m
  | n + 1 =>
    store { m with mem := fun a => if a = addr then v % 256 else m.mem a } (addr + 1) (v / 256) n

end Vm

/-- Number of bytes a width code stands for. -/
def width_bytes (code : Nat) : Nat :=
  if code = BPF_B then 1 else if code = BPF_H then 2 else if code = BPF_W then 4 else 8

/-- A 64-bit value read as a signed integer. -/
def s64 (a : Nat) : Int := if a % 2 ^ 64 < 2 ^ 63 then (a % 2 ^ 64 : Nat) else (a % 2 ^ 64 : Nat) - 2 ^ 64

/-- The 64-bit ALU: `dst = dst op src`. Shifts use the low six bits of the amount;
division by zero gives 0 and modulo by zero leaves the destination; `NEG` is the
arithmetic negation of the destination. -/
def alu64 (op : AluOp) (a b : Nat) : Nat :=
  match op with
  | AluOp.ADD => (a + b) % 2 ^ 64
  | AluOp.SUB => u64 ((a : Int) - (b : Int))
  | AluOp.MUL => (a * b) % 2 ^ 64
  | AluOp.DIV => if b = 0 then 0 else a / b
  | AluOp.MOD => if b = 0 then a else a % b
  | AluOp.AND => a &&& b
  | AluOp.OR => a ||| b
  | AluOp.XOR => a ^^^ b
  | AluOp.LSH => (a <<< (b % 64)) % 2 ^ 64
  | AluOp.RSH => a >>> (b % 64)
  | AluOp.ARSH => u64 (Int.fdiv (s64 a) (2 ^ (b % 64)))
  | AluOp.NEG => u64 (-(a : Int))

/-- Whether a conditional jump comparing the register value `a` with `b` is taken. -/
def jmp_taken (op : JmpOp) (a b : Nat) : Bool :=
  match op with
  | JmpOp.JA => true
  | JmpOp.JEQ => a = b
  | JmpOp.JNE => a ≠ b
  | JmpOp.JLT => a < b
  | JmpOp.JLE => a ≤ b
  | JmpOp.JGT => a > b
  | JmpOp.JGE => a ≥ b
  | JmpOp.JSLT => s64 a < s64 b
  | JmpOp.JSLE => s64 a ≤ s64 b
  | JmpOp.JSGT => s64 a > s64 b
  | JmpOp.JSGE => s64 a ≥ s64 b

/-- Run a straight-line instruction sequence. The two words of a 64-bit immediate
load act together; jumps, calls, the exit and words that are no instruction of the
list above are not part of straight-line code and are stepped over. -/
def Vm.exec : List Insn → Vm → Vm
  | [], m => m
  | Insn.LD_IMM64_LO dst lo :: Insn.LD_IMM64_HI hi :: rest, m =>
    Vm.exec rest (m.setReg dst (lo % 2 ^ 32 + 2 ^ 32 * (hi % 2 ^ 32)))
  | i :: rest, m =>
    Vm.exec rest (match i with
      | Insn.MOV64_REG dst src => m.setReg dst (m.reg src)
      | Insn.MOV32_IMM dst imm => m.setReg dst (imm % 2 ^ 32)
      | Insn.LD_IMM64_LO dst lo => m.setReg dst (lo % 2 ^ 32)
      | Insn.ALU64_REG op dst src => m.setReg dst (alu64 op (m.reg dst) (m.reg src))
      | Insn.ALU64_IMM op dst imm => m.setReg dst (alu64 op (m.reg dst) (u64 imm))
      | Insn.STX_MEM size dst src off =>
        m.store (u64 ((m.reg dst : Int) + off)) (m.reg src) (width_bytes size)
      | Insn.LDX_MEM size dst src off =>
        m.setReg dst (m.load (u64 ((m.reg src : Int) + off)) (width_bytes size))
      | Insn.ST_MEM size dst off imm =>
        m.store (u64 ((m.reg dst : Int) + off)) (u64 imm) (width_bytes size)
      | _ => m)

/-! ## Sample inputs for the emitter claims -/

/-- The width in bytes that `dt_cg_load` computes before it validates it. -/
def dt_cg_load_width (dn_flags : NFlags) (type : TyInfo) : Int :=
  match dn_flags.BITFIELD, type.enc_bits with
  | true, some bits => (clp2 (P2ROUNDUP8 bits / 8) : Int)
  | _, _ => type.size

/-- The nodes that `dt_cg_setx` appends: one word when `x < 2^32 - 1`, else two. -/
def setx_nodes (reg : Int) (x : Nat) : List IrNode :=
  if x < 2 ^ 32 - 1 then [dt_cg_node_alloc (BPF_MOV32_IMM reg x)]
  else [dt_cg_node_alloc (Insn.LD_IMM64_LO (reg4 reg) (x % 2 ^ 32)),
        dt_cg_node_alloc (Insn.LD_IMM64_HI (x / 2 ^ 32))]

/-- Whether an instruction is a left shift of register `r`. -/
def Insn.isLshOf (r : Int) : Insn → Bool
  | Insn.ALU64_REG AluOp.LSH d _ => d = reg4 r
  | Insn.ALU64_IMM AluOp.LSH d _ => d = reg4 r
  | _ => false

/-- An integer literal. -/
def lit (v : Nat) : Node := Node.leaf { dn_op := Tok.INT, dn_kind := Kind.INT, dn_value := v }

/-- The name on the right of `.` or `->`. -/
def member_name : Node := Node.leaf { dn_op := Tok.IDENT, dn_kind := Kind.IDENT, dn_string := "f" }

/-- The cast `(struct s *)2`: the address 2 as a pointer to a structure. -/
def struct_ptr2 : Node :=
  Node.mk { dn_op := Tok.LPAR, dn_kind := Kind.OP2, is_pointer := true, is_arith := false,
            type_kind := CtfKind.POINTER, ref_size := 1 }
    none (some (lit 2)) none none []

/-- The member `f` of `struct s`: an unsigned bit-field of 3 bits at bit offset 3 of a
one-byte container. -/
def bf_f : MembInfo := { ctm_offset := 3, ctm_ty := { size := 1, enc_bits := some 3 } }

/-- The read `((struct s *)2)->f`. -/
def bf_read : Node :=
  Node.mk { dn_op := Tok.PTR, dn_kind := Kind.OP2, dn_flags := { BITFIELD := true },
            ty := { size := 1, enc_bits := some 3 }, memb := some bf_f }
    (some struct_ptr2) (some member_name) none none []

/-- The assignment `((struct s *)2)->f = 5`. -/
def bf_write : Node :=
  Node.mk { dn_op := Tok.ASGN, dn_kind := Kind.OP2, ty := { size := 1, enc_bits := some 3 } }
    (some (Node.mk { dn_op := Tok.PTR, dn_kind := Kind.OP2,
                     dn_flags := { BITFIELD := true, WRITABLE := true, LVALUE := true },
                     ty := { size := 1, enc_bits := some 3 }, memb := some bf_f }
            (some struct_ptr2) (some member_name) none none []))
    (some (lit 5)) none none []

/-- A machine whose registers and memory are all zero. -/
def vm0 : Vm := { reg := fun _ => 0, mem := fun _ => 0 }

/-- A machine whose register 7 holds 64, every other register and the memory being
zero. -/
def vmScratch : Vm := { reg := fun r => if r = 7 then 64 else 0, mem := fun _ => 0 }

/-- The member `g` of `struct s`: an unsigned bit-field of 40 bits at bit offset 0 of
an eight-byte container. -/
def bf_wide : MembInfo := { ctm_offset := 0, ctm_ty := { size := 8, enc_bits := some 40 } }

/-- The read `((struct s *)2)->g`. -/
def bf_wide_read : Node :=
  Node.mk { dn_op := Tok.PTR, dn_kind := Kind.OP2, dn_flags := { BITFIELD := true },
            ty := { size := 8, enc_bits := some 40 }, memb := some bf_wide }
    (some struct_ptr2) (some member_name) none none []

/-- The assignment `((struct s *)2)->g = 2^39`. -/
def bf_wide_write : Node :=
  Node.mk { dn_op := Tok.ASGN, dn_kind := Kind.OP2, ty := { size := 8, enc_bits := some 40 } }
    (some (Node.mk { dn_op := Tok.PTR, dn_kind := Kind.OP2,
                     dn_flags := { BITFIELD := true, WRITABLE := true, LVALUE := true },
                     ty := { size := 8, enc_bits := some 40 }, memb := some bf_wide }
            (some struct_ptr2) (some member_name) none none []))
    (some (lit (2 ^ 39))) none none []

/-- The cast `(int *)7`: a pointer whose referenced type has size 4. -/
def cast_intptr7 : Node :=
  Node.mk { dn_op := Tok.LPAR, dn_kind := Kind.OP2, is_pointer := true, is_arith := false,
            type_kind := CtfKind.POINTER, ref_size := 4 }
    none (some lit7) none none []

/-- The root `(int *)7 + 7`. -/
def intptr_plus_lit : Node :=
  Node.mk { dn_op := Tok.ADD, dn_kind := Kind.OP2, is_pointer := true, is_arith := false,
            type_kind := CtfKind.POINTER, ref_size := 4 }
    (some cast_intptr7) (some lit7) none none []

/-- The root `7 + (int *)7`. -/
def lit_plus_intptr : Node :=
  Node.mk { dn_op := Tok.ADD, dn_kind := Kind.OP2, is_pointer := true, is_arith := false,
            type_kind := CtfKind.POINTER, ref_size := 4 }
    (some lit7) (some cast_intptr7) none none []

/-- The root `7 ? 7 : -7`. -/
def ternary_neg : Node :=
  Node.mk { dn_op := Tok.QUESTION, dn_kind := Kind.OP3 }
    (some lit7)
    (some (Node.mk { dn_op := Tok.INEG, dn_kind := Kind.OP1 } (some lit7) none none none []))
    (some lit7) none []

/-- The operand `*(struct s *)2`: a structure of 16 bytes, passed by reference. -/
def struct_deref : Node :=
  Node.mk { dn_op := Tok.DEREF, dn_kind := Kind.OP1, dn_flags := { REF := true },
            ty := { size := 16 }, is_scalar := false, is_arith := false,
            diftype := { BYREF := true, dtdt_size := 16 } }
    (some struct_ptr2) none none none []

/-- A context with every register free and one identifier: an associative array
with id 1280 whose two keys are a structure and an integer. -/
def pcbArgs : Pcb :=
  { pcb_regs := List.replicate 10 false,
    idents := [{ di_kind := IdKind.ARRAY, di_id := 1280,
                 dis_args := [{ size := 16, is_scalar := false }, {}] }] }

/-- A translator member whose expression is the literal `v`, of an 8-byte unsigned
type, at bit offset `off` of the output structure. -/
def xl_member (name : String) (off v : Nat) : Node :=
  Node.mk { dn_op := Tok.OTHER, dn_kind := Kind.MEMBER, dn_membname := name,
            memb := some { ctm_offset := off } }
    none none none (some (lit v)) []

/-- A context with registers 5 and 9 allocated and a translator (identifier 0)
whose output has the members `a` at byte offset 8 and `b` at byte offset 16; its
input is identifier 1. -/
def pcbXlate : Pcb :=
  { pcb_regs := [false, false, false, false, false, true, false, false, false, true],
    idents := [{ di_kind := IdKind.XLSOU, di_xlator := 0 }, {}],
    xlators := [{ dx_ident := 1, dx_dst_size := 24,
                  dx_members := [xl_member "a" 64 7, xl_member "b" 128 9] }] }

/-- The assignment `x = xlate <struct s> (7)` to a structure member `x`: the right
operand resolves to the translator identifier 0. -/
def asgn_xlate : Node :=
  Node.mk { dn_op := Tok.ASGN, dn_kind := Kind.OP2 }
    (some (Node.mk { dn_op := Tok.PTR, dn_kind := Kind.OP2,
                     dn_flags := { WRITABLE := true, LVALUE := true, REF := true },
                     memb := some { ctm_offset := 0, ctm_ty := { size := 24 } } }
            (some struct_ptr2) (some member_name) none none []))
    (some (Node.mk { dn_op := Tok.XLATE, dn_kind := Kind.OP2, resolve_xlsou := some 0 }
            none (some lit7) none none []))
    none none []

/-- A machine whose register 5 holds the address 1000, with zeroed memory. -/
def vmBase : Vm := { reg := fun r => if r = 5 then 1000 else 0, mem := fun _ => 0 }

/-- The read `a[7]` of a by-reference element of the associative array of
`pcbAssoc`. -/
def assoc_read : Node :=
  Node.mk { dn_op := Tok.IDENT, dn_kind := Kind.VAR, dn_flags := { REF := true }, dn_ident := 0,
            ty := { size := 16 }, is_scalar := false, is_arith := false }
    none none none none [lit7]

/-- A context with register 9 allocated and one associative array, with id 1280,
whose key is an integer. -/
def pcbAssoc : Pcb :=
  { pcb_regs := [false, false, false, false, false, false, false, false, false, true],
    idents := [{ di_kind := IdKind.ARRAY, di_id := 1280, dis_args := [{}] }] }

/-- A translator body: the member node whose expression is the literal `7`, of
translator 0. -/
def xl_body : Node :=
  Node.mk { dn_op := Tok.OTHER, dn_kind := Kind.MEMBER, dn_xlator := 0 }
    none none none (some lit7) []

/-- A context with the translator 0, whose input is identifier 0. -/
def pcbBody : Pcb := { idents := [{}], xlators := [{ dx_ident := 0 }] }

/-! ## Errors an emitter never raises -/

/-- An emitter that never raises the error `e`. -/
structure Never (e : Err) {α : Type} (m : CG α) : Prop where
  no_raise : ∀ s s1, m s ≠ Res.err e s1

/-! ## Sample inputs for the dispatcher and helper-call claims -/

/-- The literal `7` with a dynamic type as a root. -/
def dyn_lit7 : Node :=
  Node.leaf { dn_op := Tok.INT, dn_kind := Kind.INT, dn_value := 7, is_dynamic := true }

/-- The call `f(7)` of the function identifier 0. -/
def func_call : Node :=
  Node.mk { dn_op := Tok.IDENT, dn_kind := Kind.FUNC, dn_ident := 0 }
    none none none none [lit7]

/-- A context with every register free whose identifier 0 is a function with
subroutine id 5 and one integer formal. -/
def pcbFunc : Pcb :=
  { pcb_regs := List.replicate 10 false,
    idents := [{ di_kind := IdKind.FUNC, di_id := 5, dis_args := [{}] }] }

/-- A reference to the scalar variable with identifier index `i`. -/
def var_ref (i : Nat) : Node :=
  Node.leaf { dn_op := Tok.IDENT, dn_kind := Kind.VAR, dn_ident := i }

/-- A translator body whose member expression is the input variable itself
(identifier 0 of `pcbBody`). -/
def xl_body_input : Node :=
  Node.mk { dn_op := Tok.OTHER, dn_kind := Kind.MEMBER, dn_xlator := 0 }
    none none none (some (var_ref 0)) []

/-- A machine whose register 9 holds 1234, with zeroed memory. -/
def vmInput : Vm := { reg := fun r => if r = 9 then 1234 else 0, mem := fun _ => 0 }

/-- The lvalue `*(int *)1000`: a 4-byte integer in memory. -/
def int_at_1000 : Node :=
  Node.mk { dn_op := Tok.DEREF, dn_kind := Kind.OP1, ty := { size := 4 },
            dn_flags := { WRITABLE := true, LVALUE := true } }
    (some (Node.mk { dn_op := Tok.LPAR, dn_kind := Kind.OP2, is_pointer := true,
                     is_arith := false, type_kind := CtfKind.POINTER, ref_size := 4 }
            none (some (lit 1000)) none none []))
    none none none []

/-- The expression `(*(int *)1000)--`. -/
def postdec_mem : Node :=
  Node.mk { dn_op := Tok.POSTDEC, dn_kind := Kind.OP1, ty := { size := 4 } }
    (some int_at_1000) none none none []

/-- The expression `(*(int *)1000)++`. -/
def postinc_mem : Node :=
  Node.mk { dn_op := Tok.POSTINC, dn_kind := Kind.OP1, ty := { size := 4 } }
    (some int_at_1000) none none none []

/-- The expression `--(*(int *)1000)`. -/
def predec_mem : Node :=
  Node.mk { dn_op := Tok.PREDEC, dn_kind := Kind.OP1, ty := { size := 4 } }
    (some int_at_1000) none none none []

/-- The expression `x--` for the scalar variable with identifier index 0. -/
def postdec_var : Node :=
  Node.mk { dn_op := Tok.POSTDEC, dn_kind := Kind.OP1 } (some (var_ref 0)) none none none []

/-- A machine whose 4-byte integer at address 1000 is 5. -/
def vmInt5 : Vm := { reg := fun _ => 0, mem := fun a => if a = 1000 then 5 else 0 }

/-- A context with every register free and two global scalar variables, with ids
1280 and 1281. -/
def pcbGlobals : Pcb :=
  { pcb_regs := List.replicate 10 false, idents := [{ di_id := 1280 }, { di_id := 1281 }] }

/-- The root `a + b` of the two global scalars of `pcbGlobals`. -/
def add_globals : Node :=
  Node.mk { dn_op := Tok.ADD, dn_kind := Kind.OP2 } (some (var_ref 0)) (some (var_ref 1))
    none none []

/-- The root `7 < 7` of signed integers. -/
def lt_lits : Node :=
  Node.mk { dn_op := Tok.LT, dn_kind := Kind.OP2, promote_signed := true }
    (some lit7) (some lit7) none none []

/-- A store destination: a 16-byte structure member at the address in its register. -/
def struct_dst : Node :=
  Node.mk { dn_op := Tok.PTR, dn_kind := Kind.OP2,
            dn_flags := { REF := true, WRITABLE := true, LVALUE := true },
            ty := { size := 16 }, is_scalar := false, is_arith := false }
    (some struct_ptr2) (some member_name) none none []

/-- A machine whose register 9 holds the container value 40 (the field value 5 at bit
offset 3). -/
def vmField : Vm := { reg := fun r => if r = 9 then 40 else 0, mem := fun _ => 0 }

/-- The size that `dt_cg_store` computes: the container width of a bit-field
destination, else the size of the source's type. -/
def dt_cg_store_size (src : NodeInfo) (dst : Node) : Nat :=
  match dst.info.dn_flags.BITFIELD, dst.info.ty.enc_bits with
  | true, some bits => clp2 (P2ROUNDUP8 bits / 8)
  | _, _ => u64 src.ty.size

/-! ## Execution with jumps -/

/-- Position of the instruction node that carries the label `l`. -/
def label_index (prog : List IrNode) (l : Nat) : Option Nat :=
  prog.findIdx? fun n => n.di_label == some l

/-- Run a program from position `pc`: a taken jump continues at the node carrying
its label, the exit (or the end of the list) stops, every other instruction acts as in
`Vm.exec`. `fuel` bounds the number of steps. -/
def Vm.run (prog : List IrNode) : Nat → Nat → Vm → Vm
  | 0, _, m => m
  | fuel + 1, pc, m =>
    match (prog.get? pc).map fun n => n.di_instr with
    | none => m
    | some Insn.EXIT => m
    | some (Insn.JMP_IMM op dst imm l) =>
      if jmp_taken op (m.reg dst) (u64 imm) then
        match label_index prog l with
        | some i => Vm.run prog fuel i m
        | none => m
      else Vm.run prog fuel (pc + 1) m
    | some (Insn.LD_IMM64_LO dst lo) =>
      match (prog.get? (pc + 1)).map fun n => n.di_instr with
      | some (Insn.LD_IMM64_HI hi) =>
        Vm.run prog fuel (pc + 2) (Vm.exec [Insn.LD_IMM64_LO dst lo, Insn.LD_IMM64_HI hi] m)
      | _ => Vm.run prog fuel (pc + 1) (Vm.exec [Insn.LD_IMM64_LO dst lo] m)
    | some i => Vm.run prog fuel (pc + 1) (Vm.exec [i] m)

/-! ## The call sites of `dt_cg_call` -/

/-- One call of `dt_cg_call` in dt_cg.c: the line, the helpers the argument in the
helper position can name there (as indexes of `bpf_protos`; `none` when that
argument is not a helper id at all), and the number of arguments that follow it. -/
structure CallSite where
  line : Nat
  helpers : Option (List Nat)
  nargs : Nat
  deriving DecidableEq, Repr

/-- Every call of `dt_cg_call` in dt_cg.c, in source order. At the calls through
`dt_cg_stvar` the helper is `set_global`, `set_thread` or `set_local` (3, 4, 5) for a
scalar identifier and `set_global_assoc` or `set_thread_assoc` (6, 7) for an array;
line 1226 is reached for arrays only and line 1230 for the others. At line 1931 the
argument in the helper position is the node pointer `dnp`, and four arguments follow
it (`BPF_FUNC_dtrace_subr`, the identifier id, `0`, the argument count). -/
def dt_cg_call_sites : List CallSite :=
  [ { line := 567, helpers := some [0], nargs := 3 },
    { line := 677, helpers := some [2], nargs := 2 },
    { line := 795, helpers := some [3, 4, 5, 6, 7], nargs := 2 },
    { line := 850, helpers := some [3, 4, 5, 6, 7], nargs := 2 },
    { line := 912, helpers := some [15], nargs := 2 },
    { line := 1140, helpers := some [16], nargs := 1 },
    { line := 1226, helpers := some [6, 7], nargs := 4 },
    { line := 1230, helpers := some [3, 4, 5], nargs := 2 },
    { line := 1273, helpers := some [11, 12], nargs := 3 },
    { line := 1314, helpers := some [16], nargs := 1 },
    { line := 1319, helpers := some [6, 7], nargs := 2 },
    { line := 1321, helpers := some [11, 12], nargs := 1 },
    { line := 1378, helpers := some [13, 14], nargs := 2 },
    { line := 1886, helpers := some [1], nargs := 1 },
    { line := 1931, helpers := none, nargs := 4 },
    { line := 1969, helpers := some [8, 9, 10], nargs := 1 } ]

/-- Whether the argument count of a call site equals the length of the prototype of
every helper it can name. -/
def CallSite.matches_proto (c : CallSite) : Bool :=
  match c.helpers with
  | none => false
  | some hs => hs.all fun h => ((bpf_protos.get? h).map fun p => p.length) == some c.nargs

/-! ## Sample inputs for the remaining claims -/

/-- The node of a signed bit-field of 3 bits at bit offset 3 (the member `bf_f`). -/
def bf_signed_info : NodeInfo :=
  { dn_op := Tok.PTR, dn_kind := Kind.OP2, dn_flags := { BITFIELD := true, SIGNED := true },
    ty := { size := 1, enc_bits := some 3 }, memb := some bf_f }

/-- The destination `((struct s *)2)->f` of a bit-field store. -/
def bf_dst : Node :=
  Node.mk { dn_op := Tok.PTR, dn_kind := Kind.OP2,
            dn_flags := { BITFIELD := true, WRITABLE := true, LVALUE := true },
            ty := { size := 1, enc_bits := some 3 }, memb := some bf_f }
    (some struct_ptr2) (some member_name) none none []

/-- A context in which registers 5 and 6 are allocated. -/
def pcb56 : Pcb :=
  { pcb_regs := [false, false, false, false, false, true, true, false, false, false] }

/-- A machine with the source value 5 in register 5, the destination address 2 in
register 6, and the container byte 192 at address 2. -/
def vmStore : Vm :=
  { reg := fun r => if r = 5 then 5 else if r = 6 then 2 else 0,
    mem := fun a => if a = 2 then 192 else 0 }

/-- The root `(int *)7 - (int *)7`. -/
def intptr_diff : Node :=
  Node.mk { dn_op := Tok.SUB, dn_kind := Kind.OP2 }
    (some cast_intptr7) (some cast_intptr7) none none []

/-- The read `args[1]` of a 4-byte unsigned scalar; identifier 0 of `pcbArgv`. -/
def args_read : Node :=
  Node.mk { dn_op := Tok.IDENT, dn_kind := Kind.VAR, dn_ident := 0, ty := { size := 4 } }
    none none none none [lit 1]

/-- A context with every register free whose identifier 0 is the built-in array
`args` (id `DIF_VAR_ARGS`), with the identity argument mapping. -/
def pcbArgv : Pcb :=
  { pcb_regs := List.replicate 10 false,
    idents := [{ di_kind := IdKind.ARRAY, di_id := 5, dis_args := [{}] }],
    pr_mapping := [0, 1, 2, 3] }

/-- The root `1 < 2` of unsigned integers. -/
def lt_unsigned : Node :=
  Node.mk { dn_op := Tok.LT, dn_kind := Kind.OP2 } (some (lit 1)) (some (lit 2)) none none []

/-- The root `1 >= 2` of unsigned integers. -/
def ge_unsigned : Node :=
  Node.mk { dn_op := Tok.GE, dn_kind := Kind.OP2 } (some (lit 1)) (some (lit 2)) none none []

/-- The root `~7`. -/
def bneg_lit : Node :=
  Node.mk { dn_op := Tok.BNEG, dn_kind := Kind.OP1 } (some lit7) none none none []

/-- The root `1 < 2` of signed integers. -/
def lt_signed : Node :=
  Node.mk { dn_op := Tok.LT, dn_kind := Kind.OP2, promote_signed := true }
    (some (lit 1)) (some (lit 2)) none none []

set_option linter.unusedTactic false
set_option linter.unreachableTactic false
set_option linter.unusedVariables false
set_option linter.unnecessarySeqFocus false

/-! ## Basic facts about the emitter monad -/

theorem bind_apply {α β : Type} (m : CG α) (f : α → CG β) (s : Pcb) :
    (m >>= f) s = match m s with
      | Res.ok a s1 => f a s1
      | Res.err e s1 => Res.err e s1 := rfl

theorem pure_apply {α : Type} (a : α) (s : Pcb) : (pure a : CG α) s = Res.ok a s := rfl

theorem noRaise_bind {α β : Type} {e : Err} {m : CG α} {f : α → CG β}
    (hm : NoRaise e m) (hf : ∀ a, NoRaise e (f a)) : NoRaise e (m >>= f) := by
  intro s s1 h
  rw [bind_apply] at h
  cases hms : m s with
  | ok a s2 => rw [hms] at h; exact hf a s2 s1 h
  | err e2 s2 =>
    rw [hms] at h
    simp only [Res.err.injEq] at h
    exact hm s s2 (by rw [hms, h.1])

theorem noRaise_pure {α : Type} {e : Err} (a : α) : NoRaise e (pure a : CG α) := by
  intro s s1 h; cases h

theorem noRaise_raise {α : Type} {e e1 : Err} (h : e1 ≠ e) : NoRaise e (CG.raise e1 : CG α) := by
  intro s s1 h1
  simp only [CG.raise, Res.err.injEq] at h1
  exact h h1.1

theorem noRaise_get {e : Err} : NoRaise e CG.get := by
  intro s s1 h; cases h

theorem noRaise_modify {e : Err} (f : Pcb → Pcb) : NoRaise e (CG.modify f) := by
  intro s s1 h; cases h

theorem noRaise_ite {α : Type} {e : Err} {c : Prop} [Decidable c] {m1 m2 : CG α}
    (h1 : NoRaise e m1) (h2 : NoRaise e m2) : NoRaise e (if c then m1 else m2) := by
  split <;> assumption

theorem noRaise_deref {α : Type} {e : Err} (h : Err.UNDEFINED ≠ e) (o : Option α) :
    NoRaise e (deref o) := by
  cases o with
  | none => exact noRaise_raise h
  | some a => exact noRaise_pure a

theorem noRaise_append {e : Err} (n : IrNode) : NoRaise e (dt_irlist_append n) :=
  noRaise_modify _

theorem noRaise_mov {e : Err} (cfg : Cfg) (a b : Int) : NoRaise e (dt_cg_mov cfg a b) :=
  noRaise_bind noRaise_get fun _ => noRaise_append _

theorem noRaise_xsetx {e : Err} (h : Err.EDT_NOMEM ≠ e) (cfg : Cfg) (idp lbl : Option Nat)
    (reg : Int) (x : Nat) : NoRaise e (dt_cg_xsetx cfg idp lbl reg x) := by
  unfold dt_cg_xsetx
  refine noRaise_bind (noRaise_ite (noRaise_raise h) (noRaise_pure _)) fun _ => ?_
  refine noRaise_bind (noRaise_ite (c := x < 2 ^ 32 - 1) (noRaise_append _) ?_) fun _ => ?_
  · exact noRaise_bind (noRaise_append _) fun _ => noRaise_append _
  · cases idp with
    | none => exact noRaise_pure _
    | some i => exact noRaise_modify _

theorem noRaise_forEach {α : Type} {e : Err} {f : α → CG Unit} (hf : ∀ a, NoRaise e (f a))
    (l : List α) : NoRaise e (forEach f l) := by
  induction l with
  | nil => exact noRaise_pure _
  | cons a as ih => exact noRaise_bind (hf a) fun _ => ih

theorem noRaise_append_to {e : Err} (d : ListRef) (n : IrNode) :
    NoRaise e (dt_irlist_append_to d n) := by
  cases d
  · exact noRaise_append _
  · exact noRaise_pure _

theorem noRaise_spill {e : Err} (d : ListRef) (r : Nat) : NoRaise e (dt_spill d r) :=
  noRaise_bind (noRaise_modify _) fun _ => noRaise_bind noRaise_get fun _ =>
    noRaise_append_to _ _

theorem noRaise_unspill {e : Err} (d : ListRef) (r : Nat) : NoRaise e (dt_unspill d r) :=
  noRaise_bind noRaise_get fun _ => noRaise_bind (noRaise_append_to _ _) fun _ =>
    noRaise_modify _

theorem noRaise_call_scan {e : Err} (h : Err.UNDEFINED ≠ e) (l : List Char) (reg : Nat) :
    NoRaise e (dt_cg_call_scan l reg) := by
  induction l generalizing reg with
  | nil => exact noRaise_raise h
  | cons c cs ih =>
    unfold dt_cg_call_scan
    exact noRaise_ite (noRaise_pure _) (ih _)

theorem noRaise_call_args {e : Err} (h1 : Err.UNDEFINED ≠ e) (h2 : Err.EDT_NOMEM ≠ e)
    (h3 : Err.EDT_INVALIDBPFHELPER ≠ e) (cfg : Cfg) (l : List Char) (reg : Nat)
    (ap : List Int) : NoRaise e (dt_cg_call_args cfg l reg ap) := by
  induction l generalizing reg ap with
  | nil => exact noRaise_raise h3
  | cons c cs ih =>
    unfold dt_cg_call_args
    refine noRaise_ite ?_ (noRaise_ite ?_ (noRaise_ite ?_ (noRaise_raise h3)))
    · exact noRaise_bind (noRaise_deref h1 _) fun _ => noRaise_bind (noRaise_mov _ _ _) fun _ => ih _ _
    · exact noRaise_bind (noRaise_deref h1 _) fun _ =>
        noRaise_bind (noRaise_xsetx h2 _ _ _ _ _) fun _ => ih _ _
    · exact noRaise_bind (noRaise_mov _ _ _) fun _ => ih _ _

/-- The argument loop of `dt_cg_call` never falls through to the `CALL`: it ends in
the `default:` arm on the terminator, or earlier. -/
theorem neverOk_call_args (cfg : Cfg) (l : List Char) (reg : Nat) (ap : List Int) :
    NeverOk (dt_cg_call_args cfg l reg ap) := by
  induction l generalizing reg ap with
  | nil => intro s a s1 h; cases h
  | cons c cs ih =>
    intro s a s1 h
    unfold dt_cg_call_args at h
    split at h
    · rw [bind_apply] at h
      cases hd : deref ap.head? s with
      | err e2 s2 => rw [hd] at h; cases h
      | ok v s2 =>
        rw [hd] at h
        exact ih _ _ _ a s1 h
    · split at h
      · rw [bind_apply] at h
        cases hd : deref ap.head? s with
        | err e2 s2 => rw [hd] at h; cases h
        | ok v s2 =>
          rw [hd] at h
          simp only [bind_apply] at h
          cases hx : dt_cg_setx cfg (↑reg) (v % 2 ^ 32).toNat s2 with
          | err e3 s3 => rw [hx] at h; cases h
          | ok u s3 => rw [hx] at h; exact ih _ _ _ a s1 h
      · split at h
        · exact ih _ _ _ a s1 h
        · cases h

theorem neverOk_bind_left {α β : Type} {m : CG α} (f : α → CG β) (h : NeverOk m) :
    NeverOk (m >>= f) := by
  intro s a s1 hh
  rw [bind_apply] at hh
  cases hm : m s with
  | ok b s2 => exact h s b s2 hm
  | err e s2 => rw [hm] at hh; cases hh

theorem neverOk_bind_right {α β : Type} (m : CG α) {f : α → CG β} (h : ∀ a, NeverOk (f a)) :
    NeverOk (m >>= f) := by
  intro s a s1 hh
  rw [bind_apply] at hh
  cases hm : m s with
  | ok b s2 => rw [hm] at hh; exact h b s2 a s1 hh
  | err e s2 => rw [hm] at hh; cases hh

/-- The helper-call emitter `dt_cg_call` has no normal return. -/
theorem neverOk_call (cfg : Cfg) (helper : Nat) (ap : List Int) :
    NeverOk (dt_cg_call cfg helper ap) := by
  unfold dt_cg_call
  exact neverOk_bind_right _ fun s0 => neverOk_bind_right _ fun _ => neverOk_bind_right _ fun _ =>
    neverOk_bind_right _ fun argstr => neverOk_bind_right _ fun p =>
    neverOk_bind_right _ fun _ => neverOk_bind_right _ fun _ => neverOk_bind_right _ fun _ =>
    neverOk_bind_left _ (neverOk_call_args cfg argstr p.2 ap)

/-! ## The frame of the primitive emitters -/

theorem bind_ok_inv {α β : Type} {m : CG α} {f : α → CG β} {s s1 : Pcb} {b : β}
    (h : (m >>= f) s = Res.ok b s1) : ∃ a s2, m s = Res.ok a s2 ∧ f a s2 = Res.ok b s1 := by
  rw [bind_apply] at h
  cases hm : m s with
  | ok a s2 => rw [hm] at h; exact ⟨a, s2, rfl, h⟩
  | err e s2 => rw [hm] at h; cases h

theorem frame_refl (s : Pcb) : Frame s s :=
  ⟨rfl, id, Nat.le_refl _, fun _ h => h, id, fun _ h1 h2 => absurd h2 (Nat.not_lt.mpr h1)⟩

theorem frame_trans {a b c : Pcb} (h1 : Frame a b) (h2 : Frame b c) : Frame a c where
  depth := h2.depth.trans h1.depth
  noexit := fun h => h2.noexit (h1.noexit h)
  dl := Nat.le_trans h1.dl h2.dl
  att := fun l h => h2.att l (h1.att l h)
  minted := fun h => h2.minted (h1.minted h)
  fresh := fun l hl hu => by
    by_cases hb : l < b.dl_label
    · exact h2.att l (h1.fresh l hl hb)
    · exact h2.fresh l (Nat.not_lt.mp hb) hu

/-- A change of the context that touches neither the instruction list, nor the
label counter, nor the stack depth. -/
theorem frame_of_same {s s1 : Pcb} (h1 : s1.pcb_ir = s.pcb_ir) (h2 : s1.dl_label = s.dl_label)
    (h3 : s1.pcb_stackdepth = s.pcb_stackdepth) : Frame s s1 where
  depth := h3
  noexit := fun h n hn => h n (h1 ▸ hn)
  dl := Nat.le_of_eq h2.symm
  att := fun l ⟨n, hn, hl⟩ => ⟨n, h1 ▸ hn, hl⟩
  minted := fun h n hn l hl => h2 ▸ h n (h1 ▸ hn) l hl
  fresh := fun l hl hu => absurd (h2 ▸ hu) (Nat.not_lt.mpr hl)

theorem soundFrom_weaken {α : Type} {k : Nat} {m : CG α} (h : SoundFrom 0 m) : SoundFrom k m :=
  ⟨fun s a s1 _ hm => h.frame s a s1 (Nat.zero_le _) hm⟩

theorem sound_bind {α β : Type} {k : Nat} {m : CG α} {f : α → CG β}
    (hm : SoundFrom k m) (hf : ∀ a, SoundFrom k (f a)) : SoundFrom k (m >>= f) := by
  constructor
  intro s b s1 hk h
  obtain ⟨a, s2, h1, h2⟩ := bind_ok_inv h
  have f1 := hm.frame s a s2 hk h1
  exact frame_trans f1 ((hf a).frame s2 b s1 (Nat.le_trans hk f1.dl) h2)

theorem sound_pure {α : Type} {k : Nat} (a : α) : SoundFrom k (pure a : CG α) := by
  constructor
  intro s b s1 _ h
  cases h
  exact frame_refl s

theorem sound_raise {α : Type} {k : Nat} (e : Err) : SoundFrom k (CG.raise e : CG α) := by
  constructor; intro s b s1 _ h; cases h

theorem sound_get {k : Nat} : SoundFrom k CG.get := by
  constructor; intro s b s1 _ h; cases h; exact frame_refl s

theorem sound_of_neverOk {α : Type} {k : Nat} {m : CG α} (h : NeverOk m) : SoundFrom k m :=
  ⟨fun s a s1 _ hh => absurd hh (h s a s1)⟩

theorem sound_modify {k : Nat} (f : Pcb → Pcb) (hf : ∀ s, k ≤ s.dl_label → Frame s (f s)) :
    SoundFrom k (CG.modify f) := by
  constructor; intro s b s1 hk h; cases h; exact hf s hk

theorem attached_append {s : Pcb} {n : IrNode} {l : Nat} (h : Attached s l) :
    Attached { s with pcb_ir := s.pcb_ir ++ [n] } l := by
  obtain ⟨m, hm, hl⟩ := h
  exact ⟨m, List.mem_append_left _ hm, hl⟩

theorem sound_append {k : Nat} (n : IrNode) (hne : n.di_instr ≠ Insn.EXIT)
    (ht : ∀ l, n.di_instr.target? = some l → l < k) : SoundFrom k (dt_irlist_append n) := by
  apply sound_modify
  intro s hk
  refine ⟨rfl, fun hs m hm => ?_, Nat.le_refl _, fun l h => attached_append h,
    fun hs m hm l hl => ?_, fun l h1 h2 => absurd h2 (Nat.not_lt.mpr h1)⟩
  · simp only [List.mem_append, List.mem_singleton] at hm
    rcases hm with hm | hm
    · exact hs m hm
    · rw [hm]; exact hne
  · simp only [List.mem_append, List.mem_singleton] at hm
    rcases hm with hm | hm
    · exact hs m hm l hl
    · rw [hm] at hl; exact Nat.lt_of_lt_of_le (ht l hl) hk

theorem sound_append_alloc {k : Nat} (i : Insn) (hne : i ≠ Insn.EXIT)
    (ht : ∀ l, i.target? = some l → l < k) :
    SoundFrom k (dt_irlist_append (dt_cg_node_alloc i)) :=
  sound_append _ hne ht

theorem sound_append_labelled {k : Nat} (lbl : Option Nat) (i : Insn) (hne : i ≠ Insn.EXIT)
    (ht : ∀ l, i.target? = some l → l < k) :
    SoundFrom k (dt_irlist_append (dt_cg_node_alloc_labelled lbl i)) :=
  sound_append _ hne ht

theorem sound_deref {α : Type} {k : Nat} (o : Option α) : SoundFrom k (deref o) := by
  cases o with
  | none => exact sound_raise _
  | some a => exact sound_pure a

theorem sound_orRaise {α : Type} {k : Nat} (o : Option α) (e : Err) :
    SoundFrom k (orRaise o e) := by
  cases o with
  | none => exact sound_raise _
  | some a => exact sound_pure a

theorem sound_raiseIf {k : Nat} (c : Prop) [Decidable c] (e : Err) :
    SoundFrom k (raiseIf c e) := by
  unfold raiseIf; split
  · exact sound_raise _
  · exact sound_pure _

theorem sound_cassert {k : Nat} (b : Bool) : SoundFrom k (cassert b) := by
  unfold cassert; split
  · exact sound_pure _
  · exact sound_raise _

theorem sound_doIf {k : Nat} (c : Prop) [Decidable c] {m : CG Unit} (h : SoundFrom k m) :
    SoundFrom k (doIf c m) := by
  unfold doIf; split
  · exact h
  · exact sound_pure _

theorem sound_alloc {k : Nat} (cfg : Cfg) : SoundFrom k (dt_regset_alloc cfg) := by
  constructor
  intro s b s1 _ h
  unfold dt_regset_alloc at h
  simp only at h
  split at h <;> cases h <;> exact frame_of_same rfl rfl rfl

theorem sound_free {k : Nat} (r : Int) : SoundFrom k (dt_regset_free r) := by
  apply sound_modify
  intro s _
  split
  · exact frame_of_same rfl rfl rfl
  · exact frame_refl s

theorem sound_modIdent {k : Nat} (i : Nat) (f : Ident → Ident) : SoundFrom k (modIdent i f) :=
  sound_modify _ fun _ _ => frame_of_same rfl rfl rfl

theorem sound_getIdent {k : Nat} (i : Nat) : SoundFrom k (getIdent i) :=
  sound_bind sound_get fun _ => sound_deref _

theorem sound_getXlator {k : Nat} (i : Nat) : SoundFrom k (getXlator i) :=
  sound_bind sound_get fun _ => sound_deref _

theorem sound_call {k : Nat} (cfg : Cfg) (h : Nat) (ap : List Int) :
    SoundFrom k (dt_cg_call cfg h ap) :=
  sound_of_neverOk (neverOk_call cfg h ap)

theorem sound_mov {k : Nat} (cfg : Cfg) (hg : BenignMov cfg) (a b : Int) :
    SoundFrom k (dt_cg_mov cfg a b) :=
  sound_bind sound_get fun s => sound_append _ (hg s).1
    (by intro l h; rw [show (dt_cg_node_alloc (cfg.indeterminate_insn s)).di_instr =
          cfg.indeterminate_insn s from rfl, (hg s).2] at h; cases h)

theorem sound_patch {k : Nat} (pos : Nat) (i : Insn) (h : i ≠ Insn.EXIT)
    (ht : i.target? = none) : SoundFrom k (patchInstr pos i) := by
  apply sound_modify
  intro s _
  refine ⟨rfl, fun hs m hm => ?_, Nat.le_refl _, fun l hl => ?_, fun hs m hm l hl => ?_,
    fun l h1 h2 => absurd h2 (Nat.not_lt.mpr h1)⟩
  · simp only at hm
    rw [List.mem_iff_getElem] at hm
    obtain ⟨j, hj, rfl⟩ := hm
    rw [List.getElem_modify]
    split
    · exact h
    · apply hs; exact List.getElem_mem _
  · obtain ⟨m, hm, hml⟩ := hl
    rw [List.mem_iff_getElem] at hm
    obtain ⟨j, hj, rfl⟩ := hm
    have hj1 : j < (s.pcb_ir.modify (fun n => { n with di_instr := i }) pos).length := by
      simpa using hj
    refine ⟨(s.pcb_ir.modify (fun n => { n with di_instr := i }) pos)[j],
      List.getElem_mem _, ?_⟩
    rw [List.getElem_modify]
    split
    · exact hml
    · exact hml
  · simp only at hm
    rw [List.mem_iff_getElem] at hm
    obtain ⟨j, hj, rfl⟩ := hm
    rw [List.getElem_modify] at hl
    split at hl
    · simp only [ht] at hl
      cases hl
    · exact hs _ (List.getElem_mem _) l hl

theorem sound_patch_mov {k : Nat} (pos : Nat) (a b : Int) :
    SoundFrom k (patchInstr pos (BPF_MOV64_REG a b)) :=
  sound_patch pos _ (by simp) rfl

theorem sound_xsetx {k : Nat} (cfg : Cfg) (idp lbl : Option Nat) (reg : Int) (x : Nat) :
    SoundFrom k (dt_cg_xsetx cfg idp lbl reg x) := by
  unfold dt_cg_xsetx
  refine sound_bind (sound_raiseIf _ _) fun _ => sound_bind ?_ fun _ => ?_
  · split
    · exact sound_append _ (by simp [dt_cg_node_alloc_labelled])
        (by intro l h; simp [Insn.target?, dt_cg_node_alloc_labelled] at h)
    · exact sound_bind (sound_append _ (by simp [dt_cg_node_alloc_labelled])
          (by intro l h; simp [Insn.target?, dt_cg_node_alloc_labelled] at h)) fun _ =>
        sound_append _ (by simp [dt_cg_node_alloc, dt_cg_node_alloc_labelled])
          (by intro l h; simp [Insn.target?, dt_cg_node_alloc, dt_cg_node_alloc_labelled] at h)
  · cases idp with
    | none => exact sound_pure _
    | some i =>
      apply sound_modify
      intro s _
      split
      · exact frame_refl s
      · rename_i last hl
        have hmem : ∀ m, m ∈ s.pcb_ir.dropLast ++ [{ last with di_extern_ident := some i }] →
            ∃ m0 ∈ s.pcb_ir, m0.di_instr = m.di_instr ∧ m0.di_label = m.di_label := by
          intro m hm
          simp only [List.mem_append, List.mem_singleton] at hm
          rcases hm with hm | hm
          · exact ⟨m, List.mem_of_mem_dropLast hm, rfl, rfl⟩
          · exact ⟨last, List.mem_of_getLast?_eq_some hl, by rw [hm], by rw [hm]⟩
        refine ⟨rfl, fun hs m hm => ?_, Nat.le_refl _, fun l hat => ?_, fun hs m hm l hml => ?_,
          fun l h1 h2 => absurd h2 (Nat.not_lt.mpr h1)⟩
        · obtain ⟨m0, h0, hi, _⟩ := hmem m hm
          rw [← hi]; exact hs m0 h0
        · obtain ⟨m, hm, hml⟩ := hat
          have hsplit := List.dropLast_append_getLast? last hl
          rw [← hsplit] at hm
          simp only [List.mem_append, List.mem_singleton] at hm
          rcases hm with hm | hm
          · exact ⟨m, List.mem_append_left _ hm, hml⟩
          · refine ⟨{ last with di_extern_ident := some i }, ?_, ?_⟩
            · simp
            · rw [← hm]; exact hml
        · obtain ⟨m0, h0, hi, _⟩ := hmem m hm
          rw [← hi] at hml
          exact hs m0 h0 l hml

theorem sound_setx {k : Nat} (cfg : Cfg) (reg : Int) (x : Nat) :
    SoundFrom k (dt_cg_setx cfg reg x) :=
  sound_xsetx _ _ _ _ _

/-! ## Labels: minting and attachment -/

theorem mono_of_sound {α : Type} {m : CG α} (h : SoundFrom 0 m) : Mono m :=
  ⟨fun s a s1 hm l hl => (h.frame s a s1 (Nat.zero_le _) hm).att l hl⟩

theorem mono_bind {α β : Type} {m : CG α} {f : α → CG β} (hm : Mono m) (hf : ∀ a, Mono (f a)) :
    Mono (m >>= f) := by
  constructor
  intro s b s1 h l hl
  obtain ⟨a, s2, h1, h2⟩ := bind_ok_inv h
  exact (hf a).att s2 b s1 h2 l (hm.att s a s2 h1 l hl)

theorem mono_append (n : IrNode) : Mono (dt_irlist_append n) := by
  constructor
  intro s a s1 h l hl
  cases h
  exact attached_append hl

theorem mono_doIf (c : Prop) [Decidable c] {m : CG Unit} (h : Mono m) : Mono (doIf c m) := by
  unfold doIf; split
  · exact h
  · exact mono_of_sound (sound_pure _)

theorem attaches_bind_right {α β : Type} {l : Nat} (m : CG α) {f : α → CG β}
    (hf : ∀ a, Attaches l (f a)) : Attaches l (m >>= f) := by
  constructor
  intro s b s1 h
  obtain ⟨a, s2, _, h2⟩ := bind_ok_inv h
  exact (hf a).att s2 b s1 h2

theorem attaches_bind_left {α β : Type} {l : Nat} {m : CG α} {f : α → CG β}
    (hm : Attaches l m) (hf : ∀ a, Mono (f a)) : Attaches l (m >>= f) := by
  constructor
  intro s b s1 h
  obtain ⟨a, s2, h1, h2⟩ := bind_ok_inv h
  exact (hf a).att s2 b s1 h2 l (hm.att s a s2 h1)

theorem attaches_append (l : Nat) (i : Insn) :
    Attaches l (dt_irlist_append (dt_cg_node_alloc_labelled (some l) i)) := by
  constructor
  intro s a s1 h
  cases h
  exact ⟨dt_cg_node_alloc_labelled (some l) i, by simp, rfl⟩

theorem attaches_xsetx (cfg : Cfg) (l : Nat) (reg : Int) (x : Nat) :
    Attaches l (dt_cg_xsetx cfg none (some l) reg x) := by
  unfold dt_cg_xsetx
  refine attaches_bind_right _ fun _ => attaches_bind_left ?_ fun _ => mono_of_sound (sound_pure _)
  split
  · exact attaches_append l _
  · exact attaches_bind_left (attaches_append l _) fun _ => mono_append _

theorem attaches_append_then {β : Type} (l : Nat) (i : Insn) {f : Unit → CG β}
    (hf : ∀ a, Mono (f a)) :
    Attaches l (dt_irlist_append (dt_cg_node_alloc_labelled (some l) i) >>= f) :=
  attaches_bind_left (attaches_append l i) hf

theorem attaches_xsetx_then {β : Type} (cfg : Cfg) (l : Nat) (reg : Int) (x : Nat)
    {f : Unit → CG β} (hf : ∀ a, Mono (f a)) :
    Attaches l (dt_cg_xsetx cfg none (some l) reg x >>= f) :=
  attaches_bind_left (attaches_xsetx cfg l reg x) hf

/-- Minting a label in front of a body that attaches it. -/
theorem sound_label {α : Type} {k : Nat} {body : Nat → CG α}
    (hb : ∀ l, k ≤ l → SoundFrom (l + 1) (body l)) (ha : ∀ l, Attaches l (body l)) :
    SoundFrom k (dt_irlist_label >>= body) := by
  constructor
  intro s b s1 hk h
  obtain ⟨l, s2, h1, h2⟩ := bind_ok_inv h
  cases h1
  have f2 := (hb s.dl_label hk).frame _ b s1 (Nat.le_refl _) h2
  have hat := (ha s.dl_label).att _ b s1 h2
  refine ⟨f2.depth, fun hs => f2.noexit hs, Nat.le_trans (Nat.le_succ _) f2.dl,
    fun l hl => f2.att l hl, fun hs => f2.minted fun n hn l hl => Nat.lt_succ_of_lt (hs n hn l hl),
    fun l h1 h2 => ?_⟩
  by_cases he : l = s.dl_label
  · rw [he]; exact hat
  · exact f2.fresh l (by simp only; omega) h2

/-! ## The frame of every emitter -/

theorem sound_typecast {k : Nat} (src : NodeInfo) (a : Int) (dst : ArgSig) (b : Int) :
    SoundFrom k (dt_cg_typecast src a dst b) := by
  unfold dt_cg_typecast
  repeat (first
    | with_reducible exact sound_pure _
    | with_reducible exact sound_raise _
    | with_reducible exact sound_get
    | with_reducible exact sound_raiseIf _ _
    | with_reducible exact sound_cassert _
    | with_reducible exact sound_deref _
    | with_reducible exact sound_orRaise _ _
    | with_reducible exact sound_alloc _
    | with_reducible exact sound_free _
    | with_reducible exact sound_modIdent _ _
    | with_reducible exact sound_getIdent _
    | with_reducible exact sound_getXlator _
    | with_reducible exact sound_mov _ hg _ _
    | with_reducible exact sound_setx _ _ _
    | with_reducible exact sound_xsetx _ _ _ _ _
    | with_reducible exact sound_call _ _ _
    | ((with_reducible refine sound_append_alloc _ ?_ ?_) <;> first | (intro l h; simp [Insn.target?] at h <;> omega) | simp)
    | ((with_reducible refine sound_append_labelled _ _ ?_ ?_) <;> first | (intro l h; simp [Insn.target?] at h <;> omega) | simp)
    | with_reducible exact sound_patch_mov _ _ _
    | (apply sound_of_neverOk; focus ((repeat (first | exact neverOk_bind_left _ (neverOk_call _ _ _) | (apply neverOk_bind_right; intro _))); done))
    | apply sound_doIf
    | apply sound_bind
    | intro _
    | split
    | dsimp only)

theorem sound_load {k : Nat} (fl : NFlags) (t : TyInfo) :
    SoundFrom k (dt_cg_load fl t) := by
  unfold dt_cg_load
  repeat (first
    | with_reducible exact sound_pure _
    | with_reducible exact sound_raise _
    | with_reducible exact sound_get
    | with_reducible exact sound_raiseIf _ _
    | with_reducible exact sound_cassert _
    | with_reducible exact sound_deref _
    | with_reducible exact sound_orRaise _ _
    | with_reducible exact sound_alloc _
    | with_reducible exact sound_free _
    | with_reducible exact sound_modIdent _ _
    | with_reducible exact sound_getIdent _
    | with_reducible exact sound_getXlator _
    | with_reducible exact sound_mov _ hg _ _
    | with_reducible exact sound_setx _ _ _
    | with_reducible exact sound_xsetx _ _ _ _ _
    | with_reducible exact sound_call _ _ _
    | ((with_reducible refine sound_append_alloc _ ?_ ?_) <;> first | (intro l h; simp [Insn.target?] at h <;> omega) | simp)
    | ((with_reducible refine sound_append_labelled _ _ ?_ ?_) <;> first | (intro l h; simp [Insn.target?] at h <;> omega) | simp)
    | with_reducible exact sound_patch_mov _ _ _
    | (apply sound_of_neverOk; focus ((repeat (first | exact neverOk_bind_left _ (neverOk_call _ _ _) | (apply neverOk_bind_right; intro _))); done))
    | apply sound_doIf
    | apply sound_bind
    | intro _
    | split
    | dsimp only)

theorem sound_ptrsize {k : Nat} (cfg : Cfg) (hg : BenignMov cfg) (dnp : NodeInfo) (op : AluOp) (dreg : Int) :
    SoundFrom k (dt_cg_ptrsize cfg dnp op dreg) := by
  unfold dt_cg_ptrsize
  repeat (first
    | with_reducible exact sound_pure _
    | with_reducible exact sound_raise _
    | with_reducible exact sound_get
    | with_reducible exact sound_raiseIf _ _
    | with_reducible exact sound_cassert _
    | with_reducible exact sound_deref _
    | with_reducible exact sound_orRaise _ _
    | with_reducible exact sound_alloc _
    | with_reducible exact sound_free _
    | with_reducible exact sound_modIdent _ _
    | with_reducible exact sound_getIdent _
    | with_reducible exact sound_getXlator _
    | with_reducible exact sound_mov _ hg _ _
    | with_reducible exact sound_setx _ _ _
    | with_reducible exact sound_xsetx _ _ _ _ _
    | with_reducible exact sound_call _ _ _
    | ((with_reducible refine sound_append_alloc _ ?_ ?_) <;> first | (intro l h; simp [Insn.target?] at h <;> omega) | simp)
    | ((with_reducible refine sound_append_labelled _ _ ?_ ?_) <;> first | (intro l h; simp [Insn.target?] at h <;> omega) | simp)
    | with_reducible exact sound_patch_mov _ _ _
    | (apply sound_of_neverOk; focus ((repeat (first | exact neverOk_bind_left _ (neverOk_call _ _ _) | (apply neverOk_bind_right; intro _))); done))
    | apply sound_doIf
    | apply sound_bind
    | intro _
    | split
    | dsimp only)

theorem sound_field_get {k : Nat} (cfg : Cfg) (hg : BenignMov cfg) (dnp : NodeInfo) (r1 : Int) (mp : MembInfo) :
    SoundFrom k (dt_cg_field_get cfg dnp r1 mp) := by
  unfold dt_cg_field_get
  repeat (first
    | with_reducible exact sound_pure _
    | with_reducible exact sound_raise _
    | with_reducible exact sound_get
    | with_reducible exact sound_raiseIf _ _
    | with_reducible exact sound_cassert _
    | with_reducible exact sound_deref _
    | with_reducible exact sound_orRaise _ _
    | with_reducible exact sound_alloc _
    | with_reducible exact sound_free _
    | with_reducible exact sound_modIdent _ _
    | with_reducible exact sound_getIdent _
    | with_reducible exact sound_getXlator _
    | with_reducible exact sound_mov _ hg _ _
    | with_reducible exact sound_setx _ _ _
    | with_reducible exact sound_xsetx _ _ _ _ _
    | with_reducible exact sound_call _ _ _
    | ((with_reducible refine sound_append_alloc _ ?_ ?_) <;> first | (intro l h; simp [Insn.target?] at h <;> omega) | simp)
    | ((with_reducible refine sound_append_labelled _ _ ?_ ?_) <;> first | (intro l h; simp [Insn.target?] at h <;> omega) | simp)
    | with_reducible exact sound_patch_mov _ _ _
    | (apply sound_of_neverOk; focus ((repeat (first | exact neverOk_bind_left _ (neverOk_call _ _ _) | (apply neverOk_bind_right; intro _))); done))
    | apply sound_doIf
    | apply sound_bind
    | intro _
    | split
    | dsimp only)

theorem sound_field_set {k : Nat} (cfg : Cfg) (hg : BenignMov cfg) (a : Int) (dst : Node) (b : Int) :
    SoundFrom k (dt_cg_field_set cfg a dst b) := by
  unfold dt_cg_field_set
  repeat (first
    | with_reducible exact sound_pure _
    | with_reducible exact sound_raise _
    | with_reducible exact sound_get
    | with_reducible exact sound_raiseIf _ _
    | with_reducible exact sound_cassert _
    | with_reducible exact sound_deref _
    | with_reducible exact sound_orRaise _ _
    | with_reducible exact sound_alloc _
    | with_reducible exact sound_free _
    | with_reducible exact sound_modIdent _ _
    | with_reducible exact sound_getIdent _
    | with_reducible exact sound_getXlator _
    | with_reducible exact sound_mov _ hg _ _
    | with_reducible exact sound_setx _ _ _
    | with_reducible exact sound_xsetx _ _ _ _ _
    | with_reducible exact sound_call _ _ _
    | ((with_reducible refine sound_append_alloc _ ?_ ?_) <;> first | (intro l h; simp [Insn.target?] at h <;> omega) | simp)
    | ((with_reducible refine sound_append_labelled _ _ ?_ ?_) <;> first | (intro l h; simp [Insn.target?] at h <;> omega) | simp)
    | with_reducible exact sound_patch_mov _ _ _
    | (apply sound_of_neverOk; focus ((repeat (first | exact neverOk_bind_left _ (neverOk_call _ _ _) | (apply neverOk_bind_right; intro _))); done))
    | apply sound_doIf
    | apply sound_bind
    | intro _
    | split
    | dsimp only)

theorem sound_store {k : Nat} (cfg : Cfg) (hg : BenignMov cfg) (src : NodeInfo) (a : Int) (dst : Node) (b : Int) :
    SoundFrom k (dt_cg_store cfg src a dst b) := by
  unfold dt_cg_store
  repeat (first
    | with_reducible exact sound_pure _
    | with_reducible exact sound_raise _
    | with_reducible exact sound_get
    | with_reducible exact sound_raiseIf _ _
    | with_reducible exact sound_cassert _
    | with_reducible exact sound_deref _
    | with_reducible exact sound_orRaise _ _
    | with_reducible exact sound_alloc _
    | with_reducible exact sound_free _
    | with_reducible exact sound_modIdent _ _
    | with_reducible exact sound_getIdent _
    | with_reducible exact sound_getXlator _
    | with_reducible exact sound_mov _ hg _ _
    | with_reducible exact sound_setx _ _ _
    | with_reducible exact sound_xsetx _ _ _ _ _
    | with_reducible exact sound_call _ _ _
    | ((with_reducible refine sound_append_alloc _ ?_ ?_) <;> first | (intro l h; simp [Insn.target?] at h <;> omega) | simp)
    | ((with_reducible refine sound_append_labelled _ _ ?_ ?_) <;> first | (intro l h; simp [Insn.target?] at h <;> omega) | simp)
    | with_reducible exact sound_patch_mov _ _ _
    | with_reducible exact sound_field_set _ hg _ _ _
    | (apply sound_of_neverOk; focus ((repeat (first | exact neverOk_bind_left _ (neverOk_call _ _ _) | (apply neverOk_bind_right; intro _))); done))
    | apply sound_doIf
    | apply sound_bind
    | intro _
    | split
    | dsimp only)

theorem sound_stvar {k : Nat} (cfg : Cfg) (hg : BenignMov cfg) (idp : Ident) :
    SoundFrom k (dt_cg_stvar cfg idp) := by
  unfold dt_cg_stvar
  repeat (first
    | with_reducible exact sound_pure _
    | with_reducible exact sound_raise _
    | with_reducible exact sound_get
    | with_reducible exact sound_raiseIf _ _
    | with_reducible exact sound_cassert _
    | with_reducible exact sound_deref _
    | with_reducible exact sound_orRaise _ _
    | with_reducible exact sound_alloc _
    | with_reducible exact sound_free _
    | with_reducible exact sound_modIdent _ _
    | with_reducible exact sound_getIdent _
    | with_reducible exact sound_getXlator _
    | with_reducible exact sound_mov _ hg _ _
    | with_reducible exact sound_setx _ _ _
    | with_reducible exact sound_xsetx _ _ _ _ _
    | with_reducible exact sound_call _ _ _
    | ((with_reducible refine sound_append_alloc _ ?_ ?_) <;> first | (intro l h; simp [Insn.target?] at h <;> omega) | simp)
    | ((with_reducible refine sound_append_labelled _ _ ?_ ?_) <;> first | (intro l h; simp [Insn.target?] at h <;> omega) | simp)
    | with_reducible exact sound_patch_mov _ _ _
    | (apply sound_of_neverOk; focus ((repeat (first | exact neverOk_bind_left _ (neverOk_call _ _ _) | (apply neverOk_bind_right; intro _))); done))
    | apply sound_doIf
    | apply sound_bind
    | intro _
    | split
    | dsimp only)

theorem sound_arith_step {k : Nat} (dnp : NodeInfo) :
    SoundFrom k (arith_step dnp) := by
  unfold arith_step
  repeat (first
    | with_reducible exact sound_pure _
    | with_reducible exact sound_raise _
    | with_reducible exact sound_get
    | with_reducible exact sound_raiseIf _ _
    | with_reducible exact sound_cassert _
    | with_reducible exact sound_deref _
    | with_reducible exact sound_orRaise _ _
    | with_reducible exact sound_alloc _
    | with_reducible exact sound_free _
    | with_reducible exact sound_modIdent _ _
    | with_reducible exact sound_getIdent _
    | with_reducible exact sound_getXlator _
    | with_reducible exact sound_mov _ hg _ _
    | with_reducible exact sound_setx _ _ _
    | with_reducible exact sound_xsetx _ _ _ _ _
    | with_reducible exact sound_call _ _ _
    | ((with_reducible refine sound_append_alloc _ ?_ ?_) <;> first | (intro l h; simp [Insn.target?] at h <;> omega) | simp)
    | ((with_reducible refine sound_append_labelled _ _ ?_ ?_) <;> first | (intro l h; simp [Insn.target?] at h <;> omega) | simp)
    | with_reducible exact sound_patch_mov _ _ _
    | (apply sound_of_neverOk; focus ((repeat (first | exact neverOk_bind_left _ (neverOk_call _ _ _) | (apply neverOk_bind_right; intro _))); done))
    | apply sound_doIf
    | apply sound_bind
    | intro _
    | split
    | dsimp only)

theorem sound_compare_signed {k : Nat} (dnp : Node) :
    SoundFrom k (dt_cg_compare_signed dnp) := by
  unfold dt_cg_compare_signed
  repeat (first
    | with_reducible exact sound_pure _
    | with_reducible exact sound_raise _
    | with_reducible exact sound_get
    | with_reducible exact sound_raiseIf _ _
    | with_reducible exact sound_cassert _
    | with_reducible exact sound_deref _
    | with_reducible exact sound_orRaise _ _
    | with_reducible exact sound_alloc _
    | with_reducible exact sound_free _
    | with_reducible exact sound_modIdent _ _
    | with_reducible exact sound_getIdent _
    | with_reducible exact sound_getXlator _
    | with_reducible exact sound_mov _ hg _ _
    | with_reducible exact sound_setx _ _ _
    | with_reducible exact sound_xsetx _ _ _ _ _
    | with_reducible exact sound_call _ _ _
    | ((with_reducible refine sound_append_alloc _ ?_ ?_) <;> first | (intro l h; simp [Insn.target?] at h <;> omega) | simp)
    | ((with_reducible refine sound_append_labelled _ _ ?_ ?_) <;> first | (intro l h; simp [Insn.target?] at h <;> omega) | simp)
    | with_reducible exact sound_patch_mov _ _ _
    | (apply sound_of_neverOk; focus ((repeat (first | exact neverOk_bind_left _ (neverOk_call _ _ _) | (apply neverOk_bind_right; intro _))); done))
    | apply sound_doIf
    | apply sound_bind
    | intro _
    | split
    | dsimp only)

theorem sound_strtab_insert {k : Nat} (str : String) :
    SoundFrom k (dt_strtab_insert str) := by
  unfold dt_strtab_insert
  constructor
  intro s a s1 _ h
  simp only at h
  split at h <;> cases h <;> exact frame_of_same rfl rfl rfl

theorem sound_arithmetic_op {k : Nat} (cfg : Cfg) (hg : BenignMov cfg) {visit : Node → CG Int} (dnp : Node) (op : AluOp) (hv : ∀ n, SoundFrom 0 (visit n)) :
    SoundFrom k (dt_cg_arithmetic_op cfg visit dnp op) := by
  unfold dt_cg_arithmetic_op
  repeat (first
    | with_reducible exact soundFrom_weaken (hv _)
    | with_reducible exact sound_pure _
    | with_reducible exact sound_raise _
    | with_reducible exact sound_get
    | with_reducible exact sound_raiseIf _ _
    | with_reducible exact sound_cassert _
    | with_reducible exact sound_deref _
    | with_reducible exact sound_orRaise _ _
    | with_reducible exact sound_alloc _
    | with_reducible exact sound_free _
    | with_reducible exact sound_modIdent _ _
    | with_reducible exact sound_getIdent _
    | with_reducible exact sound_getXlator _
    | with_reducible exact sound_mov _ hg _ _
    | with_reducible exact sound_setx _ _ _
    | with_reducible exact sound_xsetx _ _ _ _ _
    | with_reducible exact sound_call _ _ _
    | ((with_reducible refine sound_append_alloc _ ?_ ?_) <;> first | (intro l h; simp [Insn.target?] at h <;> omega) | simp)
    | ((with_reducible refine sound_append_labelled _ _ ?_ ?_) <;> first | (intro l h; simp [Insn.target?] at h <;> omega) | simp)
    | with_reducible exact sound_patch_mov _ _ _
    | with_reducible exact sound_ptrsize _ hg _ _ _
    | (apply sound_of_neverOk; focus ((repeat (first | exact neverOk_bind_left _ (neverOk_call _ _ _) | (apply neverOk_bind_right; intro _))); done))
    | apply sound_doIf
    | apply sound_bind
    | intro _
    | split
    | dsimp only)

theorem sound_prearith_op {k : Nat} (cfg : Cfg) (hg : BenignMov cfg) {visit : Node → CG Int} (dnp : Node) (op : AluOp) (hv : ∀ n, SoundFrom 0 (visit n)) :
    SoundFrom k (dt_cg_prearith_op cfg visit dnp op) := by
  unfold dt_cg_prearith_op
  repeat (first
    | with_reducible exact soundFrom_weaken (hv _)
    | with_reducible exact sound_pure _
    | with_reducible exact sound_raise _
    | with_reducible exact sound_get
    | with_reducible exact sound_raiseIf _ _
    | with_reducible exact sound_cassert _
    | with_reducible exact sound_deref _
    | with_reducible exact sound_orRaise _ _
    | with_reducible exact sound_alloc _
    | with_reducible exact sound_free _
    | with_reducible exact sound_modIdent _ _
    | with_reducible exact sound_getIdent _
    | with_reducible exact sound_getXlator _
    | with_reducible exact sound_mov _ hg _ _
    | with_reducible exact sound_setx _ _ _
    | with_reducible exact sound_xsetx _ _ _ _ _
    | with_reducible exact sound_call _ _ _
    | ((with_reducible refine sound_append_alloc _ ?_ ?_) <;> first | (intro l h; simp [Insn.target?] at h <;> omega) | simp)
    | ((with_reducible refine sound_append_labelled _ _ ?_ ?_) <;> first | (intro l h; simp [Insn.target?] at h <;> omega) | simp)
    | with_reducible exact sound_patch_mov _ _ _
    | with_reducible exact sound_arith_step _
    | with_reducible exact sound_stvar _ hg _
    | with_reducible exact sound_store _ hg _ _ _ _
    | (apply sound_of_neverOk; focus ((repeat (first | exact neverOk_bind_left _ (neverOk_call _ _ _) | (apply neverOk_bind_right; intro _))); done))
    | apply sound_doIf
    | apply sound_bind
    | intro _
    | split
    | dsimp only)

theorem sound_postarith_op {k : Nat} (cfg : Cfg) (hg : BenignMov cfg) {visit : Node → CG Int} (dnp : Node) (op : AluOp) (hv : ∀ n, SoundFrom 0 (visit n)) :
    SoundFrom k (dt_cg_postarith_op cfg visit dnp op) := by
  unfold dt_cg_postarith_op
  repeat (first
    | with_reducible exact soundFrom_weaken (hv _)
    | with_reducible exact sound_pure _
    | with_reducible exact sound_raise _
    | with_reducible exact sound_get
    | with_reducible exact sound_raiseIf _ _
    | with_reducible exact sound_cassert _
    | with_reducible exact sound_deref _
    | with_reducible exact sound_orRaise _ _
    | with_reducible exact sound_alloc _
    | with_reducible exact sound_free _
    | with_reducible exact sound_modIdent _ _
    | with_reducible exact sound_getIdent _
    | with_reducible exact sound_getXlator _
    | with_reducible exact sound_mov _ hg _ _
    | with_reducible exact sound_setx _ _ _
    | with_reducible exact sound_xsetx _ _ _ _ _
    | with_reducible exact sound_call _ _ _
    | ((with_reducible refine sound_append_alloc _ ?_ ?_) <;> first | (intro l h; simp [Insn.target?] at h <;> omega) | simp)
    | ((with_reducible refine sound_append_labelled _ _ ?_ ?_) <;> first | (intro l h; simp [Insn.target?] at h <;> omega) | simp)
    | with_reducible exact sound_patch_mov _ _ _
    | with_reducible exact sound_arith_step _
    | with_reducible exact sound_stvar _ hg _
    | with_reducible exact sound_store _ hg _ _ _ _
    | (apply sound_of_neverOk; focus ((repeat (first | exact neverOk_bind_left _ (neverOk_call _ _ _) | (apply neverOk_bind_right; intro _))); done))
    | apply sound_doIf
    | apply sound_bind
    | intro _
    | split
    | dsimp only)

theorem sound_compare_op {k : Nat} (cfg : Cfg) (hg : BenignMov cfg) {visit : Node → CG Int} (dnp : Node) (op : JmpOp) (hv : ∀ n, SoundFrom 0 (visit n)) :
    SoundFrom k (dt_cg_compare_op cfg visit dnp op) := by
  unfold dt_cg_compare_op
  refine sound_label (fun l1 h1 => sound_label (fun l2 h2 => ?_) (fun l2 => ?_)) (fun l1 => ?_)
  · repeat (first
      | with_reducible exact soundFrom_weaken (hv _)
      | with_reducible exact sound_pure _
      | with_reducible exact sound_raise _
      | with_reducible exact sound_get
      | with_reducible exact sound_raiseIf _ _
      | with_reducible exact sound_cassert _
      | with_reducible exact sound_deref _
      | with_reducible exact sound_orRaise _ _
      | with_reducible exact sound_alloc _
      | with_reducible exact sound_free _
      | with_reducible exact sound_modIdent _ _
      | with_reducible exact sound_getIdent _
      | with_reducible exact sound_getXlator _
      | with_reducible exact sound_mov _ hg _ _
      | with_reducible exact sound_setx _ _ _
      | with_reducible exact sound_xsetx _ _ _ _ _
      | with_reducible exact sound_call _ _ _
      | ((with_reducible refine sound_append_alloc _ ?_ ?_) <;> first | (intro l h; simp [Insn.target?] at h <;> omega) | simp)
      | ((with_reducible refine sound_append_labelled _ _ ?_ ?_) <;> first | (intro l h; simp [Insn.target?] at h <;> omega) | simp)
      | with_reducible exact sound_patch_mov _ _ _
      | (apply sound_of_neverOk; focus ((repeat (first | exact neverOk_bind_left _ (neverOk_call _ _ _) | (apply neverOk_bind_right; intro _))); done))
      | apply sound_doIf
      | apply sound_bind
      | intro _
      | split
      | dsimp only)

  · repeat (first
      | (apply attaches_append_then; intro _)
      | (apply attaches_xsetx_then; intro _)
      | (apply attaches_bind_right; intro _)
      | exact mono_append _
      | (apply mono_of_sound; first
          | with_reducible exact hv _
          | with_reducible exact sound_pure _
          | with_reducible exact sound_deref _
          | with_reducible exact sound_free _
          | with_reducible exact sound_setx _ _ _
          | with_reducible exact sound_xsetx _ _ _ _ _
          | with_reducible exact sound_patch_mov _ _ _)
      | apply mono_bind
      | intro _)
  · repeat (first
      | (apply attaches_append_then; intro _)
      | (apply attaches_xsetx_then; intro _)
      | (apply attaches_bind_right; intro _)
      | exact mono_append _
      | (apply mono_of_sound; first
          | with_reducible exact hv _
          | with_reducible exact sound_pure _
          | with_reducible exact sound_deref _
          | with_reducible exact sound_free _
          | with_reducible exact sound_setx _ _ _
          | with_reducible exact sound_xsetx _ _ _ _ _
          | with_reducible exact sound_patch_mov _ _ _)
      | apply mono_bind
      | intro _)

theorem sound_ternary_op {k : Nat} {visit : Node → CG Int} (dnp : Node) (hv : ∀ n, SoundFrom 0 (visit n)) :
    SoundFrom k (dt_cg_ternary_op visit dnp) := by
  unfold dt_cg_ternary_op
  refine sound_label (fun l1 h1 => sound_label (fun l2 h2 => ?_) (fun l2 => ?_)) (fun l1 => ?_)
  · repeat (first
      | with_reducible exact soundFrom_weaken (hv _)
      | with_reducible exact sound_pure _
      | with_reducible exact sound_raise _
      | with_reducible exact sound_get
      | with_reducible exact sound_raiseIf _ _
      | with_reducible exact sound_cassert _
      | with_reducible exact sound_deref _
      | with_reducible exact sound_orRaise _ _
      | with_reducible exact sound_alloc _
      | with_reducible exact sound_free _
      | with_reducible exact sound_modIdent _ _
      | with_reducible exact sound_getIdent _
      | with_reducible exact sound_getXlator _
      | with_reducible exact sound_mov _ hg _ _
      | with_reducible exact sound_setx _ _ _
      | with_reducible exact sound_xsetx _ _ _ _ _
      | with_reducible exact sound_call _ _ _
      | ((with_reducible refine sound_append_alloc _ ?_ ?_) <;> first | (intro l h; simp [Insn.target?] at h <;> omega) | simp)
      | ((with_reducible refine sound_append_labelled _ _ ?_ ?_) <;> first | (intro l h; simp [Insn.target?] at h <;> omega) | simp)
      | with_reducible exact sound_patch_mov _ _ _
      | (apply sound_of_neverOk; focus ((repeat (first | exact neverOk_bind_left _ (neverOk_call _ _ _) | (apply neverOk_bind_right; intro _))); done))
      | apply sound_doIf
      | apply sound_bind
      | intro _
      | split
      | dsimp only)

  · repeat (first
      | (apply attaches_append_then; intro _)
      | (apply attaches_xsetx_then; intro _)
      | (apply attaches_bind_right; intro _)
      | exact mono_append _
      | (apply mono_of_sound; first
          | with_reducible exact hv _
          | with_reducible exact sound_pure _
          | with_reducible exact sound_deref _
          | with_reducible exact sound_free _
          | with_reducible exact sound_setx _ _ _
          | with_reducible exact sound_xsetx _ _ _ _ _
          | with_reducible exact sound_patch_mov _ _ _)
      | apply mono_bind
      | intro _)
  · repeat (first
      | (apply attaches_append_then; intro _)
      | (apply attaches_xsetx_then; intro _)
      | (apply attaches_bind_right; intro _)
      | exact mono_append _
      | (apply mono_of_sound; first
          | with_reducible exact hv _
          | with_reducible exact sound_pure _
          | with_reducible exact sound_deref _
          | with_reducible exact sound_free _
          | with_reducible exact sound_setx _ _ _
          | with_reducible exact sound_xsetx _ _ _ _ _
          | with_reducible exact sound_patch_mov _ _ _)
      | apply mono_bind
      | intro _)

theorem sound_logical_and {k : Nat} (cfg : Cfg) (hg : BenignMov cfg) {visit : Node → CG Int} (dnp : Node) (hv : ∀ n, SoundFrom 0 (visit n)) :
    SoundFrom k (dt_cg_logical_and cfg visit dnp) := by
  unfold dt_cg_logical_and
  refine sound_label (fun l1 h1 => sound_label (fun l2 h2 => ?_) (fun l2 => ?_)) (fun l1 => ?_)
  · repeat (first
      | with_reducible exact soundFrom_weaken (hv _)
      | with_reducible exact sound_pure _
      | with_reducible exact sound_raise _
      | with_reducible exact sound_get
      | with_reducible exact sound_raiseIf _ _
      | with_reducible exact sound_cassert _
      | with_reducible exact sound_deref _
      | with_reducible exact sound_orRaise _ _
      | with_reducible exact sound_alloc _
      | with_reducible exact sound_free _
      | with_reducible exact sound_modIdent _ _
      | with_reducible exact sound_getIdent _
      | with_reducible exact sound_getXlator _
      | with_reducible exact sound_mov _ hg _ _
      | with_reducible exact sound_setx _ _ _
      | with_reducible exact sound_xsetx _ _ _ _ _
      | with_reducible exact sound_call _ _ _
      | ((with_reducible refine sound_append_alloc _ ?_ ?_) <;> first | (intro l h; simp [Insn.target?] at h <;> omega) | simp)
      | ((with_reducible refine sound_append_labelled _ _ ?_ ?_) <;> first | (intro l h; simp [Insn.target?] at h <;> omega) | simp)
      | with_reducible exact sound_patch_mov _ _ _
      | (apply sound_of_neverOk; focus ((repeat (first | exact neverOk_bind_left _ (neverOk_call _ _ _) | (apply neverOk_bind_right; intro _))); done))
      | apply sound_doIf
      | apply sound_bind
      | intro _
      | split
      | dsimp only)

  · repeat (first
      | (apply attaches_append_then; intro _)
      | (apply attaches_xsetx_then; intro _)
      | (apply attaches_bind_right; intro _)
      | exact mono_append _
      | (apply mono_of_sound; first
          | with_reducible exact hv _
          | with_reducible exact sound_pure _
          | with_reducible exact sound_deref _
          | with_reducible exact sound_free _
          | with_reducible exact sound_setx _ _ _
          | with_reducible exact sound_xsetx _ _ _ _ _
          | with_reducible exact sound_patch_mov _ _ _)
      | apply mono_bind
      | intro _)
  · repeat (first
      | (apply attaches_append_then; intro _)
      | (apply attaches_xsetx_then; intro _)
      | (apply attaches_bind_right; intro _)
      | exact mono_append _
      | (apply mono_of_sound; first
          | with_reducible exact hv _
          | with_reducible exact sound_pure _
          | with_reducible exact sound_deref _
          | with_reducible exact sound_free _
          | with_reducible exact sound_setx _ _ _
          | with_reducible exact sound_xsetx _ _ _ _ _
          | with_reducible exact sound_patch_mov _ _ _)
      | apply mono_bind
      | intro _)

theorem sound_logical_xor {k : Nat} (cfg : Cfg) (hg : BenignMov cfg) {visit : Node → CG Int} (dnp : Node) (hv : ∀ n, SoundFrom 0 (visit n)) :
    SoundFrom k (dt_cg_logical_xor cfg visit dnp) := by
  unfold dt_cg_logical_xor
  refine sound_label (fun l1 h1 => sound_label (fun l2 h2 => ?_) (fun l2 => ?_)) (fun l1 => ?_)
  · repeat (first
      | with_reducible exact soundFrom_weaken (hv _)
      | with_reducible exact sound_pure _
      | with_reducible exact sound_raise _
      | with_reducible exact sound_get
      | with_reducible exact sound_raiseIf _ _
      | with_reducible exact sound_cassert _
      | with_reducible exact sound_deref _
      | with_reducible exact sound_orRaise _ _
      | with_reducible exact sound_alloc _
      | with_reducible exact sound_free _
      | with_reducible exact sound_modIdent _ _
      | with_reducible exact sound_getIdent _
      | with_reducible exact sound_getXlator _
      | with_reducible exact sound_mov _ hg _ _
      | with_reducible exact sound_setx _ _ _
      | with_reducible exact sound_xsetx _ _ _ _ _
      | with_reducible exact sound_call _ _ _
      | ((with_reducible refine sound_append_alloc _ ?_ ?_) <;> first | (intro l h; simp [Insn.target?] at h <;> omega) | simp)
      | ((with_reducible refine sound_append_labelled _ _ ?_ ?_) <;> first | (intro l h; simp [Insn.target?] at h <;> omega) | simp)
      | with_reducible exact sound_patch_mov _ _ _
      | (apply sound_of_neverOk; focus ((repeat (first | exact neverOk_bind_left _ (neverOk_call _ _ _) | (apply neverOk_bind_right; intro _))); done))
      | apply sound_doIf
      | apply sound_bind
      | intro _
      | split
      | dsimp only)

  · repeat (first
      | (apply attaches_append_then; intro _)
      | (apply attaches_xsetx_then; intro _)
      | (apply attaches_bind_right; intro _)
      | exact mono_append _
      | (apply mono_of_sound; first
          | with_reducible exact hv _
          | with_reducible exact sound_pure _
          | with_reducible exact sound_deref _
          | with_reducible exact sound_free _
          | with_reducible exact sound_setx _ _ _
          | with_reducible exact sound_xsetx _ _ _ _ _
          | with_reducible exact sound_patch_mov _ _ _)
      | apply mono_bind
      | intro _)
  · repeat (first
      | (apply attaches_append_then; intro _)
      | (apply attaches_xsetx_then; intro _)
      | (apply attaches_bind_right; intro _)
      | exact mono_append _
      | (apply mono_of_sound; first
          | with_reducible exact hv _
          | with_reducible exact sound_pure _
          | with_reducible exact sound_deref _
          | with_reducible exact sound_free _
          | with_reducible exact sound_setx _ _ _
          | with_reducible exact sound_xsetx _ _ _ _ _
          | with_reducible exact sound_patch_mov _ _ _)
      | apply mono_bind
      | intro _)

theorem sound_logical_or {k : Nat} (cfg : Cfg) (hg : BenignMov cfg) {visit : Node → CG Int} (dnp : Node) (hv : ∀ n, SoundFrom 0 (visit n)) :
    SoundFrom k (dt_cg_logical_or cfg visit dnp) := by
  unfold dt_cg_logical_or
  refine sound_label (fun l1 h1 => sound_label (fun l2 h2 =>
    sound_label (fun l3 h3 => ?_) (fun l3 => ?_)) (fun l2 => ?_)) (fun l1 => ?_)
  · repeat (first
      | with_reducible exact soundFrom_weaken (hv _)
      | with_reducible exact sound_pure _
      | with_reducible exact sound_raise _
      | with_reducible exact sound_get
      | with_reducible exact sound_raiseIf _ _
      | with_reducible exact sound_cassert _
      | with_reducible exact sound_deref _
      | with_reducible exact sound_orRaise _ _
      | with_reducible exact sound_alloc _
      | with_reducible exact sound_free _
      | with_reducible exact sound_modIdent _ _
      | with_reducible exact sound_getIdent _
      | with_reducible exact sound_getXlator _
      | with_reducible exact sound_mov _ hg _ _
      | with_reducible exact sound_setx _ _ _
      | with_reducible exact sound_xsetx _ _ _ _ _
      | with_reducible exact sound_call _ _ _
      | ((with_reducible refine sound_append_alloc _ ?_ ?_) <;> first | (intro l h; simp [Insn.target?] at h <;> omega) | simp)
      | ((with_reducible refine sound_append_labelled _ _ ?_ ?_) <;> first | (intro l h; simp [Insn.target?] at h <;> omega) | simp)
      | with_reducible exact sound_patch_mov _ _ _
      | (apply sound_of_neverOk; focus ((repeat (first | exact neverOk_bind_left _ (neverOk_call _ _ _) | (apply neverOk_bind_right; intro _))); done))
      | apply sound_doIf
      | apply sound_bind
      | intro _
      | split
      | dsimp only)

  · repeat (first
      | (apply attaches_append_then; intro _)
      | (apply attaches_xsetx_then; intro _)
      | (apply attaches_bind_right; intro _)
      | exact mono_append _
      | (apply mono_of_sound; first
          | with_reducible exact hv _
          | with_reducible exact sound_pure _
          | with_reducible exact sound_deref _
          | with_reducible exact sound_free _
          | with_reducible exact sound_setx _ _ _
          | with_reducible exact sound_xsetx _ _ _ _ _
          | with_reducible exact sound_patch_mov _ _ _)
      | apply mono_bind
      | intro _)
  · repeat (first
      | (apply attaches_append_then; intro _)
      | (apply attaches_xsetx_then; intro _)
      | (apply attaches_bind_right; intro _)
      | exact mono_append _
      | (apply mono_of_sound; first
          | with_reducible exact hv _
          | with_reducible exact sound_pure _
          | with_reducible exact sound_deref _
          | with_reducible exact sound_free _
          | with_reducible exact sound_setx _ _ _
          | with_reducible exact sound_xsetx _ _ _ _ _
          | with_reducible exact sound_patch_mov _ _ _)
      | apply mono_bind
      | intro _)
  · repeat (first
      | (apply attaches_append_then; intro _)
      | (apply attaches_xsetx_then; intro _)
      | (apply attaches_bind_right; intro _)
      | exact mono_append _
      | (apply mono_of_sound; first
          | with_reducible exact hv _
          | with_reducible exact sound_pure _
          | with_reducible exact sound_deref _
          | with_reducible exact sound_free _
          | with_reducible exact sound_setx _ _ _
          | with_reducible exact sound_xsetx _ _ _ _ _
          | with_reducible exact sound_patch_mov _ _ _)
      | apply mono_bind
      | intro _)

theorem sound_logical_neg {k : Nat} (cfg : Cfg) (hg : BenignMov cfg) {visit : Node → CG Int} (dnp : Node) (hv : ∀ n, SoundFrom 0 (visit n)) :
    SoundFrom k (dt_cg_logical_neg cfg visit dnp) := by
  unfold dt_cg_logical_neg
  refine sound_label (fun l1 h1 => sound_label (fun l2 h2 => ?_) (fun l2 => ?_)) (fun l1 => ?_)
  · repeat (first
      | with_reducible exact soundFrom_weaken (hv _)
      | with_reducible exact sound_pure _
      | with_reducible exact sound_raise _
      | with_reducible exact sound_get
      | with_reducible exact sound_raiseIf _ _
      | with_reducible exact sound_cassert _
      | with_reducible exact sound_deref _
      | with_reducible exact sound_orRaise _ _
      | with_reducible exact sound_alloc _
      | with_reducible exact sound_free _
      | with_reducible exact sound_modIdent _ _
      | with_reducible exact sound_getIdent _
      | with_reducible exact sound_getXlator _
      | with_reducible exact sound_mov _ hg _ _
      | with_reducible exact sound_setx _ _ _
      | with_reducible exact sound_xsetx _ _ _ _ _
      | with_reducible exact sound_call _ _ _
      | ((with_reducible refine sound_append_alloc _ ?_ ?_) <;> first | (intro l h; simp [Insn.target?] at h <;> omega) | simp)
      | ((with_reducible refine sound_append_labelled _ _ ?_ ?_) <;> first | (intro l h; simp [Insn.target?] at h <;> omega) | simp)
      | with_reducible exact sound_patch_mov _ _ _
      | (apply sound_of_neverOk; focus ((repeat (first | exact neverOk_bind_left _ (neverOk_call _ _ _) | (apply neverOk_bind_right; intro _))); done))
      | apply sound_doIf
      | apply sound_bind
      | intro _
      | split
      | dsimp only)

  · repeat (first
      | (apply attaches_append_then; intro _)
      | (apply attaches_xsetx_then; intro _)
      | (apply attaches_bind_right; intro _)
      | exact mono_append _
      | (apply mono_of_sound; first
          | with_reducible exact hv _
          | with_reducible exact sound_pure _
          | with_reducible exact sound_deref _
          | with_reducible exact sound_free _
          | with_reducible exact sound_setx _ _ _
          | with_reducible exact sound_xsetx _ _ _ _ _
          | with_reducible exact sound_patch_mov _ _ _)
      | apply mono_bind
      | intro _)
  · repeat (first
      | (apply attaches_append_then; intro _)
      | (apply attaches_xsetx_then; intro _)
      | (apply attaches_bind_right; intro _)
      | exact mono_append _
      | (apply mono_of_sound; first
          | with_reducible exact hv _
          | with_reducible exact sound_pure _
          | with_reducible exact sound_deref _
          | with_reducible exact sound_free _
          | with_reducible exact sound_setx _ _ _
          | with_reducible exact sound_xsetx _ _ _ _ _
          | with_reducible exact sound_patch_mov _ _ _)
      | apply mono_bind
      | intro _)

theorem sound_asgn_members {k : Nat} (cfg : Cfg) (hg : BenignMov cfg) {visit : Node → CG Int} (r1 : Int)
    (l : List Node) (hv : ∀ n, SoundFrom 0 (visit n)) :
    SoundFrom k (dt_cg_asgn_members cfg visit r1 l) := by
  induction l with
  | nil => exact sound_pure _
  | cons mnp rest ih =>
    unfold dt_cg_asgn_members
    repeat (first
      | with_reducible exact soundFrom_weaken (hv _)
      | with_reducible exact sound_pure _
      | with_reducible exact sound_raise _
      | with_reducible exact sound_get
      | with_reducible exact sound_raiseIf _ _
      | with_reducible exact sound_cassert _
      | with_reducible exact sound_deref _
      | with_reducible exact sound_orRaise _ _
      | with_reducible exact sound_alloc _
      | with_reducible exact sound_free _
      | with_reducible exact sound_modIdent _ _
      | with_reducible exact sound_getIdent _
      | with_reducible exact sound_getXlator _
      | with_reducible exact sound_mov _ hg _ _
      | with_reducible exact sound_setx _ _ _
      | with_reducible exact sound_xsetx _ _ _ _ _
      | with_reducible exact sound_call _ _ _
      | ((with_reducible refine sound_append_alloc _ ?_ ?_) <;> first | (intro l h; simp [Insn.target?] at h <;> omega) | simp)
      | ((with_reducible refine sound_append_labelled _ _ ?_ ?_) <;> first | (intro l h; simp [Insn.target?] at h <;> omega) | simp)
      | with_reducible exact sound_patch_mov _ _ _
      | with_reducible exact ih
      | with_reducible exact sound_typecast _ _ _ _
      | with_reducible exact sound_store _ hg _ _ _ _
      | (apply sound_of_neverOk; focus ((repeat (first | exact neverOk_bind_left _ (neverOk_call _ _ _) | (apply neverOk_bind_right; intro _))); done))
      | apply sound_doIf
      | apply sound_bind
      | intro _
      | split
      | dsimp only)

theorem sound_asgn_op {k : Nat} (cfg : Cfg) (hg : BenignMov cfg) {visit : Node → CG Int} (dnp : Node) (a b : Int) (hv : ∀ n, SoundFrom 0 (visit n)) :
    SoundFrom k (dt_cg_asgn_op cfg visit dnp a b) := by
  unfold dt_cg_asgn_op
  repeat (first
    | with_reducible exact soundFrom_weaken (hv _)
    | with_reducible exact sound_pure _
    | with_reducible exact sound_raise _
    | with_reducible exact sound_get
    | with_reducible exact sound_raiseIf _ _
    | with_reducible exact sound_cassert _
    | with_reducible exact sound_deref _
    | with_reducible exact sound_orRaise _ _
    | with_reducible exact sound_alloc _
    | with_reducible exact sound_free _
    | with_reducible exact sound_modIdent _ _
    | with_reducible exact sound_getIdent _
    | with_reducible exact sound_getXlator _
    | with_reducible exact sound_mov _ hg _ _
    | with_reducible exact sound_setx _ _ _
    | with_reducible exact sound_xsetx _ _ _ _ _
    | with_reducible exact sound_call _ _ _
    | ((with_reducible refine sound_append_alloc _ ?_ ?_) <;> first | (intro l h; simp [Insn.target?] at h <;> omega) | simp)
    | ((with_reducible refine sound_append_labelled _ _ ?_ ?_) <;> first | (intro l h; simp [Insn.target?] at h <;> omega) | simp)
    | with_reducible exact sound_patch_mov _ _ _
    | with_reducible exact sound_asgn_members _ hg _ _ hv
    | with_reducible exact sound_stvar _ hg _
    | with_reducible exact sound_store _ hg _ _ _ _
    | (apply sound_of_neverOk; focus ((repeat (first | exact neverOk_bind_left _ (neverOk_call _ _ _) | (apply neverOk_bind_right; intro _))); done))
    | apply sound_doIf
    | apply sound_bind
    | intro _
    | split
    | dsimp only)

theorem sound_assoc_op {k : Nat} (cfg : Cfg) (hg : BenignMov cfg) (visit : Node → CG Int) (dnp : Node) :
    SoundFrom k (dt_cg_assoc_op cfg visit dnp) := by
  unfold dt_cg_assoc_op
  repeat (first
    | with_reducible exact sound_pure _
    | with_reducible exact sound_raise _
    | with_reducible exact sound_get
    | with_reducible exact sound_raiseIf _ _
    | with_reducible exact sound_cassert _
    | with_reducible exact sound_deref _
    | with_reducible exact sound_orRaise _ _
    | with_reducible exact sound_alloc _
    | with_reducible exact sound_free _
    | with_reducible exact sound_modIdent _ _
    | with_reducible exact sound_getIdent _
    | with_reducible exact sound_getXlator _
    | with_reducible exact sound_mov _ hg _ _
    | with_reducible exact sound_setx _ _ _
    | with_reducible exact sound_xsetx _ _ _ _ _
    | with_reducible exact sound_call _ _ _
    | ((with_reducible refine sound_append_alloc _ ?_ ?_) <;> first | (intro l h; simp [Insn.target?] at h <;> omega) | simp)
    | ((with_reducible refine sound_append_labelled _ _ ?_ ?_) <;> first | (intro l h; simp [Insn.target?] at h <;> omega) | simp)
    | with_reducible exact sound_patch_mov _ _ _
    | (apply sound_of_neverOk; focus ((repeat (first | exact neverOk_bind_left _ (neverOk_call _ _ _) | (apply neverOk_bind_right; intro _))); done))
    | apply sound_doIf
    | apply sound_bind
    | intro _
    | split
    | dsimp only)

theorem sound_array_op {k : Nat} (cfg : Cfg) (hg : BenignMov cfg) {visit : Node → CG Int} (dnp : Node) (hv : ∀ n, SoundFrom 0 (visit n)) :
    SoundFrom k (dt_cg_array_op cfg visit dnp) := by
  unfold dt_cg_array_op
  repeat (first
    | with_reducible exact soundFrom_weaken (hv _)
    | with_reducible exact sound_pure _
    | with_reducible exact sound_raise _
    | with_reducible exact sound_get
    | with_reducible exact sound_raiseIf _ _
    | with_reducible exact sound_cassert _
    | with_reducible exact sound_deref _
    | with_reducible exact sound_orRaise _ _
    | with_reducible exact sound_alloc _
    | with_reducible exact sound_free _
    | with_reducible exact sound_modIdent _ _
    | with_reducible exact sound_getIdent _
    | with_reducible exact sound_getXlator _
    | with_reducible exact sound_mov _ hg _ _
    | with_reducible exact sound_setx _ _ _
    | with_reducible exact sound_xsetx _ _ _ _ _
    | with_reducible exact sound_call _ _ _
    | ((with_reducible refine sound_append_alloc _ ?_ ?_) <;> first | (intro l h; simp [Insn.target?] at h <;> omega) | simp)
    | ((with_reducible refine sound_append_labelled _ _ ?_ ?_) <;> first | (intro l h; simp [Insn.target?] at h <;> omega) | simp)
    | with_reducible exact sound_patch_mov _ _ _
    | (apply sound_of_neverOk; focus ((repeat (first | exact neverOk_bind_left _ (neverOk_call _ _ _) | (apply neverOk_bind_right; intro _))); done))
    | apply sound_doIf
    | apply sound_bind
    | intro _
    | split
    | dsimp only)

theorem sound_inline_bind {k : Nat} (argv : List (Option Nat)) (l : List Node) (i : Nat) :
    SoundFrom k (dt_cg_inline_bind argv l i) := by
  induction l generalizing i with
  | nil => exact sound_pure _
  | cons pnp rest ih =>
    unfold dt_cg_inline_bind
    refine sound_bind (sound_deref _) fun a => sound_bind ?_ fun _ => ih _
    cases a with
    | none => exact sound_pure _
    | some ix => exact sound_modIdent _ _

theorem sound_inline_unbind {k : Nat} (argv : List (Option Nat)) (l : List Nat) :
    SoundFrom k (dt_cg_inline_unbind argv l) := by
  induction l with
  | nil => exact sound_pure _
  | cons i rest ih =>
    unfold dt_cg_inline_unbind
    exact sound_bind (sound_deref _) fun a => sound_bind (sound_deref _) fun _ =>
      sound_bind (sound_modIdent _ _) fun _ => ih

theorem sound_inline {k : Nat} {visit : Node → CG Int} (dnp : Node) (hv : ∀ n, SoundFrom 0 (visit n)) :
    SoundFrom k (dt_cg_inline visit dnp) := by
  unfold dt_cg_inline
  repeat (first
    | with_reducible exact soundFrom_weaken (hv _)
    | with_reducible exact sound_pure _
    | with_reducible exact sound_raise _
    | with_reducible exact sound_get
    | with_reducible exact sound_raiseIf _ _
    | with_reducible exact sound_cassert _
    | with_reducible exact sound_deref _
    | with_reducible exact sound_orRaise _ _
    | with_reducible exact sound_alloc _
    | with_reducible exact sound_free _
    | with_reducible exact sound_modIdent _ _
    | with_reducible exact sound_getIdent _
    | with_reducible exact sound_getXlator _
    | with_reducible exact sound_mov _ hg _ _
    | with_reducible exact sound_setx _ _ _
    | with_reducible exact sound_xsetx _ _ _ _ _
    | with_reducible exact sound_call _ _ _
    | ((with_reducible refine sound_append_alloc _ ?_ ?_) <;> first | (intro l h; simp [Insn.target?] at h <;> omega) | simp)
    | ((with_reducible refine sound_append_labelled _ _ ?_ ?_) <;> first | (intro l h; simp [Insn.target?] at h <;> omega) | simp)
    | with_reducible exact sound_patch_mov _ _ _
    | with_reducible exact sound_inline_bind _ _ _
    | with_reducible exact sound_inline_unbind _ _
    | with_reducible exact sound_typecast _ _ _ _
    | (apply sound_of_neverOk; focus ((repeat (first | exact neverOk_bind_left _ (neverOk_call _ _ _) | (apply neverOk_bind_right; intro _))); done))
    | apply sound_doIf
    | apply sound_bind
    | intro _
    | split
    | dsimp only)

theorem sound_op_asgn {k : Nat} (cfg : Cfg) (hg : BenignMov cfg) {visit : Node → CG Int} (dnp : Node) (op : AluOp) (hv : ∀ n, SoundFrom 0 (visit n)) :
    SoundFrom k (dt_cg_op_asgn cfg visit dnp op) := by
  unfold dt_cg_op_asgn
  repeat (first
    | with_reducible exact soundFrom_weaken (hv _)
    | with_reducible exact sound_pure _
    | with_reducible exact sound_raise _
    | with_reducible exact sound_get
    | with_reducible exact sound_raiseIf _ _
    | with_reducible exact sound_cassert _
    | with_reducible exact sound_deref _
    | with_reducible exact sound_orRaise _ _
    | with_reducible exact sound_alloc _
    | with_reducible exact sound_free _
    | with_reducible exact sound_modIdent _ _
    | with_reducible exact sound_getIdent _
    | with_reducible exact sound_getXlator _
    | with_reducible exact sound_mov _ hg _ _
    | with_reducible exact sound_setx _ _ _
    | with_reducible exact sound_xsetx _ _ _ _ _
    | with_reducible exact sound_call _ _ _
    | ((with_reducible refine sound_append_alloc _ ?_ ?_) <;> first | (intro l h; simp [Insn.target?] at h <;> omega) | simp)
    | ((with_reducible refine sound_append_labelled _ _ ?_ ?_) <;> first | (intro l h; simp [Insn.target?] at h <;> omega) | simp)
    | with_reducible exact sound_patch_mov _ _ _
    | with_reducible exact sound_arithmetic_op _ hg _ _ hv
    | with_reducible exact sound_asgn_op _ hg _ _ _ hv
    | (apply sound_of_neverOk; focus ((repeat (first | exact neverOk_bind_left _ (neverOk_call _ _ _) | (apply neverOk_bind_right; intro _))); done))
    | apply sound_doIf
    | apply sound_bind
    | intro _
    | split
    | dsimp only)

theorem sound_op_arith {k : Nat} (cfg : Cfg) (hg : BenignMov cfg) {visit : Node → CG Int} (dnp : Node) (op : AluOp) (hv : ∀ n, SoundFrom 0 (visit n)) :
    SoundFrom k (dt_cg_op_arith cfg visit dnp op) := by
  unfold dt_cg_op_arith
  repeat (first
    | with_reducible exact soundFrom_weaken (hv _)
    | with_reducible exact sound_pure _
    | with_reducible exact sound_raise _
    | with_reducible exact sound_get
    | with_reducible exact sound_raiseIf _ _
    | with_reducible exact sound_cassert _
    | with_reducible exact sound_deref _
    | with_reducible exact sound_orRaise _ _
    | with_reducible exact sound_alloc _
    | with_reducible exact sound_free _
    | with_reducible exact sound_modIdent _ _
    | with_reducible exact sound_getIdent _
    | with_reducible exact sound_getXlator _
    | with_reducible exact sound_mov _ hg _ _
    | with_reducible exact sound_setx _ _ _
    | with_reducible exact sound_xsetx _ _ _ _ _
    | with_reducible exact sound_call _ _ _
    | ((with_reducible refine sound_append_alloc _ ?_ ?_) <;> first | (intro l h; simp [Insn.target?] at h <;> omega) | simp)
    | ((with_reducible refine sound_append_labelled _ _ ?_ ?_) <;> first | (intro l h; simp [Insn.target?] at h <;> omega) | simp)
    | with_reducible exact sound_patch_mov _ _ _
    | with_reducible exact sound_arithmetic_op _ hg _ _ hv
    | (apply sound_of_neverOk; focus ((repeat (first | exact neverOk_bind_left _ (neverOk_call _ _ _) | (apply neverOk_bind_right; intro _))); done))
    | apply sound_doIf
    | apply sound_bind
    | intro _
    | split
    | dsimp only)

theorem sound_op_compare {k : Nat} (cfg : Cfg) (hg : BenignMov cfg) {visit : Node → CG Int} (dnp : Node) (a b : JmpOp) (hv : ∀ n, SoundFrom 0 (visit n)) :
    SoundFrom k (dt_cg_op_compare cfg visit dnp a b) := by
  unfold dt_cg_op_compare
  repeat (first
    | with_reducible exact soundFrom_weaken (hv _)
    | with_reducible exact sound_pure _
    | with_reducible exact sound_raise _
    | with_reducible exact sound_get
    | with_reducible exact sound_raiseIf _ _
    | with_reducible exact sound_cassert _
    | with_reducible exact sound_deref _
    | with_reducible exact sound_orRaise _ _
    | with_reducible exact sound_alloc _
    | with_reducible exact sound_free _
    | with_reducible exact sound_modIdent _ _
    | with_reducible exact sound_getIdent _
    | with_reducible exact sound_getXlator _
    | with_reducible exact sound_mov _ hg _ _
    | with_reducible exact sound_setx _ _ _
    | with_reducible exact sound_xsetx _ _ _ _ _
    | with_reducible exact sound_call _ _ _
    | ((with_reducible refine sound_append_alloc _ ?_ ?_) <;> first | (intro l h; simp [Insn.target?] at h <;> omega) | simp)
    | ((with_reducible refine sound_append_labelled _ _ ?_ ?_) <;> first | (intro l h; simp [Insn.target?] at h <;> omega) | simp)
    | with_reducible exact sound_patch_mov _ _ _
    | with_reducible exact sound_compare_signed _
    | with_reducible exact sound_compare_op _ hg _ _ hv
    | (apply sound_of_neverOk; focus ((repeat (first | exact neverOk_bind_left _ (neverOk_call _ _ _) | (apply neverOk_bind_right; intro _))); done))
    | apply sound_doIf
    | apply sound_bind
    | intro _
    | split
    | dsimp only)

theorem sound_member {k : Nat} (cfg : Cfg) (hg : BenignMov cfg) {visit : Node → CG Int} (dnp : Node) (hv : ∀ n, SoundFrom 0 (visit n)) :
    SoundFrom k (dt_cg_member cfg visit dnp) := by
  unfold dt_cg_member
  repeat (first
    | with_reducible exact soundFrom_weaken (hv _)
    | with_reducible exact sound_pure _
    | with_reducible exact sound_raise _
    | with_reducible exact sound_get
    | with_reducible exact sound_raiseIf _ _
    | with_reducible exact sound_cassert _
    | with_reducible exact sound_deref _
    | with_reducible exact sound_orRaise _ _
    | with_reducible exact sound_alloc _
    | with_reducible exact sound_free _
    | with_reducible exact sound_modIdent _ _
    | with_reducible exact sound_getIdent _
    | with_reducible exact sound_getXlator _
    | with_reducible exact sound_mov _ hg _ _
    | with_reducible exact sound_setx _ _ _
    | with_reducible exact sound_xsetx _ _ _ _ _
    | with_reducible exact sound_call _ _ _
    | ((with_reducible refine sound_append_alloc _ ?_ ?_) <;> first | (intro l h; simp [Insn.target?] at h <;> omega) | simp)
    | ((with_reducible refine sound_append_labelled _ _ ?_ ?_) <;> first | (intro l h; simp [Insn.target?] at h <;> omega) | simp)
    | with_reducible exact sound_patch_mov _ _ _
    | with_reducible exact sound_typecast _ _ _ _
    | with_reducible exact sound_load _ _
    | with_reducible exact sound_field_get _ hg _ _ _
    | (apply sound_of_neverOk; focus ((repeat (first | exact neverOk_bind_left _ (neverOk_call _ _ _) | (apply neverOk_bind_right; intro _))); done))
    | apply sound_doIf
    | apply sound_bind
    | intro _
    | split
    | dsimp only)

theorem sound_ident {k : Nat} (cfg : Cfg) (hg : BenignMov cfg) {visit : Node → CG Int} (dnp : Node) (hv : ∀ n, SoundFrom 0 (visit n)) :
    SoundFrom k (dt_cg_ident cfg visit dnp) := by
  unfold dt_cg_ident
  repeat (first
    | with_reducible exact soundFrom_weaken (hv _)
    | with_reducible exact sound_pure _
    | with_reducible exact sound_raise _
    | with_reducible exact sound_get
    | with_reducible exact sound_raiseIf _ _
    | with_reducible exact sound_cassert _
    | with_reducible exact sound_deref _
    | with_reducible exact sound_orRaise _ _
    | with_reducible exact sound_alloc _
    | with_reducible exact sound_free _
    | with_reducible exact sound_modIdent _ _
    | with_reducible exact sound_getIdent _
    | with_reducible exact sound_getXlator _
    | with_reducible exact sound_mov _ hg _ _
    | with_reducible exact sound_setx _ _ _
    | with_reducible exact sound_xsetx _ _ _ _ _
    | with_reducible exact sound_call _ _ _
    | ((with_reducible refine sound_append_alloc _ ?_ ?_) <;> first | (intro l h; simp [Insn.target?] at h <;> omega) | simp)
    | ((with_reducible refine sound_append_labelled _ _ ?_ ?_) <;> first | (intro l h; simp [Insn.target?] at h <;> omega) | simp)
    | with_reducible exact sound_patch_mov _ _ _
    | with_reducible exact sound_inline _ hv
    | with_reducible exact sound_array_op _ hg _ hv
    | with_reducible exact sound_assoc_op _ hg _ _
    | with_reducible exact sound_load _ _
    | (apply sound_of_neverOk; focus ((repeat (first | exact neverOk_bind_left _ (neverOk_call _ _ _) | (apply neverOk_bind_right; intro _))); done))
    | apply sound_doIf
    | apply sound_bind
    | intro _
    | split
    | dsimp only)

theorem sound_child {k : Nat} {visit : Node → CG Int} (dnp : Node) (hv : ∀ n, SoundFrom 0 (visit n)) :
    SoundFrom k (dt_cg_child visit dnp) := by
  unfold dt_cg_child
  repeat (first
    | with_reducible exact soundFrom_weaken (hv _)
    | with_reducible exact sound_pure _
    | with_reducible exact sound_raise _
    | with_reducible exact sound_get
    | with_reducible exact sound_raiseIf _ _
    | with_reducible exact sound_cassert _
    | with_reducible exact sound_deref _
    | with_reducible exact sound_orRaise _ _
    | with_reducible exact sound_alloc _
    | with_reducible exact sound_free _
    | with_reducible exact sound_modIdent _ _
    | with_reducible exact sound_getIdent _
    | with_reducible exact sound_getXlator _
    | with_reducible exact sound_mov _ hg _ _
    | with_reducible exact sound_setx _ _ _
    | with_reducible exact sound_xsetx _ _ _ _ _
    | with_reducible exact sound_call _ _ _
    | ((with_reducible refine sound_append_alloc _ ?_ ?_) <;> first | (intro l h; simp [Insn.target?] at h <;> omega) | simp)
    | ((with_reducible refine sound_append_labelled _ _ ?_ ?_) <;> first | (intro l h; simp [Insn.target?] at h <;> omega) | simp)
    | with_reducible exact sound_patch_mov _ _ _
    | (apply sound_of_neverOk; focus ((repeat (first | exact neverOk_bind_left _ (neverOk_call _ _ _) | (apply neverOk_bind_right; intro _))); done))
    | apply sound_doIf
    | apply sound_bind
    | intro _
    | split
    | dsimp only)

theorem sound_node_body {k : Nat} (cfg : Cfg) (hg : BenignMov cfg) {visit : Node → CG Int} (dnp : Node) (hv : ∀ n, SoundFrom 0 (visit n)) :
    SoundFrom k (dt_cg_node_body cfg visit dnp) := by
  unfold dt_cg_node_body
  dsimp only
  generalize dnp.info.dn_op = t
  cases t <;> dsimp only <;> repeat (first
    | with_reducible exact soundFrom_weaken (hv _)
    | with_reducible exact sound_pure _
    | with_reducible exact sound_raise _
    | with_reducible exact sound_get
    | with_reducible exact sound_raiseIf _ _
    | with_reducible exact sound_cassert _
    | with_reducible exact sound_deref _
    | with_reducible exact sound_orRaise _ _
    | with_reducible exact sound_alloc _
    | with_reducible exact sound_free _
    | with_reducible exact sound_modIdent _ _
    | with_reducible exact sound_getIdent _
    | with_reducible exact sound_getXlator _
    | with_reducible exact sound_mov _ hg _ _
    | with_reducible exact sound_setx _ _ _
    | with_reducible exact sound_xsetx _ _ _ _ _
    | with_reducible exact sound_call _ _ _
    | ((with_reducible refine sound_append_alloc _ ?_ ?_) <;> first | (intro l h; simp [Insn.target?] at h <;> omega) | simp)
    | ((with_reducible refine sound_append_labelled _ _ ?_ ?_) <;> first | (intro l h; simp [Insn.target?] at h <;> omega) | simp)
    | with_reducible exact sound_patch_mov _ _ _
    | with_reducible exact sound_op_asgn _ hg _ _ hv
    | with_reducible exact sound_op_arith _ hg _ _ hv
    | with_reducible exact sound_op_compare _ hg _ _ _ hv
    | with_reducible exact sound_compare_op _ hg _ _ hv
    | with_reducible exact sound_ternary_op _ hv
    | with_reducible exact sound_logical_and _ hg _ hv
    | with_reducible exact sound_logical_or _ hg _ hv
    | with_reducible exact sound_logical_xor _ hg _ hv
    | with_reducible exact sound_logical_neg _ hg _ hv
    | with_reducible exact sound_prearith_op _ hg _ _ hv
    | with_reducible exact sound_postarith_op _ hg _ _ hv
    | with_reducible exact sound_child _ hv
    | with_reducible exact sound_asgn_op _ hg _ _ _ hv
    | with_reducible exact sound_member _ hg _ hv
    | with_reducible exact sound_ident _ hg _ hv
    | with_reducible exact sound_typecast _ _ _ _
    | with_reducible exact sound_load _ _
    | with_reducible exact sound_strtab_insert _
    | (apply sound_of_neverOk; focus ((repeat (first | exact neverOk_bind_left _ (neverOk_call _ _ _) | (apply neverOk_bind_right; intro _))); done))
    | apply sound_doIf
    | apply sound_bind
    | intro _
    | split
    | dsimp only)

/-- The visitor keeps the frame, whatever the fuel. -/
theorem sound_node (cfg : Cfg) (hg : BenignMov cfg) (fuel : Nat) : ∀ dnp, SoundFrom 0 (dt_cg_node cfg fuel dnp) := by
  induction fuel with
  | zero => intro dnp; exact sound_raise _
  | succ n ih => intro dnp; exact sound_node_body cfg hg dnp ih

/-! ## The driver -/

theorem keepsIr_bind {α β : Type} {m : CG α} {f : α → CG β}
    (hm : KeepsIr m) (hf : ∀ a, KeepsIr (f a)) : KeepsIr (m >>= f) := by
  intro s b s1 h
  obtain ⟨a, s2, h1, h2⟩ := bind_ok_inv h
  rw [hf a s2 b s1 h2, hm s a s2 h1]

theorem keepsIr_pure {α : Type} (a : α) : KeepsIr (pure a : CG α) := by
  intro s b s1 h; cases h; rfl

theorem keepsIr_raise {α : Type} (e : Err) : KeepsIr (CG.raise e : CG α) := by
  intro s b s1 h; cases h

theorem keepsIr_deref {α : Type} (o : Option α) : KeepsIr (deref o) := by
  cases o with
  | none => exact keepsIr_raise _
  | some a => exact keepsIr_pure a

theorem keepsIr_getIdent (i : Nat) : KeepsIr (getIdent i) :=
  keepsIr_bind (fun s a s1 h => by cases h; rfl) fun _ => keepsIr_deref _

theorem keepsIr_free (r : Int) : KeepsIr (dt_regset_free r) := by
  intro s a s1 h
  cases h
  show (if 0 ≤ r then _ else _ : Pcb).pcb_ir = _
  split <;> rfl

theorem keepsIr_modIdent (i : Nat) (f : Ident → Ident) : KeepsIr (modIdent i f) := by
  intro s a s1 h; cases h; rfl

/-- The prelude of the driver for a translator body keeps the frame. -/
theorem sound_dt_cg_root (cfg : Cfg) (dnp : Node) :
    SoundFrom 0 (if dnp.info.dn_kind = Kind.MEMBER then do
      let dxp ← getXlator dnp.info.dn_xlator
      let expr ← deref dnp.dn_membexpr
      modIdent dxp.dx_ident fun i => { i with CGREG := true }
      let r ← dt_regset_alloc cfg
      modIdent dxp.dx_ident fun i => { i with di_id := r }
      pure (expr, some dxp)
    else pure (dnp, none)) := by
  split
  · exact sound_bind (sound_getXlator _) fun _ => sound_bind (sound_deref _) fun _ =>
      sound_bind (sound_modIdent _ _) fun _ => sound_bind (sound_alloc _) fun _ =>
      sound_bind (sound_modIdent _ _) fun _ => sound_pure _
  · exact sound_pure _

/-- The shape of a completed run of the driver: the list it leaves is the list
`sE.pcb_ir` that the visitor built from the empty list, followed by the exit. -/
theorem dt_cg_ok_shape (cfg : Cfg) (hg : BenignMov cfg) (fuel : Nat) (dnp : Node) (s s1 : Pcb)
    (h : dt_cg cfg fuel dnp s = Res.ok () s1) :
    ∃ sA sE : Pcb, sA.pcb_ir = [] ∧ sA.dl_label = 0 ∧ Frame sA sE ∧
      s1.pcb_ir = sE.pcb_ir ++ [dt_cg_node_alloc Insn.EXIT] := by
  unfold dt_cg at h
  obtain ⟨_, sA, h1, h⟩ := bind_ok_inv h
  obtain ⟨_, sA1, h1a, h⟩ := bind_ok_inv h
  cases h1a
  obtain ⟨_, sA2, h1b, h⟩ := bind_ok_inv h
  have eA2 : sA = sA2 := by
    unfold cassert at h1b; split at h1b <;> cases h1b; rfl
  subst eA2
  obtain ⟨_, sA3, h1c, h⟩ := bind_ok_inv h
  obtain ⟨_, sB, h2, h⟩ := bind_ok_inv h
  obtain ⟨root, sC, h3, h⟩ := bind_ok_inv h
  obtain ⟨r, sD, h4, h⟩ := bind_ok_inv h
  obtain ⟨_, sE, h5, h⟩ := bind_ok_inv h
  obtain ⟨_, sF, h6, h7⟩ := bind_ok_inv h
  have hA : sA.pcb_ir = [] ∧ sA.dl_label = 0 := by cases h1; exact ⟨rfl, rfl⟩
  have z : ∀ x : Pcb, 0 ≤ x.dl_label := fun _ => Nat.zero_le _
  have hA3 : Frame sA sA3 := by cases h1c; exact frame_of_same rfl rfl rfl
  have hB := (sound_raiseIf (k := 0) _ _).frame _ _ _ (z _) h2
  have hC := (sound_dt_cg_root cfg dnp).frame _ _ _ (z _) h3
  have hD := (sound_node cfg hg fuel _).frame _ _ _ (z _) h4
  have hE := (sound_free (k := 0) _).frame _ _ _ (z _) h5
  have hF : sF.pcb_ir = sE.pcb_ir ++ [dt_cg_node_alloc Insn.EXIT] := by cases h6; rfl
  have h1ir : s1.pcb_ir = sF.pcb_ir := by
    revert h7
    unfold doIf
    split
    · exact (keepsIr_bind (keepsIr_deref _) fun _ => keepsIr_bind (keepsIr_getIdent _) fun _ =>
        keepsIr_bind (keepsIr_free _) fun _ => keepsIr_modIdent _ _) _ _ _
    · exact keepsIr_pure _ _ _ _
  exact ⟨sA, sE, hA.1, hA.2, frame_trans hA3 (frame_trans hB (frame_trans hC (frame_trans hD hE))),
    by rw [h1ir, hF]⟩

/-- When the word of `dt_cg_mov` is never an exit, a completed run of the driver
leaves a list that ends with the exit and holds no other exit. -/
theorem dt_cg_exit_last (cfg : Cfg) (hg : BenignMov cfg) (fuel : Nat) (dnp : Node) (s s1 : Pcb)
    (h : dt_cg cfg fuel dnp s = Res.ok () s1) :
    ∃ pre : List Insn, (s1.pcb_ir.map fun n => n.di_instr) = pre ++ [Insn.EXIT] ∧
      Insn.EXIT ∉ pre := by
  obtain ⟨sA, sE, hA, _, hF, hir⟩ := dt_cg_ok_shape cfg hg fuel dnp s s1 h
  have hne : NoExit sE := hF.noexit (by intro n hn; rw [hA] at hn; cases hn)
  refine ⟨sE.pcb_ir.map fun n => n.di_instr, ?_, ?_⟩
  · rw [hir, List.map_append]; rfl
  · intro hm
    rw [List.mem_map] at hm
    obtain ⟨n, hn, hx⟩ := hm
    exact hne n hn hx

/-- When the word of `dt_cg_mov` is never a jump, every branch of the list a
completed run of the driver leaves names a label attached in that list. -/
theorem dt_cg_targets_attached (cfg : Cfg) (hg : BenignMov cfg) (fuel : Nat) (dnp : Node)
    (s s1 : Pcb) (h : dt_cg cfg fuel dnp s = Res.ok () s1) :
    ∀ n ∈ s1.pcb_ir, ∀ l : Nat, n.di_instr.target? = some l →
      ∃ n1 ∈ s1.pcb_ir, n1.di_label = some l := by
  obtain ⟨sA, sE, hA, hA0, hF, hir⟩ := dt_cg_ok_shape cfg hg fuel dnp s s1 h
  have hmint : Minted sE := hF.minted (by intro n hn; rw [hA] at hn; cases hn)
  intro n hn l hl
  rw [hir, List.mem_append, List.mem_singleton] at hn
  rcases hn with hn | hn
  · have hlt : l < sE.dl_label := hmint n hn l hl
    obtain ⟨n1, h1, h2⟩ := hF.fresh l (by rw [hA0]; exact Nat.zero_le _) hlt
    exact ⟨n1, by rw [hir]; exact List.mem_append_left _ h1, h2⟩
  · rw [hn] at hl; cases hl

/-- The all-zero word of the concrete target is neither an exit nor a jump. -/
theorem benignMov_target0 : BenignMov target0 :=
  fun _ => ⟨by show Insn.RAW 0 0 0 0 0 ≠ Insn.EXIT; decide, rfl⟩

/-! ## The claims -/

/-- C1 (the code at the failing input, and the extent of the defect): for the root
`-7` the driver completes, and the second instruction of the list it leaves is the
word that `dt_cg_mov` appended from its unassigned variable, whatever that word `g`
is. When that word is the program exit, an exit stands before the last instruction
of the list. The defect is confined to that word: on a target where it is never an
exit nor a jump (the concrete target is one), every completed run of the driver
leaves a list that ends with the exit and holds no exit before it. -/
theorem C1_unassigned_mov_word_can_be_exit :
    (∀ g : Insn, (dt_cg (target_mov g) 3 neg_lit7 {}).error? = none ∧
      (dt_cg (target_mov g) 3 neg_lit7 {}).instrs =
        [Insn.MOV32_IMM 8 7, g, Insn.MOV32_IMM 8 0, Insn.ALU64_REG AluOp.SUB 8 9,
         Insn.EXIT]) ∧
    (dt_cg (target_mov Insn.EXIT) 3 neg_lit7 {}).instrs =
      [Insn.MOV32_IMM 8 7, Insn.EXIT, Insn.MOV32_IMM 8 0, Insn.ALU64_REG AluOp.SUB 8 9,
       Insn.EXIT] ∧
    BenignMov target0 ∧
    (∀ (cfg : Cfg) (fuel : Nat) (dnp : Node) (s s1 : Pcb), BenignMov cfg →
      dt_cg cfg fuel dnp s = Res.ok () s1 →
      ∃ pre : List Insn, (s1.pcb_ir.map fun n => n.di_instr) = pre ++ [Insn.EXIT] ∧
        Insn.EXIT ∉ pre) :=
  ⟨fun _ => ⟨rfl, rfl⟩, rfl, benignMov_target0,
    fun cfg fuel dnp s s1 hg h => dt_cg_exit_last cfg hg fuel dnp s s1 h⟩

/-- C2 (the code at the failing input): for the root `(char *)7 + 7` the driver
completes, and register 7, the scratch register that `dt_cg_ptrsize` allocated for
the element size 1, is still allocated when it returns. -/
theorem C2_ptrsize_leaks_scratch_register :
    (dt_cg target0 3 ptr_plus_lit {}).error? = none ∧
    (dt_cg target0 3 ptr_plus_lit {}).instrs =
      [Insn.MOV32_IMM 9 7, Insn.MOV32_IMM 8 7, Insn.ALU64_REG AluOp.ADD 9 8, Insn.EXIT] ∧
    (dt_cg target0 3 ptr_plus_lit {}).state.pcb_regs =
      [false, false, false, false, false, false, false, true, false, false] := by
  refine ⟨by decide, by decide, by decide⟩

/-- C4 (the code at the failing input, and the extent of the defect): for the root
`-7` the driver completes and no instruction of the list it leaves carries a label,
while the second instruction is the word that `dt_cg_mov` appended from its
unassigned variable, whatever that word `g` is. When that word is a jump to the
label 5, the list holds a branch whose label is attached nowhere. The defect is
confined to that word: on a target where it is never an exit nor a jump (the
concrete target is one), every branch of the list a completed run of the driver
leaves names a label attached to an instruction of that list. -/
theorem C4_unassigned_mov_word_can_be_jump :
    (∀ g : Insn, (dt_cg (target_mov g) 3 neg_lit7 {}).error? = none ∧
      (dt_cg (target_mov g) 3 neg_lit7 {}).state.pcb_ir.map
          (fun n => (n.di_label, n.di_instr)) =
        [ (none, Insn.MOV32_IMM 8 7), (none, g), (none, Insn.MOV32_IMM 8 0),
          (none, Insn.ALU64_REG AluOp.SUB 8 9), (none, Insn.EXIT) ]) ∧
    (dt_cg (target_mov (Insn.JMP_IMM JmpOp.JA 0 0 5)) 3 neg_lit7 {}).state.pcb_ir.map
        (fun n => (n.di_label, n.di_instr)) =
      [ (none, Insn.MOV32_IMM 8 7), (none, Insn.JMP_IMM JmpOp.JA 0 0 5),
        (none, Insn.MOV32_IMM 8 0), (none, Insn.ALU64_REG AluOp.SUB 8 9),
        (none, Insn.EXIT) ] ∧
    (Insn.JMP_IMM JmpOp.JA 0 0 5).target? = some 5 ∧
    BenignMov target0 ∧
    (∀ (cfg : Cfg) (fuel : Nat) (dnp : Node) (s s1 : Pcb), BenignMov cfg →
      dt_cg cfg fuel dnp s = Res.ok () s1 →
      ∀ n ∈ s1.pcb_ir, ∀ l : Nat, n.di_instr.target? = some l →
        ∃ n1 ∈ s1.pcb_ir, n1.di_label = some l) :=
  ⟨fun _ => ⟨rfl, rfl⟩, rfl, rfl, benignMov_target0,
    fun cfg fuel dnp s s1 hg h => dt_cg_targets_attached cfg hg fuel dnp s s1 h⟩

/-- C5: `dt_cg_call` raises `EDT_RESERVEDREG` whenever R0 is allocated at the call,
and then the context is exactly the context of the call (no instruction appended,
stack depth unchanged); when R0 is free it does not raise `EDT_RESERVEDREG`. -/
theorem C5_dt_cg_call_reserved_reg (cfg : Cfg) (helper : Nat) (ap : List Int) (s : Pcb) :
    (BT_TEST s.pcb_regs 0 = true →
      dt_cg_call cfg helper ap s = Res.err Err.EDT_RESERVEDREG s) ∧
    (BT_TEST s.pcb_regs 0 = false →
      ∀ s1, dt_cg_call cfg helper ap s ≠ Res.err Err.EDT_RESERVEDREG s1) := by
  constructor
  · intro h
    simp [dt_cg_call, bind, CG.andThen, CG.get, h, CG.raise, raiseIf]
  · intro h s1
    have hrest : ∀ (m : Unit → CG Int), (∀ u, NoRaise Err.EDT_RESERVEDREG (m u)) →
        (CG.get >>= fun s0 => raiseIf (BT_TEST s0.pcb_regs 0) Err.EDT_RESERVEDREG >>= m) s
          ≠ Res.err Err.EDT_RESERVEDREG s1 := by
      intro m hm
      simp only [bind_apply, CG.get, raiseIf, h, Bool.false_eq_true, if_false, pure_apply]
      exact hm _ s s1
    unfold dt_cg_call
    apply hrest
    intro _
    refine noRaise_bind (noRaise_ite (noRaise_raise (by decide)) (noRaise_pure _)) fun _ => ?_
    refine noRaise_bind (noRaise_deref (by decide) _) fun argstr => ?_
    refine noRaise_bind (noRaise_call_scan (by decide) _ _) fun p => ?_
    refine noRaise_bind (noRaise_ite ?_ (noRaise_pure _)) fun _ => ?_
    · exact noRaise_bind (noRaise_mov _ _ _) fun _ => noRaise_bind noRaise_get fun _ =>
        noRaise_append _
    refine noRaise_bind noRaise_get fun _ => ?_
    refine noRaise_bind (noRaise_forEach (fun r => noRaise_spill _ r) _) fun _ => ?_
    refine noRaise_bind (noRaise_call_args (by decide) (by decide) (by decide) _ _ _ _) fun _ => ?_
    refine noRaise_bind (noRaise_append _) fun _ => noRaise_bind noRaise_get fun _ => ?_
    exact noRaise_bind (noRaise_forEach (fun r => noRaise_unspill _ r) _) fun _ => noRaise_pure _

/-- Witness of C5: a call of `dtrace_get_global` with R0 allocated, and one with R0
free. -/
theorem C5_dt_cg_call_reserved_reg_witness :
    (BT_TEST pcbR0.pcb_regs 0 = true ∧
      dt_cg_call target0 108 [3] pcbR0 = Res.err Err.EDT_RESERVEDREG pcbR0) ∧
    (BT_TEST pcb24.pcb_regs 0 = false ∧
      ∀ s1, dt_cg_call target0 108 [3] pcb24 ≠ Res.err Err.EDT_RESERVEDREG s1) :=
  ⟨⟨by decide, (C5_dt_cg_call_reserved_reg target0 108 [3] pcbR0).1 (by decide)⟩,
   ⟨by decide, (C5_dt_cg_call_reserved_reg target0 108 [3] pcb24).2 (by decide)⟩⟩

/-- C6 (the code at the failing input): the helper id `FIRST_BPF_HELPER + 18`, one
past the 18 entries of the prototype table, passes the range test of `dt_cg_call`
(which compares with `sizeof(bpf_protos)`, 144 on this target); no
`EDT_INVALIDBPFHELPER` is raised, and the prototype is read at index 18, outside the
table. -/
theorem C6_helper_past_table_not_rejected :
    bpf_protos.length = 18 ∧
    sizeof_bpf_protos target0 = 144 ∧
    bpf_protos.get? (target0.FIRST_BPF_HELPER + 18 - target0.FIRST_BPF_HELPER) = none ∧
    (dt_cg_call target0 (target0.FIRST_BPF_HELPER + 18) [3] pcb24).error?
      = some Err.UNDEFINED ∧
    (dt_cg_call target0 (target0.FIRST_BPF_HELPER + 18) [3] pcb24).error?
      ≠ some Err.EDT_INVALIDBPFHELPER := by
  refine ⟨by decide, by decide, by decide, by decide, by decide⟩

/-- C7 (the code on every input, and at two failing inputs): `dt_cg_call` never
returns: no helper, argument list and context make it return R0, because the loops
over the prototype do not stop at the end of the string. For `dtrace_subr` (prototype
`idi`) the first loop stops at the `d` with the register counter at 2, so the three
arguments go to R2, R3, R4 and not to R1, R2, R3; what the list receives is the word
`g` of `dt_cg_mov` (whatever it is), the subtraction, the immediate 5 for R2, the
word `g` again in place of the move to R3, and the immediate 1 for R4; then the run
ends in `EDT_INVALIDBPFHELPER` without a `CALL`. For `dtrace_get_global` (prototype
`i`) the first loop leaves the string and nothing is emitted. -/
theorem C7_dt_cg_call_never_returns :
    (∀ (cfg : Cfg) (helper : Nat) (ap : List Int) (s : Pcb) (r : Int) (s1 : Pcb),
      dt_cg_call cfg helper ap s ≠ Res.ok r s1) ∧
    (∀ g : Insn,
      (dt_cg_call (target_mov g) (BPF_FUNC_dtrace_subr target0) [5, 0, 1] pcbFree).instrs =
        [ g, Insn.ALU64_REG AluOp.SUB 0 0, Insn.MOV32_IMM 2 5, g, Insn.MOV32_IMM 4 1 ] ∧
      (dt_cg_call (target_mov g) (BPF_FUNC_dtrace_subr target0) [5, 0, 1] pcbFree).error? =
        some Err.EDT_INVALIDBPFHELPER) ∧
    (dt_cg_call target0 (BPF_FUNC_dtrace_get_global target0) [42] pcbFree).instrs = [] ∧
    (dt_cg_call target0 (BPF_FUNC_dtrace_get_global target0) [42] pcbFree).error? =
      some Err.UNDEFINED := by
  refine ⟨fun cfg helper ap s r s1 => neverOk_call cfg helper ap s r s1,
    fun _ => ⟨rfl, rfl⟩, by decide, by decide⟩

/-- The instructions `dt_cg_setx` appends on the concrete target, for every value. -/
theorem dt_cg_setx_instrs (reg : Int) (x : Nat) (s : Pcb) :
    (dt_cg_setx target0 reg x s).instrs =
      (s.pcb_ir.map fun n => n.di_instr) ++
        (if x < 2 ^ 32 - 1 then [BPF_MOV32_IMM reg x]
         else [Insn.LD_IMM64_LO (reg4 reg) (x % 2 ^ 32), Insn.LD_IMM64_HI (x / 2 ^ 32)]) := by
  have e : (2 : Nat) ^ 32 - 1 = 4294967295 := by norm_num
  rw [e]
  by_cases h : x < 4294967295 <;>
    simp [dt_cg_setx, dt_cg_xsetx, raiseIf, target0, bind, CG.andThen, pure, CG.ret,
      dt_irlist_append, CG.modify, h, Res.instrs, Res.state, dt_cg_node_alloc,
      dt_cg_node_alloc_labelled]

/-- C9 (the code at the failing input): for `x = 2^32 - 1`, which fits in 32 bits,
`dt_cg_setx` emits the two words of the 64-bit immediate load; in general it emits
the one 32-bit move-immediate exactly when `x < 2^32 - 1`, and the two words
otherwise. -/
theorem C9_setx_uint_max_two_words :
    (dt_cg_setx target0 3 (2 ^ 32 - 1) pcb24).instrs =
      [Insn.LD_IMM64_LO 3 4294967295, Insn.LD_IMM64_HI 0] ∧
    (dt_cg_setx target0 3 (2 ^ 32 - 2) pcb24).instrs = [Insn.MOV32_IMM 3 4294967294] ∧
    (∀ (reg : Int) (x : Nat) (s : Pcb), (dt_cg_setx target0 reg x s).instrs =
      (s.pcb_ir.map fun n => n.di_instr) ++
        (if x < 2 ^ 32 - 1 then [BPF_MOV32_IMM reg x]
         else [Insn.LD_IMM64_LO (reg4 reg) (x % 2 ^ 32),
               Insn.LD_IMM64_HI (x / 2 ^ 32)])) := by
  refine ⟨by decide, by decide, dt_cg_setx_instrs⟩

/-- C10 (the code at the failing input): for a node that is neither a bit-field nor
userland and whose type size is 8, `dt_cg_load` returns the code 0, which is the
word width `BPF_W` and not the double-word width `BPF_DW`; for the sizes 1, 2 and 4 it
returns the byte, half-word and word codes. -/
theorem C10_load_size_8_selects_word :
    (∀ s : Pcb, dt_cg_load {} { size := 8 } s = Res.ok BPF_W s) ∧
    BPF_W ≠ BPF_DW ∧
    (∀ s : Pcb, dt_cg_load {} { size := 1 } s = Res.ok BPF_B s) ∧
    (∀ s : Pcb, dt_cg_load {} { size := 2 } s = Res.ok BPF_H s) ∧
    (∀ s : Pcb, dt_cg_load {} { size := 4 } s = Res.ok BPF_W s) := by
  refine ⟨fun s => rfl, by decide, fun s => rfl, fun s => rfl, fun s => rfl⟩

/-! ## Loads, casts, pointer scaling -/

/-- C11 (counterexample): an access width of 16 bytes is not rejected: `dt_cg_load`
returns for it and raises nothing. -/
theorem C11_load_width_16_not_rejected :
    dt_cg_load_width {} { size := 16 } = 16 ∧
    (dt_cg_load {} { size := 16 } pcbFree).error? = none ∧
    ((dt_cg_load {} { size := 16 } pcbFree).value?).isSome = true := by
  refine ⟨by decide, by decide, by decide⟩

/-- The widths from 1 to 16 that are powers of two. -/
theorem load_width_pow2 (w : Int) (h1 : 1 ≤ w) (h16 : w ≤ 16) :
    (w.toNat &&& (w.toNat - 1)) = 0 ↔ w = 1 ∨ w = 2 ∨ w = 4 ∨ w = 8 ∨ w = 16 := by
  interval_cases w <;> decide

/-- C11 (amended): `dt_cg_load` raises the internal UNKNOWN error, in the unchanged
context, for every access width that is not one of 1, 2, 4, 8, 16 bytes (so for 0, 3
and negative sizes), and returns only for widths in {1, 2, 4, 8, 16}. -/
theorem C11_load_rejects_other_widths (fl : NFlags) (ty : TyInfo) (s : Pcb) :
    (¬ (dt_cg_load_width fl ty = 1 ∨ dt_cg_load_width fl ty = 2 ∨ dt_cg_load_width fl ty = 4 ∨
        dt_cg_load_width fl ty = 8 ∨ dt_cg_load_width fl ty = 16) →
      dt_cg_load fl ty s = Res.err Err.D_UNKNOWN s) ∧
    (∀ (op : Nat) (s1 : Pcb), dt_cg_load fl ty s = Res.ok op s1 →
      dt_cg_load_width fl ty = 1 ∨ dt_cg_load_width fl ty = 2 ∨ dt_cg_load_width fl ty = 4 ∨
        dt_cg_load_width fl ty = 8 ∨ dt_cg_load_width fl ty = 16) := by
  have key : dt_cg_load fl ty = (do
      raiseIf (dt_cg_load_width fl ty < 1 ∨ dt_cg_load_width fl ty > 16 ∨
        ((dt_cg_load_width fl ty).toNat &&& ((dt_cg_load_width fl ty).toNat - 1)) ≠ 0)
        Err.D_UNKNOWN
      raiseIf (fl.USERLAND) Err.D_UNKNOWN
      deref (dt_cg_load_ops.get? (dt_cg_load_width fl ty - 1).toNat)) := rfl
  rw [key]
  generalize dt_cg_load_width fl ty = w
  by_cases hg : w < 1 ∨ w > 16 ∨ (w.toNat &&& (w.toNat - 1)) ≠ 0
  · constructor
    · intro _
      simp [raiseIf, hg, bind, CG.andThen, CG.raise]
    · intro op s1 h
      simp [raiseIf, hg, bind, CG.andThen, CG.raise] at h
  · have h1 : 1 ≤ w := by
      by_contra hc; exact hg (Or.inl (by omega))
    have h16 : w ≤ 16 := by
      by_contra hc; exact hg (Or.inr (Or.inl (by omega)))
    have hp : (w.toNat &&& (w.toNat - 1)) = 0 := by
      by_contra hc; exact hg (Or.inr (Or.inr hc))
    have hw := (load_width_pow2 w h1 h16).mp hp
    exact ⟨fun hn => absurd hw hn, fun _ _ _ => hw⟩

/-- Witness of C11 (amended): the width 3 is rejected, and the width 2, for which the
load returns, is in the set. -/
theorem C11_load_rejects_other_widths_witness :
    dt_cg_load {} { size := 3 } pcbFree = Res.err Err.D_UNKNOWN pcbFree ∧
    (dt_cg_load_width {} { size := 2 } = 1 ∨ dt_cg_load_width {} { size := 2 } = 2 ∨
      dt_cg_load_width {} { size := 2 } = 4 ∨ dt_cg_load_width {} { size := 2 } = 8 ∨
      dt_cg_load_width {} { size := 2 } = 16) :=
  ⟨(C11_load_rejects_other_widths {} { size := 3 } pcbFree).1 (by decide),
   (C11_load_rejects_other_widths {} { size := 2 } pcbFree).2 BPF_H pcbFree rfl⟩

/-- C14: `dt_cg_typecast` applied to a source and a destination of the same size
and the same signedness returns in the unchanged context: it appends no instruction
and leaves the register set as it was. -/
theorem C14_typecast_same_type_emits_nothing (src : NodeInfo) (src_reg : Int) (dst : ArgSig)
    (dst_reg : Int) (s : Pcb) (hsize : src.ty.size = dst.size)
    (hsign : src.dn_flags.SIGNED = dst.SIGNED) :
    dt_cg_typecast src src_reg dst dst_reg s = Res.ok () s := by
  unfold dt_cg_typecast
  simp [hsize, hsign]
  rfl

/-- Witness of C14: a signed 4-byte source cast to a signed 4-byte scalar, in a
context with registers 2 and 4 allocated. -/
theorem C14_typecast_same_type_emits_nothing_witness :
    dt_cg_typecast { dn_flags := { SIGNED := true }, ty := { size := 4 } } 2
      { size := 4, SIGNED := true } 2 pcb24 = Res.ok () pcb24 :=
  C14_typecast_same_type_emits_nothing _ 2 _ 2 pcb24 rfl rfl

/-- C15 (counterexample): the cast of an unsigned 4-byte source to a signed 8-byte
scalar emits two instructions whose right shift is by 32, which is not
`64 - dst_bits = 0`. -/
theorem C15_typecast_widening_shift_is_src_bits :
    (dt_cg_typecast { ty := { size := 4 } } 3 { size := 8, SIGNED := true } 3 pcbFree).instrs =
      [Insn.ALU64_REG AluOp.LSH 3 3, Insn.ALU64_IMM AluOp.ARSH 3 32] ∧
    (32 : Int) ≠ 64 - 8 * 8 := by
  refine ⟨by decide, by decide⟩

/-- C15 (amended): whenever `dt_cg_typecast` emits code (scalar destination that is
narrower than the source or differs in signedness), it appends exactly two
instructions on the destination register: a left shift, then a right shift by a
constant, which is `64 - dst_bits` when the destination is narrower than the source
and `64 - src_bits` otherwise; the right shift is arithmetic when the destination is
signed and logical otherwise. -/
theorem C15_typecast_two_shifts (src : NodeInfo) (src_reg : Int) (dst : ArgSig)
    (dst_reg : Int) (s : Pcb) (hscalar : dst.is_scalar = true)
    (hcast : u64 dst.size < u64 src.ty.size ∨ src.dn_flags.SIGNED ≠ dst.SIGNED) :
    ∃ first : Insn, first.isLshOf dst_reg = true ∧
      dt_cg_typecast src src_reg dst dst_reg s = Res.ok ()
        { s with pcb_ir := s.pcb_ir ++
            [dt_cg_node_alloc first,
             dt_cg_node_alloc (BPF_ALU64_IMM (if dst.SIGNED then AluOp.ARSH else AluOp.RSH)
               dst_reg (if u64 dst.size < u64 src.ty.size then 64 - 8 * (u64 dst.size : Int)
                        else 64 - 8 * (u64 src.ty.size : Int)))] } := by
  refine ⟨BPF_ALU64_REG AluOp.LSH dst_reg src_reg, by simp [Insn.isLshOf], ?_⟩
  unfold dt_cg_typecast
  have hc : dst.is_scalar = true ∧
      (u64 dst.size < u64 src.ty.size ∨ src.dn_flags.SIGNED ≠ dst.SIGNED) := ⟨hscalar, hcast⟩
  simp only [hc, and_self, if_true, bind, CG.andThen, dt_irlist_append, CG.modify,
    List.append_assoc, List.singleton_append, mul_comm]

/-- Witness of C15 (amended): a signed 8-byte source cast to a signed 2-byte
scalar is shifted left and then arithmetically right by 48. -/
theorem C15_typecast_two_shifts_witness :
    ∃ first : Insn, first.isLshOf 3 = true ∧
      dt_cg_typecast { dn_flags := { SIGNED := true } } 3 { size := 2, SIGNED := true } 3 pcbFree =
        Res.ok () { pcbFree with pcb_ir := pcbFree.pcb_ir ++
          [dt_cg_node_alloc first, dt_cg_node_alloc (Insn.ALU64_IMM AluOp.ARSH 3 48)] } :=
  C15_typecast_two_shifts { dn_flags := { SIGNED := true } } 3 { size := 2, SIGNED := true } 3
    pcbFree rfl (Or.inl (by decide))

/-- A successful `dt_cg_setx` appends the immediate load and changes nothing else. -/
theorem setx_ok (cfg : Cfg) (reg : Int) (x : Nat) (s s1 : Pcb)
    (h : dt_cg_setx cfg reg x s = Res.ok () s1) :
    s1 = { s with pcb_ir := s.pcb_ir ++ setx_nodes reg x } := by
  have e : (2 : Nat) ^ 32 - 1 = 4294967295 := by norm_num
  unfold dt_cg_setx dt_cg_xsetx at h
  unfold setx_nodes
  rw [e] at h ⊢
  by_cases hi : cfg.intoff = -1
  · simp [raiseIf, hi, bind, CG.andThen, CG.raise] at h
  · by_cases hx : x < 4294967295 <;>
      simp [raiseIf, hi, hx, bind, CG.andThen, pure, CG.ret, dt_irlist_append, CG.modify,
        dt_cg_node_alloc] at h ⊢ <;> exact h.symm

/-- A successful `dt_regset_alloc` leaves the instruction list as it was. -/
theorem regset_alloc_ir (cfg : Cfg) (s s1 : Pcb) (r : Int)
    (h : dt_regset_alloc cfg s = Res.ok r s1) : s1.pcb_ir = s.pcb_ir := by
  unfold dt_regset_alloc at h
  dsimp only at h
  split at h <;> (cases h; rfl)

/-- A successful `dt_cg_ptrsize` appends nothing when the element size is 1, and
otherwise the load of the size into a scratch register followed by one instruction
`op dreg, scratch`. -/
theorem ptrsize_ok (cfg : Cfg) (dnp : NodeInfo) (op : AluOp) (dreg : Int) (s s1 : Pcb)
    (h : dt_cg_ptrsize cfg dnp op dreg s = Res.ok () s1) :
    ∃ sreg : Int, s1.pcb_ir = s.pcb_ir ++
      (if dnp.ref_size = 1 then []
       else setx_nodes sreg (u64 dnp.ref_size) ++
         [dt_cg_node_alloc (BPF_ALU64_REG op dreg sreg)]) := by
  unfold dt_cg_ptrsize at h
  obtain ⟨sreg, sa, ha, h⟩ := bind_ok_inv h
  have hir := regset_alloc_ir cfg s sa sreg ha
  refine ⟨sreg, ?_⟩
  obtain ⟨_, sb, hb, h⟩ := bind_ok_inv h
  have eb : sa = sb := by
    unfold raiseIf at hb; split at hb <;> cases hb; rfl
  subst eb
  obtain ⟨_, sb, hb, h⟩ := bind_ok_inv h
  have eb : sa = sb := by
    unfold cassert at hb; split at hb <;> cases hb; rfl
  subst eb
  obtain ⟨_, sb, hb, h⟩ := bind_ok_inv h
  have eb : sa = sb := by
    unfold raiseIf at hb; split at hb <;> cases hb; rfl
  subst eb
  by_cases h1 : dnp.ref_size = 1
  · simp only [h1, if_true] at h ⊢
    cases h
    simpa using hir
  · simp only [h1, if_false] at h ⊢
    obtain ⟨_, sc, hc, h⟩ := bind_ok_inv h
    have ec := setx_ok cfg sreg _ _ _ hc
    obtain ⟨_, sd, hd, h⟩ := bind_ok_inv h
    cases hd
    unfold dt_regset_free CG.modify at h
    cases h
    subst ec
    split <;> simp [hir]

/-- The list a returning run of `dt_cg_arithmetic_op` has emitted on a node with
exactly one pointer-typed operand: the left operand's code, the scaling of the left
register if the right operand is the pointer, the right operand's code, the scaling
of the right register if the left operand is the pointer, and the ALU instruction.
The scaling is empty for the element size 1. -/
theorem arithmetic_op_scaling (cfg : Cfg) (visit : Node → CG Int)
    (dnp left right : Node) (op : AluOp) (s0 s1 : Pcb) (lreg rreg : Int)
    (hop : dnp.info.dn_op = Tok.ADD ∨ dnp.info.dn_op = Tok.SUB)
    (hl : dnp.dn_left = some left) (hr : dnp.dn_right = some right)
    (hone : left.info.is_pointer ≠ right.info.is_pointer)
    (h : dt_cg_arithmetic_op cfg visit dnp op s0 = Res.ok (lreg, rreg) s1) :
    ∃ (sa sb sc : Pcb) (sreg : Int),
      visit left s0 = Res.ok lreg sa ∧ visit right sb = Res.ok rreg sc ∧
      sb.pcb_ir = sa.pcb_ir ++
        (if right.info.is_pointer = true ∧ dnp.info.ref_size ≠ 1 then
           setx_nodes sreg (u64 dnp.info.ref_size) ++
             [dt_cg_node_alloc (BPF_ALU64_REG AluOp.MUL lreg sreg)]
         else []) ∧
      s1.pcb_ir = sc.pcb_ir ++
        (if left.info.is_pointer = true ∧ dnp.info.ref_size ≠ 1 then
           setx_nodes sreg (u64 dnp.info.ref_size) ++
             [dt_cg_node_alloc (BPF_ALU64_REG AluOp.MUL rreg sreg)]
         else []) ++
        [dt_cg_node_alloc (BPF_ALU64_REG op lreg rreg)] := by
  unfold dt_cg_arithmetic_op at h
  rw [hl, hr] at h
  have hptr : (dnp.info.dn_op = Tok.ADD || dnp.info.dn_op = Tok.SUB ||
      dnp.info.dn_op = Tok.ADD_EQ || dnp.info.dn_op = Tok.SUB_EQ) = true := by
    rcases hop with e | e <;> simp [e]
  obtain ⟨_, sx, hx, h⟩ := bind_ok_inv h
  cases hx
  obtain ⟨_, sx, hx, h⟩ := bind_ok_inv h
  cases hx
  cases hlp : left.info.is_pointer <;> cases hrp : right.info.is_pointer
  · rw [hlp, hrp] at hone; exact absurd rfl hone
  · -- the right operand is the pointer: the left register is scaled
    simp only [hlp, hrp, hptr, Bool.false_and, Bool.and_true, Bool.and_false, doIf, if_false,
      if_true, Bool.false_eq_true] at h
    obtain ⟨_, sx, hx, h⟩ := bind_ok_inv h
    cases hx
    obtain ⟨lr, sa, ha, h⟩ := bind_ok_inv h
    obtain ⟨_, sb, hb, h⟩ := bind_ok_inv h
    obtain ⟨sreg, hs⟩ := ptrsize_ok _ _ _ _ _ _ hb
    obtain ⟨rr, sc, hc, h⟩ := bind_ok_inv h
    obtain ⟨_, sx, hx, h⟩ := bind_ok_inv h
    cases hx
    obtain ⟨_, sx, hx, h⟩ := bind_ok_inv h
    cases hx
    obtain ⟨_, sx, hx, h⟩ := bind_ok_inv h
    cases hx
    obtain ⟨_, sx, hx, h⟩ := bind_ok_inv h
    cases hx
    cases h
    refine ⟨sa, sb, sc, sreg, ha, hc, ?_, ?_⟩
    · rw [hs]; by_cases h1 : dnp.info.ref_size = 1 <;> simp [h1]
    · dsimp only
      split <;> simp
  · -- the left operand is the pointer: the right register is scaled
    simp only [hlp, hrp, hptr, Bool.false_and, Bool.and_true, Bool.and_false, doIf, if_false,
      if_true, Bool.false_eq_true] at h
    obtain ⟨_, sx, hx, h⟩ := bind_ok_inv h
    cases hx
    obtain ⟨lr, sa, ha, h⟩ := bind_ok_inv h
    obtain ⟨_, sx, hx, h⟩ := bind_ok_inv h
    cases hx
    obtain ⟨rr, sc, hc, h⟩ := bind_ok_inv h
    obtain ⟨_, sd, hd, h⟩ := bind_ok_inv h
    obtain ⟨sreg, hs⟩ := ptrsize_ok _ _ _ _ _ _ hd
    obtain ⟨_, sx, hx, h⟩ := bind_ok_inv h
    cases hx
    obtain ⟨_, sx, hx, h⟩ := bind_ok_inv h
    cases hx
    obtain ⟨_, sx, hx, h⟩ := bind_ok_inv h
    cases hx
    cases h
    refine ⟨sa, sa, sc, sreg, ha, hc, by simp, ?_⟩
    · dsimp only
      split <;> simp [hs]
  · rw [hlp, hrp] at hone; exact absurd rfl hone

/-- C13: for a `+` or `-` node with exactly one pointer-typed operand and element
size `s = ref_size`, a run of the visitor that returns has emitted, in this order:
the code of the left operand; if the right operand is the pointer and `s ≠ 1`, the
load of `s` into a scratch register and one multiply of the left operand's register
by it; the code of the right operand; if the left operand is the pointer and
`s ≠ 1`, the load of `s` and one multiply of the right operand's register; the add
or subtract. So the register of the non-pointer operand is multiplied by `s` exactly
once, the pointer's register never, and for `s = 1` neither a multiply nor a load of
the size is emitted. -/
theorem C13_pointer_operand_scaled_once (cfg : Cfg) (fuel : Nat) (dnp left right : Node)
    (s0 s1 : Pcb) (lreg : Int)
    (hop : dnp.info.dn_op = Tok.ADD ∨ dnp.info.dn_op = Tok.SUB)
    (hl : dnp.dn_left = some left) (hr : dnp.dn_right = some right)
    (hone : left.info.is_pointer ≠ right.info.is_pointer)
    (h : dt_cg_node cfg (fuel + 1) dnp s0 = Res.ok lreg s1) :
    ∃ (sa sb sc : Pcb) (sreg rreg : Int),
      dt_cg_node cfg fuel left s0 = Res.ok lreg sa ∧
      dt_cg_node cfg fuel right sb = Res.ok rreg sc ∧
      sb.pcb_ir = sa.pcb_ir ++
        (if right.info.is_pointer = true ∧ dnp.info.ref_size ≠ 1 then
           setx_nodes sreg (u64 dnp.info.ref_size) ++
             [dt_cg_node_alloc (BPF_ALU64_REG AluOp.MUL lreg sreg)]
         else []) ∧
      s1.pcb_ir = sc.pcb_ir ++
        (if left.info.is_pointer = true ∧ dnp.info.ref_size ≠ 1 then
           setx_nodes sreg (u64 dnp.info.ref_size) ++
             [dt_cg_node_alloc (BPF_ALU64_REG AluOp.MUL rreg sreg)]
         else []) ++
        [dt_cg_node_alloc (BPF_ALU64_REG
          (if dnp.info.dn_op = Tok.ADD then AluOp.ADD else AluOp.SUB) lreg rreg)] := by
  have hb : dt_cg_node cfg (fuel + 1) dnp = dt_cg_node_body cfg (dt_cg_node cfg fuel) dnp := rfl
  rw [hb] at h
  unfold dt_cg_node_body at h
  rcases hop with e | e
  · simp only [e] at h
    unfold dt_cg_op_arith at h
    obtain ⟨regs, sx, hx, h⟩ := bind_ok_inv h
    cases h
    obtain ⟨sa, sb, sc, sreg, h1, h2, h3, h4⟩ :=
      arithmetic_op_scaling cfg _ dnp left right AluOp.ADD s0 _ regs.1 regs.2 (Or.inl e) hl hr
        hone hx
    exact ⟨sa, sb, sc, sreg, regs.2, h1, h2, h3, by simpa [e] using h4⟩
  · simp only [e] at h
    unfold dt_cg_op_arith at h
    obtain ⟨regs, sx, hx, h⟩ := bind_ok_inv h
    cases h
    obtain ⟨sa, sb, sc, sreg, h1, h2, h3, h4⟩ :=
      arithmetic_op_scaling cfg _ dnp left right AluOp.SUB s0 _ regs.1 regs.2 (Or.inr e) hl hr
        hone hx
    exact ⟨sa, sb, sc, sreg, regs.2, h1, h2, h3, by simpa [e] using h4⟩

/-- Witness of C13: for the root `(int *)7 + 7` (element size 4) the emitted list is
the two operands, the load of 4 into register 7, one multiply of the right operand's
register 8 by it, and the add; this run satisfies the hypotheses of the theorem. -/
theorem C13_pointer_operand_scaled_once_witness :
    (dt_cg_node target0 4 intptr_plus_lit pcbFree).instrs =
      [Insn.MOV32_IMM 9 7, Insn.MOV32_IMM 8 7, Insn.MOV32_IMM 7 4,
       Insn.ALU64_REG AluOp.MUL 8 7, Insn.ALU64_REG AluOp.ADD 9 8] ∧
    ∃ (sa sb sc : Pcb) (sreg rreg : Int),
      dt_cg_node target0 3 cast_intptr7 pcbFree = Res.ok 9 sa ∧
      dt_cg_node target0 3 lit7 sb = Res.ok rreg sc ∧
      sb.pcb_ir = sa.pcb_ir ++
        (if lit7.info.is_pointer = true ∧ intptr_plus_lit.info.ref_size ≠ 1 then
           setx_nodes sreg (u64 intptr_plus_lit.info.ref_size) ++
             [dt_cg_node_alloc (BPF_ALU64_REG AluOp.MUL 9 sreg)]
         else []) ∧
      (dt_cg_node target0 4 intptr_plus_lit pcbFree).state.pcb_ir = sc.pcb_ir ++
        (if cast_intptr7.info.is_pointer = true ∧ intptr_plus_lit.info.ref_size ≠ 1 then
           setx_nodes sreg (u64 intptr_plus_lit.info.ref_size) ++
             [dt_cg_node_alloc (BPF_ALU64_REG AluOp.MUL rreg sreg)]
         else []) ++
        [dt_cg_node_alloc (BPF_ALU64_REG
          (if intptr_plus_lit.info.dn_op = Tok.ADD then AluOp.ADD else AluOp.SUB) 9 rreg)] :=
  ⟨by decide,
   C13_pointer_operand_scaled_once target0 3 intptr_plus_lit cast_intptr7 lit7 pcbFree _ 9
     (Or.inl rfl) rfl rfl (by decide) rfl⟩

/-! ## Bit-fields, argument lists, ternary, translators -/

/-- C12 (the code at two failing inputs): the unsigned bit-field `f` of 3 bits at
bit offset 3 of the byte at address 2, and the value 5. In the code emitted for
`((struct s *)2)->f = 5` the fourth word is the unassigned word that `dt_cg_mov`
appended (on the concrete target the all-zero word, which the machine steps over):
no instruction puts the container or its address in the scratch register 7 that the
next instructions mask, merge and store, and the value is never shifted. The write run
on a machine whose register 7 holds 64 stores 69 in the byte, and the code emitted for
the read `((struct s *)2)->f`, run next, leaves 69 in the result register 9, not 5.
(On the zeroed machine the byte and the result are 5: the scratch register holds 0,
the value is stored unshifted and the read leaves the container unshifted.) For the
bit-field `g` of 40 bits in an eight-byte container and the value `2^39`, on the
zeroed machine, the write stores the eight bytes of `2^39` and the read, whose load is
four bytes wide, leaves 0 in the result register. -/
theorem C12_bitfield_round_trip_fails :
    (dt_cg_node target0 6 bf_write pcbFree).error? = none ∧
    (dt_cg_node target0 6 bf_write pcbFree).instrs =
      [Insn.MOV32_IMM 9 5, Insn.MOV32_IMM 8 2, Insn.ALU64_IMM AluOp.ADD 8 0,
       Insn.RAW 0 0 0 0 0, Insn.LD_IMM64_LO 6 4294967239, Insn.LD_IMM64_HI 4294967295,
       Insn.ALU64_REG AluOp.AND 7 6, Insn.MOV32_IMM 6 7, Insn.ALU64_REG AluOp.AND 6 9,
       Insn.MOV32_IMM 5 3, Insn.ALU64_REG AluOp.LSH 5 6, Insn.ALU64_REG AluOp.OR 7 6,
       Insn.STX_MEM BPF_B 8 7 0] ∧
    (dt_cg_node target0 6 bf_read pcbFree).value? = some 9 ∧
    (dt_cg_node target0 6 bf_read pcbFree).instrs =
      [Insn.MOV32_IMM 9 2, Insn.ALU64_IMM AluOp.ADD 9 0, Insn.LDX_MEM BPF_B 9 9 0,
       Insn.MOV32_IMM 8 3, Insn.ALU64_REG AluOp.LSH 8 9, Insn.MOV32_IMM 8 7,
       Insn.ALU64_REG AluOp.AND 8 9] ∧
    (Vm.exec (dt_cg_node target0 6 bf_write pcbFree).instrs vmScratch).mem 2 = 69 ∧
    (Vm.exec (dt_cg_node target0 6 bf_read pcbFree).instrs
      (Vm.exec (dt_cg_node target0 6 bf_write pcbFree).instrs vmScratch)).reg 9 = 69 ∧
    (Vm.exec (dt_cg_node target0 6 bf_write pcbFree).instrs vm0).mem 2 = 5 ∧
    (Vm.exec (dt_cg_node target0 6 bf_read pcbFree).instrs
      (Vm.exec (dt_cg_node target0 6 bf_write pcbFree).instrs vm0)).reg 9 = 5 ∧
    (dt_cg_node target0 6 bf_wide_write pcbFree).error? = none ∧
    (dt_cg_node target0 6 bf_wide_read pcbFree).value? = some 9 ∧
    (dt_cg_node target0 6 bf_wide_read pcbFree).instrs =
      [Insn.MOV32_IMM 9 2, Insn.LDX_MEM BPF_W 9 9 0, Insn.MOV32_IMM 8 0,
       Insn.ALU64_REG AluOp.LSH 8 9, Insn.LD_IMM64_LO 8 4294967295, Insn.LD_IMM64_HI 255,
       Insn.ALU64_REG AluOp.AND 8 9] ∧
    (Vm.exec (dt_cg_node target0 6 bf_wide_write pcbFree).instrs vm0).load 2 8 = 2 ^ 39 ∧
    (Vm.exec (dt_cg_node target0 6 bf_wide_read pcbFree).instrs
      (Vm.exec (dt_cg_node target0 6 bf_wide_write pcbFree).instrs vm0)).reg 9 = 0 := by
  refine ⟨by decide, by decide, by decide, by decide, by decide, by decide, by decide,
    by decide, by decide, by decide, by decide, by decide, by decide⟩

/-- C16 (the code at the failing input): the argument list `[*(struct s *)2, 7]`, a
16-byte structure passed by reference and an integer passed by value, at stack depth
0. The size slot of the by-reference argument (at `FP - 8`) receives the constant 0,
and the size slot of the by-value argument (at `FP - 24`) receives the content of a
register, here R0, which holds the size 16 loaded for the first argument. The count
2 is returned. -/
theorem C16_arglist_size_slots_swapped :
    (dt_cg_arglist target0 (dt_cg_node target0 4) 0 [struct_deref, lit7] pcbArgs).instrs =
      [Insn.MOV32_IMM 9 2, Insn.MOV32_IMM 8 7, Insn.MOV32_IMM 0 16,
       BPF_STX_MEM BPF_DW BPF_REG_FP 9 0, BPF_ST_MEM BPF_DW BPF_REG_FP (-8) 0,
       BPF_STX_MEM BPF_DW BPF_REG_FP 8 (-16), BPF_STX_MEM BPF_DW BPF_REG_FP 0 (-24)] ∧
    (dt_cg_arglist target0 (dt_cg_node target0 4) 0 [struct_deref, lit7] pcbArgs).value? =
      some 2 := by
  refine ⟨by decide, by decide⟩

/-- C17 (the code at the failing input): for `7 ? 7 : -7` the then-branch computes in
register 9 and the node's result register, that of the else-branch, is 8. The patched
placeholder, the fourth instruction, is `MOV64_REG 9 8`: its destination is the
then-branch's register and its source the result register. (The eighth word is the
word `g` that `dt_cg_mov` appended in the negation, whatever it is.) -/
theorem C17_ternary_patch_operands_reversed :
    (∀ g : Insn,
      (dt_cg_node (target_mov g) 3 ternary_neg pcbFree).value? = some 8 ∧
      (dt_cg_node (target_mov g) 3 ternary_neg pcbFree).instrs =
        [Insn.MOV32_IMM 9 7, Insn.JMP_IMM JmpOp.JEQ 9 0 0,
         Insn.MOV32_IMM 9 7, Insn.MOV64_REG 9 8, Insn.JMP_IMM JmpOp.JA 0 0 1,
         Insn.NOP, Insn.MOV32_IMM 8 7, g, Insn.MOV32_IMM 8 0,
         Insn.ALU64_REG AluOp.SUB 8 9, Insn.NOP] ∧
      (dt_cg_node (target_mov g) 3 ternary_neg pcbFree).instrs.get? 3 =
        some (Insn.MOV64_REG 9 8)) ∧
    Insn.MOV64_REG 9 8 ≠ Insn.MOV64_REG 8 9 := by
  refine ⟨fun _ => ⟨rfl, rfl, rfl⟩, by decide⟩

/-- C18 (the code at the failing input): the assignment `x = xlate <struct s> (7)`
raises at the call of `alloc_scratch`, after the load of the size 24, so no member is
stored. The member loop by itself, with the base 1000 in register 5 and members at
byte offsets 8 and 16, adds each offset to register 5 in place: the second store goes
to 1000 + 8 + 16 = 1024, nothing is stored at 1016, and register 5 ends as 1024. -/
theorem C18_member_offsets_accumulate :
    (dt_cg_node target0 4 asgn_xlate { pcbXlate with pcb_regs := List.replicate 10 false }).error?
      = some Err.UNDEFINED ∧
    (dt_cg_node target0 4 asgn_xlate { pcbXlate with pcb_regs := List.replicate 10 false }).instrs
      = [Insn.MOV32_IMM 9 7, Insn.MOV32_IMM 8 24] ∧
    (dt_cg_asgn_members target0 (dt_cg_node target0 2) 5
        [xl_member "a" 64 7, xl_member "b" 128 9] pcbXlate).instrs =
      [Insn.MOV32_IMM 8 7, Insn.ALU64_IMM AluOp.ADD 5 8, Insn.STX_MEM BPF_DW 5 8 0,
       Insn.MOV32_IMM 8 9, Insn.ALU64_IMM AluOp.ADD 5 16, Insn.STX_MEM BPF_DW 5 8 0] ∧
    (Vm.exec (dt_cg_asgn_members target0 (dt_cg_node target0 2) 5
        [xl_member "a" 64 7, xl_member "b" 128 9] pcbXlate).instrs vmBase).load 1008 8 = 7 ∧
    (Vm.exec (dt_cg_asgn_members target0 (dt_cg_node target0 2) 5
        [xl_member "a" 64 7, xl_member "b" 128 9] pcbXlate).instrs vmBase).load 1016 8 = 0 ∧
    (Vm.exec (dt_cg_asgn_members target0 (dt_cg_node target0 2) 5
        [xl_member "a" 64 7, xl_member "b" 128 9] pcbXlate).instrs vmBase).load 1024 8 = 9 ∧
    (Vm.exec (dt_cg_asgn_members target0 (dt_cg_node target0 2) 5
        [xl_member "a" 64 7, xl_member "b" 128 9] pcbXlate).instrs vmBase).reg 5 = 1024 := by
  refine ⟨by decide, by decide, by decide, by decide, by decide, by decide, by decide⟩

/-- C19 (the code at the failing input): the arm that `dt_cg_assoc_op` emits for a
by-reference element, with the result of the first read in register 9, opens with
`JMP_IMM JEQ 9 0 label`, a jump to the label behind the epilogue that is taken exactly
when register 9 is zero: the epilogue is skipped when the first read returned zero
and entered when it returned an address. The arm then raises at the call of
`alloc_scratch`, and the whole read `a[7]` raises at the first helper call. -/
theorem C19_assoc_epilogue_branch_inverted :
    (dt_cg_assoc_ref target0 assoc_read 9 (BPF_FUNC_dtrace_get_global_assoc target0)
        pcbAssoc).instrs = [Insn.JMP_IMM JmpOp.JEQ 9 0 0, Insn.MOV32_IMM 9 16] ∧
    (dt_cg_assoc_ref target0 assoc_read 9 (BPF_FUNC_dtrace_get_global_assoc target0)
        pcbAssoc).error? = some Err.UNDEFINED ∧
    (∀ v : Nat, jmp_taken JmpOp.JEQ v 0 = decide (v = 0)) ∧
    (dt_cg_node target0 4 assoc_read { pcbAssoc with pcb_regs := List.replicate 10 false }).error?
      = some Err.EDT_INVALIDBPFHELPER := by
  refine ⟨by decide, by decide, fun _ => rfl, by decide⟩

/-- C20 (the code at the failing input): the driver, given the translator body whose
member expression is the literal `7`, completes; on return register 9, allocated for
the translator input, is still allocated, and the input identifier still carries the
code-generation flag and the register id 9. -/
theorem C20_translator_input_not_released :
    (dt_cg target0 2 xl_body pcbBody).error? = none ∧
    (dt_cg target0 2 xl_body pcbBody).instrs = [Insn.MOV32_IMM 8 7, Insn.EXIT] ∧
    (dt_cg target0 2 xl_body pcbBody).state.pcb_regs =
      [false, false, false, false, false, false, false, false, false, true] ∧
    ((dt_cg target0 2 xl_body pcbBody).state.idents.map fun i => (i.CGREG, i.di_id)) =
      [(true, 9)] := by
  refine ⟨by decide, by decide, by decide, by decide⟩

/-! ## The DYN error is raised by the driver only -/

theorem never_bind {α β : Type} {e : Err} {m : CG α} {f : α → CG β}
    (hm : Never e m) (hf : ∀ a, Never e (f a)) : Never e (m >>= f) :=
  ⟨noRaise_bind hm.no_raise fun a => (hf a).no_raise⟩

theorem nodyn_pure {α : Type} (a : α) : Never Err.D_CG_DYN (pure a : CG α) :=
  ⟨noRaise_pure a⟩

theorem nodyn_raise {α : Type} {e1 : Err} (h : e1 ≠ Err.D_CG_DYN) :
    Never Err.D_CG_DYN (CG.raise e1 : CG α) :=
  ⟨noRaise_raise h⟩

theorem nodyn_get : Never Err.D_CG_DYN CG.get := ⟨noRaise_get⟩

theorem nodyn_modify (f : Pcb → Pcb) : Never Err.D_CG_DYN (CG.modify f) := ⟨noRaise_modify f⟩

theorem nodyn_deref {α : Type} (o : Option α) : Never Err.D_CG_DYN (deref o) :=
  ⟨noRaise_deref (by decide) o⟩

theorem nodyn_orRaise {α : Type} (o : Option α) {e1 : Err} (h : e1 ≠ Err.D_CG_DYN) :
    Never Err.D_CG_DYN (orRaise o e1) := by
  cases o with
  | none => exact nodyn_raise h
  | some a => exact nodyn_pure a

theorem nodyn_raiseIf (c : Prop) [Decidable c] {e1 : Err} (h : e1 ≠ Err.D_CG_DYN) :
    Never Err.D_CG_DYN (raiseIf c e1) := by
  unfold raiseIf
  split
  · exact nodyn_raise h
  · exact nodyn_pure _

theorem nodyn_cassert (b : Bool) : Never Err.D_CG_DYN (cassert b) := by
  unfold cassert
  split
  · exact nodyn_pure _
  · exact nodyn_raise (by decide)

theorem nodyn_doIf (c : Prop) [Decidable c] {m : CG Unit} (hm : Never Err.D_CG_DYN m) :
    Never Err.D_CG_DYN (doIf c m) := by
  unfold doIf
  split
  · exact hm
  · exact nodyn_pure _

theorem nodyn_alloc (cfg : Cfg) : Never Err.D_CG_DYN (dt_regset_alloc cfg) := by
  constructor
  intro s s1 h
  unfold dt_regset_alloc at h
  dsimp only at h
  split at h <;> cases h

theorem nodyn_free (r : Int) : Never Err.D_CG_DYN (dt_regset_free r) := nodyn_modify _

theorem nodyn_modIdent (i : Nat) (f : Ident → Ident) : Never Err.D_CG_DYN (modIdent i f) :=
  nodyn_modify _

theorem nodyn_getIdent (i : Nat) : Never Err.D_CG_DYN (getIdent i) :=
  never_bind nodyn_get fun _ => nodyn_deref _

theorem nodyn_getXlator (i : Nat) : Never Err.D_CG_DYN (getXlator i) :=
  never_bind nodyn_get fun _ => nodyn_deref _

theorem nodyn_setStackdepth (d : Int) : Never Err.D_CG_DYN (setStackdepth d) := nodyn_modify _

theorem nodyn_append (n : IrNode) : Never Err.D_CG_DYN (dt_irlist_append n) := nodyn_modify _

theorem nodyn_patch (pos : Nat) (i : Insn) : Never Err.D_CG_DYN (patchInstr pos i) :=
  nodyn_modify _

theorem nodyn_label : Never Err.D_CG_DYN dt_irlist_label := by
  constructor
  intro s s1 h
  cases h

theorem nodyn_mov (cfg : Cfg) (a b : Int) : Never Err.D_CG_DYN (dt_cg_mov cfg a b) :=
  ⟨noRaise_mov cfg a b⟩

theorem nodyn_xsetx (cfg : Cfg) (idp lbl : Option Nat) (reg : Int) (x : Nat) :
    Never Err.D_CG_DYN (dt_cg_xsetx cfg idp lbl reg x) :=
  ⟨noRaise_xsetx (by decide) cfg idp lbl reg x⟩

theorem nodyn_setx (cfg : Cfg) (reg : Int) (x : Nat) :
    Never Err.D_CG_DYN (dt_cg_setx cfg reg x) :=
  nodyn_xsetx cfg none none reg x

theorem nodyn_strtab_insert (str : String) : Never Err.D_CG_DYN (dt_strtab_insert str) := by
  constructor
  intro s s1 h
  unfold dt_strtab_insert at h
  dsimp only at h
  split at h <;> cases h

theorem nodyn_mapEach {α β : Type} {f : α → CG β} (hf : ∀ a, Never Err.D_CG_DYN (f a))
    (l : List α) : Never Err.D_CG_DYN (mapEach f l) := by
  induction l with
  | nil => exact nodyn_pure _
  | cons a rest ih =>
    unfold mapEach
    exact never_bind (hf a) fun _ => never_bind ih fun _ => nodyn_pure _

theorem nodyn_call (cfg : Cfg) (helper : Nat) (ap : List Int) :
    Never Err.D_CG_DYN (dt_cg_call cfg helper ap) := by
  constructor
  unfold dt_cg_call
  refine noRaise_bind noRaise_get fun _ => ?_
  refine noRaise_bind (noRaise_ite (noRaise_raise (by decide)) (noRaise_pure _)) fun _ => ?_
  refine noRaise_bind (noRaise_ite (noRaise_raise (by decide)) (noRaise_pure _)) fun _ => ?_
  refine noRaise_bind (noRaise_deref (by decide) _) fun argstr => ?_
  refine noRaise_bind (noRaise_call_scan (by decide) _ _) fun p => ?_
  refine noRaise_bind (noRaise_ite ?_ (noRaise_pure _)) fun _ => ?_
  · exact noRaise_bind (noRaise_mov _ _ _) fun _ => noRaise_bind noRaise_get fun _ =>
      noRaise_append _
  refine noRaise_bind noRaise_get fun _ => ?_
  refine noRaise_bind (noRaise_forEach (fun r => noRaise_spill _ r) _) fun _ => ?_
  refine noRaise_bind (noRaise_call_args (by decide) (by decide) (by decide) _ _ _ _) fun _ => ?_
  refine noRaise_bind (noRaise_append _) fun _ => noRaise_bind noRaise_get fun _ => ?_
  exact noRaise_bind (noRaise_forEach (fun r => noRaise_unspill _ r) _) fun _ => noRaise_pure _

theorem nodyn_typecast (src : NodeInfo) (a : Int) (dst : ArgSig) (b : Int) :
    Never Err.D_CG_DYN (dt_cg_typecast src a dst b) := by
  unfold dt_cg_typecast
  repeat (first
    | with_reducible exact nodyn_pure _
    | (with_reducible apply nodyn_raise; decide)
    | with_reducible exact nodyn_get
    | with_reducible exact nodyn_modify _
    | (with_reducible apply nodyn_raiseIf; decide)
    | with_reducible exact nodyn_cassert _
    | with_reducible exact nodyn_deref _
    | (with_reducible apply nodyn_orRaise; decide)
    | with_reducible exact nodyn_alloc _
    | with_reducible exact nodyn_free _
    | with_reducible exact nodyn_modIdent _ _
    | with_reducible exact nodyn_getIdent _
    | with_reducible exact nodyn_getXlator _
    | with_reducible exact nodyn_setStackdepth _
    | with_reducible exact nodyn_mov _ _ _
    | with_reducible exact nodyn_setx _ _ _
    | with_reducible exact nodyn_xsetx _ _ _ _ _
    | with_reducible exact nodyn_call _ _ _
    | with_reducible exact nodyn_append _
    | with_reducible exact nodyn_patch _ _
    | with_reducible exact nodyn_label
    | with_reducible exact nodyn_strtab_insert _
    | apply nodyn_doIf
    | apply never_bind
    | intro _
    | split
    | dsimp only)

theorem nodyn_load (fl : NFlags) (t : TyInfo) :
    Never Err.D_CG_DYN (dt_cg_load fl t) := by
  unfold dt_cg_load
  repeat (first
    | with_reducible exact nodyn_pure _
    | (with_reducible apply nodyn_raise; decide)
    | with_reducible exact nodyn_get
    | with_reducible exact nodyn_modify _
    | (with_reducible apply nodyn_raiseIf; decide)
    | with_reducible exact nodyn_cassert _
    | with_reducible exact nodyn_deref _
    | (with_reducible apply nodyn_orRaise; decide)
    | with_reducible exact nodyn_alloc _
    | with_reducible exact nodyn_free _
    | with_reducible exact nodyn_modIdent _ _
    | with_reducible exact nodyn_getIdent _
    | with_reducible exact nodyn_getXlator _
    | with_reducible exact nodyn_setStackdepth _
    | with_reducible exact nodyn_mov _ _ _
    | with_reducible exact nodyn_setx _ _ _
    | with_reducible exact nodyn_xsetx _ _ _ _ _
    | with_reducible exact nodyn_call _ _ _
    | with_reducible exact nodyn_append _
    | with_reducible exact nodyn_patch _ _
    | with_reducible exact nodyn_label
    | with_reducible exact nodyn_strtab_insert _
    | apply nodyn_doIf
    | apply never_bind
    | intro _
    | split
    | dsimp only)

theorem nodyn_ptrsize (cfg : Cfg) (dnp : NodeInfo) (op : AluOp) (dreg : Int) :
    Never Err.D_CG_DYN (dt_cg_ptrsize cfg dnp op dreg) := by
  unfold dt_cg_ptrsize
  repeat (first
    | with_reducible exact nodyn_pure _
    | (with_reducible apply nodyn_raise; decide)
    | with_reducible exact nodyn_get
    | with_reducible exact nodyn_modify _
    | (with_reducible apply nodyn_raiseIf; decide)
    | with_reducible exact nodyn_cassert _
    | with_reducible exact nodyn_deref _
    | (with_reducible apply nodyn_orRaise; decide)
    | with_reducible exact nodyn_alloc _
    | with_reducible exact nodyn_free _
    | with_reducible exact nodyn_modIdent _ _
    | with_reducible exact nodyn_getIdent _
    | with_reducible exact nodyn_getXlator _
    | with_reducible exact nodyn_setStackdepth _
    | with_reducible exact nodyn_mov _ _ _
    | with_reducible exact nodyn_setx _ _ _
    | with_reducible exact nodyn_xsetx _ _ _ _ _
    | with_reducible exact nodyn_call _ _ _
    | with_reducible exact nodyn_append _
    | with_reducible exact nodyn_patch _ _
    | with_reducible exact nodyn_label
    | with_reducible exact nodyn_strtab_insert _
    | apply nodyn_doIf
    | apply never_bind
    | intro _
    | split
    | dsimp only)

theorem nodyn_field_get (cfg : Cfg) (dnp : NodeInfo) (r1 : Int) (mp : MembInfo) :
    Never Err.D_CG_DYN (dt_cg_field_get cfg dnp r1 mp) := by
  unfold dt_cg_field_get
  repeat (first
    | with_reducible exact nodyn_pure _
    | (with_reducible apply nodyn_raise; decide)
    | with_reducible exact nodyn_get
    | with_reducible exact nodyn_modify _
    | (with_reducible apply nodyn_raiseIf; decide)
    | with_reducible exact nodyn_cassert _
    | with_reducible exact nodyn_deref _
    | (with_reducible apply nodyn_orRaise; decide)
    | with_reducible exact nodyn_alloc _
    | with_reducible exact nodyn_free _
    | with_reducible exact nodyn_modIdent _ _
    | with_reducible exact nodyn_getIdent _
    | with_reducible exact nodyn_getXlator _
    | with_reducible exact nodyn_setStackdepth _
    | with_reducible exact nodyn_mov _ _ _
    | with_reducible exact nodyn_setx _ _ _
    | with_reducible exact nodyn_xsetx _ _ _ _ _
    | with_reducible exact nodyn_call _ _ _
    | with_reducible exact nodyn_append _
    | with_reducible exact nodyn_patch _ _
    | with_reducible exact nodyn_label
    | with_reducible exact nodyn_strtab_insert _
    | apply nodyn_doIf
    | apply never_bind
    | intro _
    | split
    | dsimp only)

theorem nodyn_field_set (cfg : Cfg) (a : Int) (dst : Node) (b : Int) :
    Never Err.D_CG_DYN (dt_cg_field_set cfg a dst b) := by
  unfold dt_cg_field_set
  repeat (first
    | with_reducible exact nodyn_pure _
    | (with_reducible apply nodyn_raise; decide)
    | with_reducible exact nodyn_get
    | with_reducible exact nodyn_modify _
    | (with_reducible apply nodyn_raiseIf; decide)
    | with_reducible exact nodyn_cassert _
    | with_reducible exact nodyn_deref _
    | (with_reducible apply nodyn_orRaise; decide)
    | with_reducible exact nodyn_alloc _
    | with_reducible exact nodyn_free _
    | with_reducible exact nodyn_modIdent _ _
    | with_reducible exact nodyn_getIdent _
    | with_reducible exact nodyn_getXlator _
    | with_reducible exact nodyn_setStackdepth _
    | with_reducible exact nodyn_mov _ _ _
    | with_reducible exact nodyn_setx _ _ _
    | with_reducible exact nodyn_xsetx _ _ _ _ _
    | with_reducible exact nodyn_call _ _ _
    | with_reducible exact nodyn_append _
    | with_reducible exact nodyn_patch _ _
    | with_reducible exact nodyn_label
    | with_reducible exact nodyn_strtab_insert _
    | apply nodyn_doIf
    | apply never_bind
    | intro _
    | split
    | dsimp only)

theorem nodyn_store (cfg : Cfg) (src : NodeInfo) (a : Int) (dst : Node) (b : Int) :
    Never Err.D_CG_DYN (dt_cg_store cfg src a dst b) := by
  unfold dt_cg_store
  repeat (first
    | with_reducible exact nodyn_pure _
    | (with_reducible apply nodyn_raise; decide)
    | with_reducible exact nodyn_get
    | with_reducible exact nodyn_modify _
    | (with_reducible apply nodyn_raiseIf; decide)
    | with_reducible exact nodyn_cassert _
    | with_reducible exact nodyn_deref _
    | (with_reducible apply nodyn_orRaise; decide)
    | with_reducible exact nodyn_alloc _
    | with_reducible exact nodyn_free _
    | with_reducible exact nodyn_modIdent _ _
    | with_reducible exact nodyn_getIdent _
    | with_reducible exact nodyn_getXlator _
    | with_reducible exact nodyn_setStackdepth _
    | with_reducible exact nodyn_mov _ _ _
    | with_reducible exact nodyn_setx _ _ _
    | with_reducible exact nodyn_xsetx _ _ _ _ _
    | with_reducible exact nodyn_call _ _ _
    | with_reducible exact nodyn_append _
    | with_reducible exact nodyn_patch _ _
    | with_reducible exact nodyn_label
    | with_reducible exact nodyn_strtab_insert _
    | with_reducible exact nodyn_field_set _ _ _ _
    | apply nodyn_doIf
    | apply never_bind
    | intro _
    | split
    | dsimp only)

theorem nodyn_stvar (cfg : Cfg) (idp : Ident) :
    Never Err.D_CG_DYN (dt_cg_stvar cfg idp) := by
  unfold dt_cg_stvar
  repeat (first
    | with_reducible exact nodyn_pure _
    | (with_reducible apply nodyn_raise; decide)
    | with_reducible exact nodyn_get
    | with_reducible exact nodyn_modify _
    | (with_reducible apply nodyn_raiseIf; decide)
    | with_reducible exact nodyn_cassert _
    | with_reducible exact nodyn_deref _
    | (with_reducible apply nodyn_orRaise; decide)
    | with_reducible exact nodyn_alloc _
    | with_reducible exact nodyn_free _
    | with_reducible exact nodyn_modIdent _ _
    | with_reducible exact nodyn_getIdent _
    | with_reducible exact nodyn_getXlator _
    | with_reducible exact nodyn_setStackdepth _
    | with_reducible exact nodyn_mov _ _ _
    | with_reducible exact nodyn_setx _ _ _
    | with_reducible exact nodyn_xsetx _ _ _ _ _
    | with_reducible exact nodyn_call _ _ _
    | with_reducible exact nodyn_append _
    | with_reducible exact nodyn_patch _ _
    | with_reducible exact nodyn_label
    | with_reducible exact nodyn_strtab_insert _
    | apply nodyn_doIf
    | apply never_bind
    | intro _
    | split
    | dsimp only)

theorem nodyn_arith_step (dnp : NodeInfo) :
    Never Err.D_CG_DYN (arith_step dnp) := by
  unfold arith_step
  repeat (first
    | with_reducible exact nodyn_pure _
    | (with_reducible apply nodyn_raise; decide)
    | with_reducible exact nodyn_get
    | with_reducible exact nodyn_modify _
    | (with_reducible apply nodyn_raiseIf; decide)
    | with_reducible exact nodyn_cassert _
    | with_reducible exact nodyn_deref _
    | (with_reducible apply nodyn_orRaise; decide)
    | with_reducible exact nodyn_alloc _
    | with_reducible exact nodyn_free _
    | with_reducible exact nodyn_modIdent _ _
    | with_reducible exact nodyn_getIdent _
    | with_reducible exact nodyn_getXlator _
    | with_reducible exact nodyn_setStackdepth _
    | with_reducible exact nodyn_mov _ _ _
    | with_reducible exact nodyn_setx _ _ _
    | with_reducible exact nodyn_xsetx _ _ _ _ _
    | with_reducible exact nodyn_call _ _ _
    | with_reducible exact nodyn_append _
    | with_reducible exact nodyn_patch _ _
    | with_reducible exact nodyn_label
    | with_reducible exact nodyn_strtab_insert _
    | apply nodyn_doIf
    | apply never_bind
    | intro _
    | split
    | dsimp only)

theorem nodyn_compare_signed (dnp : Node) :
    Never Err.D_CG_DYN (dt_cg_compare_signed dnp) := by
  unfold dt_cg_compare_signed
  repeat (first
    | with_reducible exact nodyn_pure _
    | (with_reducible apply nodyn_raise; decide)
    | with_reducible exact nodyn_get
    | with_reducible exact nodyn_modify _
    | (with_reducible apply nodyn_raiseIf; decide)
    | with_reducible exact nodyn_cassert _
    | with_reducible exact nodyn_deref _
    | (with_reducible apply nodyn_orRaise; decide)
    | with_reducible exact nodyn_alloc _
    | with_reducible exact nodyn_free _
    | with_reducible exact nodyn_modIdent _ _
    | with_reducible exact nodyn_getIdent _
    | with_reducible exact nodyn_getXlator _
    | with_reducible exact nodyn_setStackdepth _
    | with_reducible exact nodyn_mov _ _ _
    | with_reducible exact nodyn_setx _ _ _
    | with_reducible exact nodyn_xsetx _ _ _ _ _
    | with_reducible exact nodyn_call _ _ _
    | with_reducible exact nodyn_append _
    | with_reducible exact nodyn_patch _ _
    | with_reducible exact nodyn_label
    | with_reducible exact nodyn_strtab_insert _
    | apply nodyn_doIf
    | apply never_bind
    | intro _
    | split
    | dsimp only)

theorem nodyn_arglist_push (cfg : Cfg) (dis_args : List ArgSig) (l : List (Node × Int))
    (i : Nat) (c : Int) : Never Err.D_CG_DYN (dt_cg_arglist_push cfg dis_args l i c) := by
  induction l generalizing i c with
  | nil => exact nodyn_pure _
  | cons p rest ih =>
    obtain ⟨dnp, reg⟩ := p
    unfold dt_cg_arglist_push
    repeat (first
      | with_reducible exact nodyn_pure _
      | (with_reducible apply nodyn_raise; decide)
      | with_reducible exact nodyn_get
      | with_reducible exact nodyn_modify _
      | (with_reducible apply nodyn_raiseIf; decide)
      | with_reducible exact nodyn_cassert _
      | with_reducible exact nodyn_deref _
      | (with_reducible apply nodyn_orRaise; decide)
      | with_reducible exact nodyn_alloc _
      | with_reducible exact nodyn_free _
      | with_reducible exact nodyn_modIdent _ _
      | with_reducible exact nodyn_getIdent _
      | with_reducible exact nodyn_getXlator _
      | with_reducible exact nodyn_setStackdepth _
      | with_reducible exact nodyn_mov _ _ _
      | with_reducible exact nodyn_setx _ _ _
      | with_reducible exact nodyn_xsetx _ _ _ _ _
      | with_reducible exact nodyn_call _ _ _
      | with_reducible exact nodyn_append _
      | with_reducible exact nodyn_patch _ _
      | with_reducible exact nodyn_label
      | with_reducible exact nodyn_strtab_insert _
      | with_reducible exact ih _ _
      | with_reducible exact nodyn_typecast _ _ _ _
      | apply nodyn_doIf
      | apply never_bind
      | intro _
      | split
      | dsimp only)

theorem nodyn_arglist (cfg : Cfg) {visit : Node → CG Int} (idp : Nat) (args : List Node) (hv : ∀ n, Never Err.D_CG_DYN (visit n)) :
    Never Err.D_CG_DYN (dt_cg_arglist cfg visit idp args) := by
  unfold dt_cg_arglist
  repeat (first
    | with_reducible exact hv _
    | with_reducible exact nodyn_pure _
    | (with_reducible apply nodyn_raise; decide)
    | with_reducible exact nodyn_get
    | with_reducible exact nodyn_modify _
    | (with_reducible apply nodyn_raiseIf; decide)
    | with_reducible exact nodyn_cassert _
    | with_reducible exact nodyn_deref _
    | (with_reducible apply nodyn_orRaise; decide)
    | with_reducible exact nodyn_alloc _
    | with_reducible exact nodyn_free _
    | with_reducible exact nodyn_modIdent _ _
    | with_reducible exact nodyn_getIdent _
    | with_reducible exact nodyn_getXlator _
    | with_reducible exact nodyn_setStackdepth _
    | with_reducible exact nodyn_mov _ _ _
    | with_reducible exact nodyn_setx _ _ _
    | with_reducible exact nodyn_xsetx _ _ _ _ _
    | with_reducible exact nodyn_call _ _ _
    | with_reducible exact nodyn_append _
    | with_reducible exact nodyn_patch _ _
    | with_reducible exact nodyn_label
    | with_reducible exact nodyn_strtab_insert _
    | with_reducible exact nodyn_mapEach hv _
    | with_reducible exact nodyn_arglist_push _ _ _ _ _
    | apply nodyn_doIf
    | apply never_bind
    | intro _
    | split
    | dsimp only)

theorem nodyn_arithmetic_op (cfg : Cfg) {visit : Node → CG Int} (dnp : Node) (op : AluOp) (hv : ∀ n, Never Err.D_CG_DYN (visit n)) :
    Never Err.D_CG_DYN (dt_cg_arithmetic_op cfg visit dnp op) := by
  unfold dt_cg_arithmetic_op
  repeat (first
    | with_reducible exact hv _
    | with_reducible exact nodyn_pure _
    | (with_reducible apply nodyn_raise; decide)
    | with_reducible exact nodyn_get
    | with_reducible exact nodyn_modify _
    | (with_reducible apply nodyn_raiseIf; decide)
    | with_reducible exact nodyn_cassert _
    | with_reducible exact nodyn_deref _
    | (with_reducible apply nodyn_orRaise; decide)
    | with_reducible exact nodyn_alloc _
    | with_reducible exact nodyn_free _
    | with_reducible exact nodyn_modIdent _ _
    | with_reducible exact nodyn_getIdent _
    | with_reducible exact nodyn_getXlator _
    | with_reducible exact nodyn_setStackdepth _
    | with_reducible exact nodyn_mov _ _ _
    | with_reducible exact nodyn_setx _ _ _
    | with_reducible exact nodyn_xsetx _ _ _ _ _
    | with_reducible exact nodyn_call _ _ _
    | with_reducible exact nodyn_append _
    | with_reducible exact nodyn_patch _ _
    | with_reducible exact nodyn_label
    | with_reducible exact nodyn_strtab_insert _
    | with_reducible exact nodyn_ptrsize _ _ _ _
    | apply nodyn_doIf
    | apply never_bind
    | intro _
    | split
    | dsimp only)

theorem nodyn_prearith_op (cfg : Cfg) {visit : Node → CG Int} (dnp : Node) (op : AluOp) (hv : ∀ n, Never Err.D_CG_DYN (visit n)) :
    Never Err.D_CG_DYN (dt_cg_prearith_op cfg visit dnp op) := by
  unfold dt_cg_prearith_op
  repeat (first
    | with_reducible exact hv _
    | with_reducible exact nodyn_pure _
    | (with_reducible apply nodyn_raise; decide)
    | with_reducible exact nodyn_get
    | with_reducible exact nodyn_modify _
    | (with_reducible apply nodyn_raiseIf; decide)
    | with_reducible exact nodyn_cassert _
    | with_reducible exact nodyn_deref _
    | (with_reducible apply nodyn_orRaise; decide)
    | with_reducible exact nodyn_alloc _
    | with_reducible exact nodyn_free _
    | with_reducible exact nodyn_modIdent _ _
    | with_reducible exact nodyn_getIdent _
    | with_reducible exact nodyn_getXlator _
    | with_reducible exact nodyn_setStackdepth _
    | with_reducible exact nodyn_mov _ _ _
    | with_reducible exact nodyn_setx _ _ _
    | with_reducible exact nodyn_xsetx _ _ _ _ _
    | with_reducible exact nodyn_call _ _ _
    | with_reducible exact nodyn_append _
    | with_reducible exact nodyn_patch _ _
    | with_reducible exact nodyn_label
    | with_reducible exact nodyn_strtab_insert _
    | with_reducible exact nodyn_arith_step _
    | with_reducible exact nodyn_stvar _ _
    | with_reducible exact nodyn_store _ _ _ _ _
    | apply nodyn_doIf
    | apply never_bind
    | intro _
    | split
    | dsimp only)

theorem nodyn_postarith_op (cfg : Cfg) {visit : Node → CG Int} (dnp : Node) (op : AluOp) (hv : ∀ n, Never Err.D_CG_DYN (visit n)) :
    Never Err.D_CG_DYN (dt_cg_postarith_op cfg visit dnp op) := by
  unfold dt_cg_postarith_op
  repeat (first
    | with_reducible exact hv _
    | with_reducible exact nodyn_pure _
    | (with_reducible apply nodyn_raise; decide)
    | with_reducible exact nodyn_get
    | with_reducible exact nodyn_modify _
    | (with_reducible apply nodyn_raiseIf; decide)
    | with_reducible exact nodyn_cassert _
    | with_reducible exact nodyn_deref _
    | (with_reducible apply nodyn_orRaise; decide)
    | with_reducible exact nodyn_alloc _
    | with_reducible exact nodyn_free _
    | with_reducible exact nodyn_modIdent _ _
    | with_reducible exact nodyn_getIdent _
    | with_reducible exact nodyn_getXlator _
    | with_reducible exact nodyn_setStackdepth _
    | with_reducible exact nodyn_mov _ _ _
    | with_reducible exact nodyn_setx _ _ _
    | with_reducible exact nodyn_xsetx _ _ _ _ _
    | with_reducible exact nodyn_call _ _ _
    | with_reducible exact nodyn_append _
    | with_reducible exact nodyn_patch _ _
    | with_reducible exact nodyn_label
    | with_reducible exact nodyn_strtab_insert _
    | with_reducible exact nodyn_arith_step _
    | with_reducible exact nodyn_stvar _ _
    | with_reducible exact nodyn_store _ _ _ _ _
    | apply nodyn_doIf
    | apply never_bind
    | intro _
    | split
    | dsimp only)

theorem nodyn_compare_op (cfg : Cfg) {visit : Node → CG Int} (dnp : Node) (op : JmpOp) (hv : ∀ n, Never Err.D_CG_DYN (visit n)) :
    Never Err.D_CG_DYN (dt_cg_compare_op cfg visit dnp op) := by
  unfold dt_cg_compare_op
  repeat (first
    | with_reducible exact hv _
    | with_reducible exact nodyn_pure _
    | (with_reducible apply nodyn_raise; decide)
    | with_reducible exact nodyn_get
    | with_reducible exact nodyn_modify _
    | (with_reducible apply nodyn_raiseIf; decide)
    | with_reducible exact nodyn_cassert _
    | with_reducible exact nodyn_deref _
    | (with_reducible apply nodyn_orRaise; decide)
    | with_reducible exact nodyn_alloc _
    | with_reducible exact nodyn_free _
    | with_reducible exact nodyn_modIdent _ _
    | with_reducible exact nodyn_getIdent _
    | with_reducible exact nodyn_getXlator _
    | with_reducible exact nodyn_setStackdepth _
    | with_reducible exact nodyn_mov _ _ _
    | with_reducible exact nodyn_setx _ _ _
    | with_reducible exact nodyn_xsetx _ _ _ _ _
    | with_reducible exact nodyn_call _ _ _
    | with_reducible exact nodyn_append _
    | with_reducible exact nodyn_patch _ _
    | with_reducible exact nodyn_label
    | with_reducible exact nodyn_strtab_insert _
    | apply nodyn_doIf
    | apply never_bind
    | intro _
    | split
    | dsimp only)

theorem nodyn_ternary_op {visit : Node → CG Int} (dnp : Node) (hv : ∀ n, Never Err.D_CG_DYN (visit n)) :
    Never Err.D_CG_DYN (dt_cg_ternary_op visit dnp) := by
  unfold dt_cg_ternary_op
  repeat (first
    | with_reducible exact hv _
    | with_reducible exact nodyn_pure _
    | (with_reducible apply nodyn_raise; decide)
    | with_reducible exact nodyn_get
    | with_reducible exact nodyn_modify _
    | (with_reducible apply nodyn_raiseIf; decide)
    | with_reducible exact nodyn_cassert _
    | with_reducible exact nodyn_deref _
    | (with_reducible apply nodyn_orRaise; decide)
    | with_reducible exact nodyn_alloc _
    | with_reducible exact nodyn_free _
    | with_reducible exact nodyn_modIdent _ _
    | with_reducible exact nodyn_getIdent _
    | with_reducible exact nodyn_getXlator _
    | with_reducible exact nodyn_setStackdepth _
    | with_reducible exact nodyn_mov _ _ _
    | with_reducible exact nodyn_setx _ _ _
    | with_reducible exact nodyn_xsetx _ _ _ _ _
    | with_reducible exact nodyn_call _ _ _
    | with_reducible exact nodyn_append _
    | with_reducible exact nodyn_patch _ _
    | with_reducible exact nodyn_label
    | with_reducible exact nodyn_strtab_insert _
    | apply nodyn_doIf
    | apply never_bind
    | intro _
    | split
    | dsimp only)

theorem nodyn_logical_and (cfg : Cfg) {visit : Node → CG Int} (dnp : Node) (hv : ∀ n, Never Err.D_CG_DYN (visit n)) :
    Never Err.D_CG_DYN (dt_cg_logical_and cfg visit dnp) := by
  unfold dt_cg_logical_and
  repeat (first
    | with_reducible exact hv _
    | with_reducible exact nodyn_pure _
    | (with_reducible apply nodyn_raise; decide)
    | with_reducible exact nodyn_get
    | with_reducible exact nodyn_modify _
    | (with_reducible apply nodyn_raiseIf; decide)
    | with_reducible exact nodyn_cassert _
    | with_reducible exact nodyn_deref _
    | (with_reducible apply nodyn_orRaise; decide)
    | with_reducible exact nodyn_alloc _
    | with_reducible exact nodyn_free _
    | with_reducible exact nodyn_modIdent _ _
    | with_reducible exact nodyn_getIdent _
    | with_reducible exact nodyn_getXlator _
    | with_reducible exact nodyn_setStackdepth _
    | with_reducible exact nodyn_mov _ _ _
    | with_reducible exact nodyn_setx _ _ _
    | with_reducible exact nodyn_xsetx _ _ _ _ _
    | with_reducible exact nodyn_call _ _ _
    | with_reducible exact nodyn_append _
    | with_reducible exact nodyn_patch _ _
    | with_reducible exact nodyn_label
    | with_reducible exact nodyn_strtab_insert _
    | apply nodyn_doIf
    | apply never_bind
    | intro _
    | split
    | dsimp only)

theorem nodyn_logical_xor (cfg : Cfg) {visit : Node → CG Int} (dnp : Node) (hv : ∀ n, Never Err.D_CG_DYN (visit n)) :
    Never Err.D_CG_DYN (dt_cg_logical_xor cfg visit dnp) := by
  unfold dt_cg_logical_xor
  repeat (first
    | with_reducible exact hv _
    | with_reducible exact nodyn_pure _
    | (with_reducible apply nodyn_raise; decide)
    | with_reducible exact nodyn_get
    | with_reducible exact nodyn_modify _
    | (with_reducible apply nodyn_raiseIf; decide)
    | with_reducible exact nodyn_cassert _
    | with_reducible exact nodyn_deref _
    | (with_reducible apply nodyn_orRaise; decide)
    | with_reducible exact nodyn_alloc _
    | with_reducible exact nodyn_free _
    | with_reducible exact nodyn_modIdent _ _
    | with_reducible exact nodyn_getIdent _
    | with_reducible exact nodyn_getXlator _
    | with_reducible exact nodyn_setStackdepth _
    | with_reducible exact nodyn_mov _ _ _
    | with_reducible exact nodyn_setx _ _ _
    | with_reducible exact nodyn_xsetx _ _ _ _ _
    | with_reducible exact nodyn_call _ _ _
    | with_reducible exact nodyn_append _
    | with_reducible exact nodyn_patch _ _
    | with_reducible exact nodyn_label
    | with_reducible exact nodyn_strtab_insert _
    | apply nodyn_doIf
    | apply never_bind
    | intro _
    | split
    | dsimp only)

theorem nodyn_logical_or (cfg : Cfg) {visit : Node → CG Int} (dnp : Node) (hv : ∀ n, Never Err.D_CG_DYN (visit n)) :
    Never Err.D_CG_DYN (dt_cg_logical_or cfg visit dnp) := by
  unfold dt_cg_logical_or
  repeat (first
    | with_reducible exact hv _
    | with_reducible exact nodyn_pure _
    | (with_reducible apply nodyn_raise; decide)
    | with_reducible exact nodyn_get
    | with_reducible exact nodyn_modify _
    | (with_reducible apply nodyn_raiseIf; decide)
    | with_reducible exact nodyn_cassert _
    | with_reducible exact nodyn_deref _
    | (with_reducible apply nodyn_orRaise; decide)
    | with_reducible exact nodyn_alloc _
    | with_reducible exact nodyn_free _
    | with_reducible exact nodyn_modIdent _ _
    | with_reducible exact nodyn_getIdent _
    | with_reducible exact nodyn_getXlator _
    | with_reducible exact nodyn_setStackdepth _
    | with_reducible exact nodyn_mov _ _ _
    | with_reducible exact nodyn_setx _ _ _
    | with_reducible exact nodyn_xsetx _ _ _ _ _
    | with_reducible exact nodyn_call _ _ _
    | with_reducible exact nodyn_append _
    | with_reducible exact nodyn_patch _ _
    | with_reducible exact nodyn_label
    | with_reducible exact nodyn_strtab_insert _
    | apply nodyn_doIf
    | apply never_bind
    | intro _
    | split
    | dsimp only)

theorem nodyn_logical_neg (cfg : Cfg) {visit : Node → CG Int} (dnp : Node) (hv : ∀ n, Never Err.D_CG_DYN (visit n)) :
    Never Err.D_CG_DYN (dt_cg_logical_neg cfg visit dnp) := by
  unfold dt_cg_logical_neg
  repeat (first
    | with_reducible exact hv _
    | with_reducible exact nodyn_pure _
    | (with_reducible apply nodyn_raise; decide)
    | with_reducible exact nodyn_get
    | with_reducible exact nodyn_modify _
    | (with_reducible apply nodyn_raiseIf; decide)
    | with_reducible exact nodyn_cassert _
    | with_reducible exact nodyn_deref _
    | (with_reducible apply nodyn_orRaise; decide)
    | with_reducible exact nodyn_alloc _
    | with_reducible exact nodyn_free _
    | with_reducible exact nodyn_modIdent _ _
    | with_reducible exact nodyn_getIdent _
    | with_reducible exact nodyn_getXlator _
    | with_reducible exact nodyn_setStackdepth _
    | with_reducible exact nodyn_mov _ _ _
    | with_reducible exact nodyn_setx _ _ _
    | with_reducible exact nodyn_xsetx _ _ _ _ _
    | with_reducible exact nodyn_call _ _ _
    | with_reducible exact nodyn_append _
    | with_reducible exact nodyn_patch _ _
    | with_reducible exact nodyn_label
    | with_reducible exact nodyn_strtab_insert _
    | apply nodyn_doIf
    | apply never_bind
    | intro _
    | split
    | dsimp only)

theorem nodyn_asgn_members (cfg : Cfg) {visit : Node → CG Int} (r1 : Int)
    (l : List Node) (hv : ∀ n, Never Err.D_CG_DYN (visit n)) :
    Never Err.D_CG_DYN (dt_cg_asgn_members cfg visit r1 l) := by
  induction l with
  | nil => exact nodyn_pure _
  | cons mnp rest ih =>
    unfold dt_cg_asgn_members
    repeat (first
      | with_reducible exact hv _
      | with_reducible exact nodyn_pure _
      | (with_reducible apply nodyn_raise; decide)
      | with_reducible exact nodyn_get
      | with_reducible exact nodyn_modify _
      | (with_reducible apply nodyn_raiseIf; decide)
      | with_reducible exact nodyn_cassert _
      | with_reducible exact nodyn_deref _
      | (with_reducible apply nodyn_orRaise; decide)
      | with_reducible exact nodyn_alloc _
      | with_reducible exact nodyn_free _
      | with_reducible exact nodyn_modIdent _ _
      | with_reducible exact nodyn_getIdent _
      | with_reducible exact nodyn_getXlator _
      | with_reducible exact nodyn_setStackdepth _
      | with_reducible exact nodyn_mov _ _ _
      | with_reducible exact nodyn_setx _ _ _
      | with_reducible exact nodyn_xsetx _ _ _ _ _
      | with_reducible exact nodyn_call _ _ _
      | with_reducible exact nodyn_append _
      | with_reducible exact nodyn_patch _ _
      | with_reducible exact nodyn_label
      | with_reducible exact nodyn_strtab_insert _
      | with_reducible exact ih
      | with_reducible exact nodyn_typecast _ _ _ _
      | with_reducible exact nodyn_store _ _ _ _ _
      | apply nodyn_doIf
      | apply never_bind
      | intro _
      | split
      | dsimp only)

theorem nodyn_asgn_op (cfg : Cfg) {visit : Node → CG Int} (dnp : Node) (a b : Int) (hv : ∀ n, Never Err.D_CG_DYN (visit n)) :
    Never Err.D_CG_DYN (dt_cg_asgn_op cfg visit dnp a b) := by
  unfold dt_cg_asgn_op
  repeat (first
    | with_reducible exact hv _
    | with_reducible exact nodyn_pure _
    | (with_reducible apply nodyn_raise; decide)
    | with_reducible exact nodyn_get
    | with_reducible exact nodyn_modify _
    | (with_reducible apply nodyn_raiseIf; decide)
    | with_reducible exact nodyn_cassert _
    | with_reducible exact nodyn_deref _
    | (with_reducible apply nodyn_orRaise; decide)
    | with_reducible exact nodyn_alloc _
    | with_reducible exact nodyn_free _
    | with_reducible exact nodyn_modIdent _ _
    | with_reducible exact nodyn_getIdent _
    | with_reducible exact nodyn_getXlator _
    | with_reducible exact nodyn_setStackdepth _
    | with_reducible exact nodyn_mov _ _ _
    | with_reducible exact nodyn_setx _ _ _
    | with_reducible exact nodyn_xsetx _ _ _ _ _
    | with_reducible exact nodyn_call _ _ _
    | with_reducible exact nodyn_append _
    | with_reducible exact nodyn_patch _ _
    | with_reducible exact nodyn_label
    | with_reducible exact nodyn_strtab_insert _
    | with_reducible exact nodyn_asgn_members _ _ _ hv
    | with_reducible exact nodyn_stvar _ _
    | with_reducible exact nodyn_store _ _ _ _ _
    | with_reducible exact nodyn_arglist _ _ _ hv
    | apply nodyn_doIf
    | apply never_bind
    | intro _
    | split
    | dsimp only)

theorem nodyn_assoc_ref (cfg : Cfg) (dnp : Node) (r : Int) (op : Nat) :
    Never Err.D_CG_DYN (dt_cg_assoc_ref cfg dnp r op) := by
  unfold dt_cg_assoc_ref
  repeat (first
    | with_reducible exact nodyn_pure _
    | (with_reducible apply nodyn_raise; decide)
    | with_reducible exact nodyn_get
    | with_reducible exact nodyn_modify _
    | (with_reducible apply nodyn_raiseIf; decide)
    | with_reducible exact nodyn_cassert _
    | with_reducible exact nodyn_deref _
    | (with_reducible apply nodyn_orRaise; decide)
    | with_reducible exact nodyn_alloc _
    | with_reducible exact nodyn_free _
    | with_reducible exact nodyn_modIdent _ _
    | with_reducible exact nodyn_getIdent _
    | with_reducible exact nodyn_getXlator _
    | with_reducible exact nodyn_setStackdepth _
    | with_reducible exact nodyn_mov _ _ _
    | with_reducible exact nodyn_setx _ _ _
    | with_reducible exact nodyn_xsetx _ _ _ _ _
    | with_reducible exact nodyn_call _ _ _
    | with_reducible exact nodyn_append _
    | with_reducible exact nodyn_patch _ _
    | with_reducible exact nodyn_label
    | with_reducible exact nodyn_strtab_insert _
    | apply nodyn_doIf
    | apply never_bind
    | intro _
    | split
    | dsimp only)

theorem nodyn_assoc_op (cfg : Cfg) {visit : Node → CG Int} (dnp : Node) (hv : ∀ n, Never Err.D_CG_DYN (visit n)) :
    Never Err.D_CG_DYN (dt_cg_assoc_op cfg visit dnp) := by
  unfold dt_cg_assoc_op
  repeat (first
    | with_reducible exact hv _
    | with_reducible exact nodyn_pure _
    | (with_reducible apply nodyn_raise; decide)
    | with_reducible exact nodyn_get
    | with_reducible exact nodyn_modify _
    | (with_reducible apply nodyn_raiseIf; decide)
    | with_reducible exact nodyn_cassert _
    | with_reducible exact nodyn_deref _
    | (with_reducible apply nodyn_orRaise; decide)
    | with_reducible exact nodyn_alloc _
    | with_reducible exact nodyn_free _
    | with_reducible exact nodyn_modIdent _ _
    | with_reducible exact nodyn_getIdent _
    | with_reducible exact nodyn_getXlator _
    | with_reducible exact nodyn_setStackdepth _
    | with_reducible exact nodyn_mov _ _ _
    | with_reducible exact nodyn_setx _ _ _
    | with_reducible exact nodyn_xsetx _ _ _ _ _
    | with_reducible exact nodyn_call _ _ _
    | with_reducible exact nodyn_append _
    | with_reducible exact nodyn_patch _ _
    | with_reducible exact nodyn_label
    | with_reducible exact nodyn_strtab_insert _
    | with_reducible exact nodyn_arglist _ _ _ hv
    | with_reducible exact nodyn_assoc_ref _ _ _ _
    | apply nodyn_doIf
    | apply never_bind
    | intro _
    | split
    | dsimp only)

theorem nodyn_array_op (cfg : Cfg) {visit : Node → CG Int} (dnp : Node) (hv : ∀ n, Never Err.D_CG_DYN (visit n)) :
    Never Err.D_CG_DYN (dt_cg_array_op cfg visit dnp) := by
  unfold dt_cg_array_op
  repeat (first
    | with_reducible exact hv _
    | with_reducible exact nodyn_pure _
    | (with_reducible apply nodyn_raise; decide)
    | with_reducible exact nodyn_get
    | with_reducible exact nodyn_modify _
    | (with_reducible apply nodyn_raiseIf; decide)
    | with_reducible exact nodyn_cassert _
    | with_reducible exact nodyn_deref _
    | (with_reducible apply nodyn_orRaise; decide)
    | with_reducible exact nodyn_alloc _
    | with_reducible exact nodyn_free _
    | with_reducible exact nodyn_modIdent _ _
    | with_reducible exact nodyn_getIdent _
    | with_reducible exact nodyn_getXlator _
    | with_reducible exact nodyn_setStackdepth _
    | with_reducible exact nodyn_mov _ _ _
    | with_reducible exact nodyn_setx _ _ _
    | with_reducible exact nodyn_xsetx _ _ _ _ _
    | with_reducible exact nodyn_call _ _ _
    | with_reducible exact nodyn_append _
    | with_reducible exact nodyn_patch _ _
    | with_reducible exact nodyn_label
    | with_reducible exact nodyn_strtab_insert _
    | with_reducible exact nodyn_arglist _ _ _ hv
    | apply nodyn_doIf
    | apply never_bind
    | intro _
    | split
    | dsimp only)

theorem nodyn_inline_bind (argv : List (Option Nat)) (l : List Node) (i : Nat) :
    Never Err.D_CG_DYN (dt_cg_inline_bind argv l i) := by
  induction l generalizing i with
  | nil => exact nodyn_pure _
  | cons pnp rest ih =>
    unfold dt_cg_inline_bind
    refine never_bind (nodyn_deref _) fun a => never_bind ?_ fun _ => ih _
    cases a with
    | none => exact nodyn_pure _
    | some ix => exact nodyn_modIdent _ _

theorem nodyn_inline_unbind (argv : List (Option Nat)) (l : List Nat) :
    Never Err.D_CG_DYN (dt_cg_inline_unbind argv l) := by
  induction l with
  | nil => exact nodyn_pure _
  | cons i rest ih =>
    unfold dt_cg_inline_unbind
    exact never_bind (nodyn_deref _) fun a => never_bind (nodyn_deref _) fun _ =>
      never_bind (nodyn_modIdent _ _) fun _ => ih

theorem nodyn_inline {visit : Node → CG Int} (dnp : Node) (hv : ∀ n, Never Err.D_CG_DYN (visit n)) :
    Never Err.D_CG_DYN (dt_cg_inline visit dnp) := by
  unfold dt_cg_inline
  repeat (first
    | with_reducible exact hv _
    | with_reducible exact nodyn_pure _
    | (with_reducible apply nodyn_raise; decide)
    | with_reducible exact nodyn_get
    | with_reducible exact nodyn_modify _
    | (with_reducible apply nodyn_raiseIf; decide)
    | with_reducible exact nodyn_cassert _
    | with_reducible exact nodyn_deref _
    | (with_reducible apply nodyn_orRaise; decide)
    | with_reducible exact nodyn_alloc _
    | with_reducible exact nodyn_free _
    | with_reducible exact nodyn_modIdent _ _
    | with_reducible exact nodyn_getIdent _
    | with_reducible exact nodyn_getXlator _
    | with_reducible exact nodyn_setStackdepth _
    | with_reducible exact nodyn_mov _ _ _
    | with_reducible exact nodyn_setx _ _ _
    | with_reducible exact nodyn_xsetx _ _ _ _ _
    | with_reducible exact nodyn_call _ _ _
    | with_reducible exact nodyn_append _
    | with_reducible exact nodyn_patch _ _
    | with_reducible exact nodyn_label
    | with_reducible exact nodyn_strtab_insert _
    | with_reducible exact nodyn_inline_bind _ _ _
    | with_reducible exact nodyn_inline_unbind _ _
    | with_reducible exact nodyn_typecast _ _ _ _
    | apply nodyn_doIf
    | apply never_bind
    | intro _
    | split
    | dsimp only)

theorem nodyn_op_asgn (cfg : Cfg) {visit : Node → CG Int} (dnp : Node) (op : AluOp) (hv : ∀ n, Never Err.D_CG_DYN (visit n)) :
    Never Err.D_CG_DYN (dt_cg_op_asgn cfg visit dnp op) := by
  unfold dt_cg_op_asgn
  repeat (first
    | with_reducible exact hv _
    | with_reducible exact nodyn_pure _
    | (with_reducible apply nodyn_raise; decide)
    | with_reducible exact nodyn_get
    | with_reducible exact nodyn_modify _
    | (with_reducible apply nodyn_raiseIf; decide)
    | with_reducible exact nodyn_cassert _
    | with_reducible exact nodyn_deref _
    | (with_reducible apply nodyn_orRaise; decide)
    | with_reducible exact nodyn_alloc _
    | with_reducible exact nodyn_free _
    | with_reducible exact nodyn_modIdent _ _
    | with_reducible exact nodyn_getIdent _
    | with_reducible exact nodyn_getXlator _
    | with_reducible exact nodyn_setStackdepth _
    | with_reducible exact nodyn_mov _ _ _
    | with_reducible exact nodyn_setx _ _ _
    | with_reducible exact nodyn_xsetx _ _ _ _ _
    | with_reducible exact nodyn_call _ _ _
    | with_reducible exact nodyn_append _
    | with_reducible exact nodyn_patch _ _
    | with_reducible exact nodyn_label
    | with_reducible exact nodyn_strtab_insert _
    | with_reducible exact nodyn_arithmetic_op _ _ _ hv
    | with_reducible exact nodyn_asgn_op _ _ _ _ hv
    | apply nodyn_doIf
    | apply never_bind
    | intro _
    | split
    | dsimp only)

theorem nodyn_op_arith (cfg : Cfg) {visit : Node → CG Int} (dnp : Node) (op : AluOp) (hv : ∀ n, Never Err.D_CG_DYN (visit n)) :
    Never Err.D_CG_DYN (dt_cg_op_arith cfg visit dnp op) := by
  unfold dt_cg_op_arith
  repeat (first
    | with_reducible exact hv _
    | with_reducible exact nodyn_pure _
    | (with_reducible apply nodyn_raise; decide)
    | with_reducible exact nodyn_get
    | with_reducible exact nodyn_modify _
    | (with_reducible apply nodyn_raiseIf; decide)
    | with_reducible exact nodyn_cassert _
    | with_reducible exact nodyn_deref _
    | (with_reducible apply nodyn_orRaise; decide)
    | with_reducible exact nodyn_alloc _
    | with_reducible exact nodyn_free _
    | with_reducible exact nodyn_modIdent _ _
    | with_reducible exact nodyn_getIdent _
    | with_reducible exact nodyn_getXlator _
    | with_reducible exact nodyn_setStackdepth _
    | with_reducible exact nodyn_mov _ _ _
    | with_reducible exact nodyn_setx _ _ _
    | with_reducible exact nodyn_xsetx _ _ _ _ _
    | with_reducible exact nodyn_call _ _ _
    | with_reducible exact nodyn_append _
    | with_reducible exact nodyn_patch _ _
    | with_reducible exact nodyn_label
    | with_reducible exact nodyn_strtab_insert _
    | with_reducible exact nodyn_arithmetic_op _ _ _ hv
    | apply nodyn_doIf
    | apply never_bind
    | intro _
    | split
    | dsimp only)

theorem nodyn_op_compare (cfg : Cfg) {visit : Node → CG Int} (dnp : Node) (a b : JmpOp) (hv : ∀ n, Never Err.D_CG_DYN (visit n)) :
    Never Err.D_CG_DYN (dt_cg_op_compare cfg visit dnp a b) := by
  unfold dt_cg_op_compare
  repeat (first
    | with_reducible exact hv _
    | with_reducible exact nodyn_pure _
    | (with_reducible apply nodyn_raise; decide)
    | with_reducible exact nodyn_get
    | with_reducible exact nodyn_modify _
    | (with_reducible apply nodyn_raiseIf; decide)
    | with_reducible exact nodyn_cassert _
    | with_reducible exact nodyn_deref _
    | (with_reducible apply nodyn_orRaise; decide)
    | with_reducible exact nodyn_alloc _
    | with_reducible exact nodyn_free _
    | with_reducible exact nodyn_modIdent _ _
    | with_reducible exact nodyn_getIdent _
    | with_reducible exact nodyn_getXlator _
    | with_reducible exact nodyn_setStackdepth _
    | with_reducible exact nodyn_mov _ _ _
    | with_reducible exact nodyn_setx _ _ _
    | with_reducible exact nodyn_xsetx _ _ _ _ _
    | with_reducible exact nodyn_call _ _ _
    | with_reducible exact nodyn_append _
    | with_reducible exact nodyn_patch _ _
    | with_reducible exact nodyn_label
    | with_reducible exact nodyn_strtab_insert _
    | with_reducible exact nodyn_compare_signed _
    | with_reducible exact nodyn_compare_op _ _ _ hv
    | apply nodyn_doIf
    | apply never_bind
    | intro _
    | split
    | dsimp only)

theorem nodyn_member (cfg : Cfg) {visit : Node → CG Int} (dnp : Node) (hv : ∀ n, Never Err.D_CG_DYN (visit n)) :
    Never Err.D_CG_DYN (dt_cg_member cfg visit dnp) := by
  unfold dt_cg_member
  repeat (first
    | with_reducible exact hv _
    | with_reducible exact nodyn_pure _
    | (with_reducible apply nodyn_raise; decide)
    | with_reducible exact nodyn_get
    | with_reducible exact nodyn_modify _
    | (with_reducible apply nodyn_raiseIf; decide)
    | with_reducible exact nodyn_cassert _
    | with_reducible exact nodyn_deref _
    | (with_reducible apply nodyn_orRaise; decide)
    | with_reducible exact nodyn_alloc _
    | with_reducible exact nodyn_free _
    | with_reducible exact nodyn_modIdent _ _
    | with_reducible exact nodyn_getIdent _
    | with_reducible exact nodyn_getXlator _
    | with_reducible exact nodyn_setStackdepth _
    | with_reducible exact nodyn_mov _ _ _
    | with_reducible exact nodyn_setx _ _ _
    | with_reducible exact nodyn_xsetx _ _ _ _ _
    | with_reducible exact nodyn_call _ _ _
    | with_reducible exact nodyn_append _
    | with_reducible exact nodyn_patch _ _
    | with_reducible exact nodyn_label
    | with_reducible exact nodyn_strtab_insert _
    | with_reducible exact nodyn_typecast _ _ _ _
    | with_reducible exact nodyn_load _ _
    | with_reducible exact nodyn_field_get _ _ _ _
    | apply nodyn_doIf
    | apply never_bind
    | intro _
    | split
    | dsimp only)

theorem nodyn_ident (cfg : Cfg) {visit : Node → CG Int} (dnp : Node) (hv : ∀ n, Never Err.D_CG_DYN (visit n)) :
    Never Err.D_CG_DYN (dt_cg_ident cfg visit dnp) := by
  unfold dt_cg_ident
  repeat (first
    | with_reducible exact hv _
    | with_reducible exact nodyn_pure _
    | (with_reducible apply nodyn_raise; decide)
    | with_reducible exact nodyn_get
    | with_reducible exact nodyn_modify _
    | (with_reducible apply nodyn_raiseIf; decide)
    | with_reducible exact nodyn_cassert _
    | with_reducible exact nodyn_deref _
    | (with_reducible apply nodyn_orRaise; decide)
    | with_reducible exact nodyn_alloc _
    | with_reducible exact nodyn_free _
    | with_reducible exact nodyn_modIdent _ _
    | with_reducible exact nodyn_getIdent _
    | with_reducible exact nodyn_getXlator _
    | with_reducible exact nodyn_setStackdepth _
    | with_reducible exact nodyn_mov _ _ _
    | with_reducible exact nodyn_setx _ _ _
    | with_reducible exact nodyn_xsetx _ _ _ _ _
    | with_reducible exact nodyn_call _ _ _
    | with_reducible exact nodyn_append _
    | with_reducible exact nodyn_patch _ _
    | with_reducible exact nodyn_label
    | with_reducible exact nodyn_strtab_insert _
    | with_reducible exact nodyn_inline _ hv
    | with_reducible exact nodyn_array_op _ _ hv
    | with_reducible exact nodyn_assoc_op _ _ hv
    | with_reducible exact nodyn_load _ _
    | with_reducible exact nodyn_arglist _ _ _ hv
    | apply nodyn_doIf
    | apply never_bind
    | intro _
    | split
    | dsimp only)

theorem nodyn_child {visit : Node → CG Int} (dnp : Node) (hv : ∀ n, Never Err.D_CG_DYN (visit n)) :
    Never Err.D_CG_DYN (dt_cg_child visit dnp) := by
  unfold dt_cg_child
  repeat (first
    | with_reducible exact hv _
    | with_reducible exact nodyn_pure _
    | (with_reducible apply nodyn_raise; decide)
    | with_reducible exact nodyn_get
    | with_reducible exact nodyn_modify _
    | (with_reducible apply nodyn_raiseIf; decide)
    | with_reducible exact nodyn_cassert _
    | with_reducible exact nodyn_deref _
    | (with_reducible apply nodyn_orRaise; decide)
    | with_reducible exact nodyn_alloc _
    | with_reducible exact nodyn_free _
    | with_reducible exact nodyn_modIdent _ _
    | with_reducible exact nodyn_getIdent _
    | with_reducible exact nodyn_getXlator _
    | with_reducible exact nodyn_setStackdepth _
    | with_reducible exact nodyn_mov _ _ _
    | with_reducible exact nodyn_setx _ _ _
    | with_reducible exact nodyn_xsetx _ _ _ _ _
    | with_reducible exact nodyn_call _ _ _
    | with_reducible exact nodyn_append _
    | with_reducible exact nodyn_patch _ _
    | with_reducible exact nodyn_label
    | with_reducible exact nodyn_strtab_insert _
    | apply nodyn_doIf
    | apply never_bind
    | intro _
    | split
    | dsimp only)

theorem nodyn_node_body (cfg : Cfg) {visit : Node → CG Int} (dnp : Node) (hv : ∀ n, Never Err.D_CG_DYN (visit n)) :
    Never Err.D_CG_DYN (dt_cg_node_body cfg visit dnp) := by
  unfold dt_cg_node_body
  dsimp only
  generalize dnp.info.dn_op = t
  cases t <;> dsimp only <;> repeat (first
    | with_reducible exact hv _
    | with_reducible exact nodyn_pure _
    | (with_reducible apply nodyn_raise; decide)
    | with_reducible exact nodyn_get
    | with_reducible exact nodyn_modify _
    | (with_reducible apply nodyn_raiseIf; decide)
    | with_reducible exact nodyn_cassert _
    | with_reducible exact nodyn_deref _
    | (with_reducible apply nodyn_orRaise; decide)
    | with_reducible exact nodyn_alloc _
    | with_reducible exact nodyn_free _
    | with_reducible exact nodyn_modIdent _ _
    | with_reducible exact nodyn_getIdent _
    | with_reducible exact nodyn_getXlator _
    | with_reducible exact nodyn_setStackdepth _
    | with_reducible exact nodyn_mov _ _ _
    | with_reducible exact nodyn_setx _ _ _
    | with_reducible exact nodyn_xsetx _ _ _ _ _
    | with_reducible exact nodyn_call _ _ _
    | with_reducible exact nodyn_append _
    | with_reducible exact nodyn_patch _ _
    | with_reducible exact nodyn_label
    | with_reducible exact nodyn_strtab_insert _
    | with_reducible exact nodyn_op_asgn _ _ _ hv
    | with_reducible exact nodyn_op_arith _ _ _ hv
    | with_reducible exact nodyn_op_compare _ _ _ _ hv
    | with_reducible exact nodyn_compare_op _ _ _ hv
    | with_reducible exact nodyn_ternary_op _ hv
    | with_reducible exact nodyn_logical_and _ _ hv
    | with_reducible exact nodyn_logical_or _ _ hv
    | with_reducible exact nodyn_logical_xor _ _ hv
    | with_reducible exact nodyn_logical_neg _ _ hv
    | with_reducible exact nodyn_prearith_op _ _ _ hv
    | with_reducible exact nodyn_postarith_op _ _ _ hv
    | with_reducible exact nodyn_child _ hv
    | with_reducible exact nodyn_asgn_op _ _ _ _ hv
    | with_reducible exact nodyn_member _ _ hv
    | with_reducible exact nodyn_ident _ _ hv
    | with_reducible exact nodyn_typecast _ _ _ _
    | with_reducible exact nodyn_load _ _
    | apply nodyn_doIf
    | apply never_bind
    | intro _
    | split
    | dsimp only)

/-- The visitor never raises the DYN error, whatever the fuel. -/
theorem nodyn_node (cfg : Cfg) (fuel : Nat) :
    ∀ dnp, Never Err.D_CG_DYN (dt_cg_node cfg fuel dnp) := by
  induction fuel with
  | zero => intro dnp; exact nodyn_raise (by decide)
  | succ n ih => intro dnp; exact nodyn_node_body cfg dnp ih

/-! ## The driver's checks, identifiers, increments -/

/-- C21: in a context whose `pcb_dret` is NULL (the driver asserts it), `dt_cg`
raises the DYN error for every root whose type is dynamic, and the context it leaves
is the freshly reset one, with an empty instruction list and the label counter at 0;
for a root whose type is not dynamic it never raises DYN. -/
theorem C21_dynamic_root_rejected (cfg : Cfg) (fuel : Nat) (dnp : Node) (s : Pcb)
    (hret : s.pcb_dret = none) :
    (dnp.info.is_dynamic = true →
      ∃ s1, dt_cg cfg fuel dnp s = Res.err Err.D_CG_DYN s1 ∧ s1.pcb_ir = [] ∧
        s1.dl_label = 0 ∧ s1.pcb_regs = List.replicate cfg.difnregs false) ∧
    (dnp.info.is_dynamic = false →
      ∀ s1, dt_cg cfg fuel dnp s ≠ Res.err Err.D_CG_DYN s1) := by
  constructor
  · intro hd
    refine ⟨{ s with pcb_regs := List.replicate cfg.difnregs false, pcb_strtab := [],
                     pcb_ir := [], dl_label := 0, pcb_dret := some dnp }, ?_, rfl, rfl, rfl⟩
    simp only [dt_cg, dt_cg_reset, bind, CG.andThen, CG.modify, CG.get, cassert, hret,
      Option.isNone_none, if_true, pure, CG.ret, raiseIf, hd, CG.raise]
  · intro hd
    have hn : Never Err.D_CG_DYN (dt_cg cfg fuel dnp) := by
      unfold dt_cg
      refine never_bind (nodyn_modify _) fun _ => never_bind nodyn_get fun _ =>
        never_bind (nodyn_cassert _) fun _ => never_bind (nodyn_modify _) fun _ =>
        never_bind ?_ fun _ => never_bind ?_ fun _ => never_bind (nodyn_node cfg fuel _) fun _ =>
        never_bind (nodyn_free _) fun _ => never_bind (nodyn_append _) fun _ =>
        nodyn_doIf _ ?_
      · unfold raiseIf
        simp only [hd, Bool.false_eq_true, if_false]
        exact nodyn_pure _
      · split
        · exact never_bind (nodyn_getXlator _) fun _ => never_bind (nodyn_deref _) fun _ =>
            never_bind (nodyn_modIdent _ _) fun _ => never_bind (nodyn_alloc _) fun _ =>
            never_bind (nodyn_modIdent _ _) fun _ => nodyn_pure _
        · exact nodyn_pure _
      · exact never_bind (nodyn_deref _) fun _ => never_bind (nodyn_getIdent _) fun _ =>
          never_bind (nodyn_free _) fun _ => nodyn_modIdent _ _
    exact hn.no_raise s

/-- Witness of C21: the literal `7` typed as dynamic is rejected with an empty list;
the plain literal `7` does not raise DYN. -/
theorem C21_dynamic_root_rejected_witness :
    (∃ s1, dt_cg target0 1 dyn_lit7 pcb24 = Res.err Err.D_CG_DYN s1 ∧ s1.pcb_ir = [] ∧
        s1.dl_label = 0 ∧ s1.pcb_regs = List.replicate target0.difnregs false) ∧
    (∀ s1, dt_cg target0 1 lit7 pcb24 ≠ Res.err Err.D_CG_DYN s1) :=
  ⟨(C21_dynamic_root_rejected target0 1 dyn_lit7 pcb24 rfl).1 rfl,
   (C21_dynamic_root_rejected target0 1 lit7 pcb24 rfl).2 rfl⟩

/-- A function-call node never makes the visitor return: its arm ends in
`dt_cg_call`. -/
theorem func_node_never_returns (cfg : Cfg) (fuel : Nat) (dnp : Node) (s : Pcb) (r : Int)
    (s1 : Pcb) (hop : dnp.info.dn_op = Tok.IDENT) (hk : dnp.info.dn_kind = Kind.FUNC) :
    dt_cg_node cfg fuel dnp s ≠ Res.ok r s1 := by
  intro h
  cases fuel with
  | zero => cases h
  | succ n =>
    have hb : dt_cg_node cfg (n + 1) dnp = dt_cg_node_body cfg (dt_cg_node cfg n) dnp := rfl
    rw [hb] at h
    unfold dt_cg_node_body at h
    simp only [hop] at h
    unfold dt_cg_ident at h
    simp only [hk] at h
    obtain ⟨_, sx, hx, h⟩ := bind_ok_inv h
    cases hx
    simp only [Bool.false_eq_true, if_false] at h
    obtain ⟨_, sx, hx, h⟩ := bind_ok_inv h
    cases hx
    simp only [Bool.false_eq_true, if_false] at h
    obtain ⟨_, sx, hx, h⟩ := bind_ok_inv h
    obtain ⟨_, sx, hx, h⟩ := bind_ok_inv h
    obtain ⟨_, sx, hx, h⟩ := bind_ok_inv h
    obtain ⟨_, sx, hx, h⟩ := bind_ok_inv h
    obtain ⟨_, sx, hx, h⟩ := bind_ok_inv h
    exact neverOk_call _ _ _ _ _ _ hx

/-- C22 (the code at the failing input): the call `f(7)` of a function identifier.
The arm hands `dt_cg_call` the node pointer in the position of the helper id (65536
on the concrete target, outside the helper range), so after the three words of the
argument list the run ends in `EDT_INVALIDBPFHELPER` at the range test: nothing is
marshalled, no `CALL` is emitted, and the stack depth stays at the 16 the argument
list reserved. For no function-call node, target, fuel and context does the visitor
return, so no result register is ever published. -/
theorem C22_function_call_never_publishes :
    target0.node_addr func_call = 65536 ∧
    (dt_cg_node target0 4 func_call pcbFunc).error? = some Err.EDT_INVALIDBPFHELPER ∧
    (dt_cg_node target0 4 func_call pcbFunc).instrs =
      [Insn.MOV32_IMM 9 7, Insn.STX_MEM BPF_DW 10 9 0, Insn.STX_MEM BPF_DW 10 0 (-8)] ∧
    (dt_cg_node target0 4 func_call pcbFunc).state.pcb_stackdepth = 16 ∧
    (∀ (cfg : Cfg) (fuel : Nat) (dnp : Node) (s : Pcb) (r : Int) (s1 : Pcb),
      dnp.info.dn_op = Tok.IDENT → dnp.info.dn_kind = Kind.FUNC →
      dt_cg_node cfg fuel dnp s ≠ Res.ok r s1) := by
  refine ⟨rfl, by decide, by decide, by decide, fun cfg fuel dnp s r s1 h1 h2 =>
    func_node_never_returns cfg fuel dnp s r s1 h1 h2⟩

/-- C23 (the code at the failing input): a translator body whose member expression is
the input variable. The driver stashes register 9 for the input, and the variable
node loads the number 9 into the fresh register 8 with `MOV32_IMM 8 9`: run on a
machine whose register 9 holds 1234, register 8 ends as 9, not 1234. -/
theorem C23_stashed_register_number_loaded :
    (dt_cg target0 3 xl_body_input pcbBody).error? = none ∧
    (dt_cg target0 3 xl_body_input pcbBody).instrs = [Insn.MOV32_IMM 8 9, Insn.EXIT] ∧
    (Vm.exec (dt_cg target0 3 xl_body_input pcbBody).instrs vmInput).reg 8 = 9 ∧
    vmInput.reg 9 = 1234 := by
  refine ⟨by decide, by decide, by decide, by decide⟩

/-- C24 (the code at the failing input): the post-decrement `(*(int *)1000)--` on a
machine whose integer at 1000 is 5. The emitted update is `ALU64_REG SUB 8 9`, step
minus old value, so the value stored is `1 - 5` (4294967292 as 4 bytes), not 4; the
result register 9 holds the old value 5. The post-increment stores 6 and the
pre-decrement stores 4 and returns 4. For a variable, `x--`, the visitor raises
while reading the variable and emits nothing. -/
theorem C24_post_decrement_stores_step_minus_old :
    (dt_cg_node target0 5 postdec_mem pcbFree).value? = some 9 ∧
    (dt_cg_node target0 5 postdec_mem pcbFree).instrs =
      [Insn.MOV32_IMM 9 1000, Insn.LDX_MEM BPF_W 9 9 0, Insn.MOV32_IMM 8 1,
       Insn.ALU64_REG AluOp.SUB 8 9, Insn.MOV32_IMM 7 1000, Insn.STX_MEM BPF_W 7 8 0] ∧
    (Vm.exec (dt_cg_node target0 5 postdec_mem pcbFree).instrs vmInt5).load 1000 4
      = 4294967292 ∧
    (Vm.exec (dt_cg_node target0 5 postdec_mem pcbFree).instrs vmInt5).reg 9 = 5 ∧
    (Vm.exec (dt_cg_node target0 5 postinc_mem pcbFree).instrs vmInt5).load 1000 4 = 6 ∧
    (Vm.exec (dt_cg_node target0 5 predec_mem pcbFree).instrs vmInt5).load 1000 4 = 4 ∧
    (Vm.exec (dt_cg_node target0 5 predec_mem pcbFree).instrs vmInt5).reg 9 = 4 ∧
    (dt_cg_node target0 5 postdec_var pcbGlobals).error? = some Err.UNDEFINED ∧
    (dt_cg_node target0 5 postdec_var pcbGlobals).instrs = [] := by
  refine ⟨by decide, by decide, by decide, by decide, by decide, by decide, by decide,
    by decide, by decide⟩

/-- C25 (the code at the failing input): the literal 4294967295, which fits in 32
bits, compiles to the two words of a 64-bit immediate load and the exit, three
instructions; the literal 4294967294 compiles to `MOV32_IMM; EXIT`. -/
theorem C25_literal_uint_max_three_instructions :
    (dt_cg target0 1 (lit 4294967295) {}).instrs =
      [Insn.LD_IMM64_LO 9 4294967295, Insn.LD_IMM64_HI 0, Insn.EXIT] ∧
    (dt_cg target0 1 (lit 4294967294) {}).instrs = [Insn.MOV32_IMM 9 4294967294, Insn.EXIT] ∧
    (dt_cg target0 1 (lit 7) {}).instrs = [Insn.MOV32_IMM 9 7, Insn.EXIT] := by
  refine ⟨by decide, by decide, by decide⟩

/-- C26 (the code at the failing input): for the root `a + b` of two global scalars
the driver raises while reading `a` and emits no instruction: the arm reads the id
through a pointer that was never assigned, and the call of `dtrace_get_global` with
the id of `a` raises as well, before any `CALL`. -/
theorem C26_global_sum_emits_nothing :
    (dt_cg target0 3 add_globals pcbGlobals).error? = some Err.UNDEFINED ∧
    (dt_cg target0 3 add_globals pcbGlobals).instrs = [] ∧
    (dt_cg_call target0 (BPF_FUNC_dtrace_get_global target0) [1280] pcbGlobals).error? =
      some Err.UNDEFINED ∧
    (dt_cg_call target0 (BPF_FUNC_dtrace_get_global target0) [1280] pcbGlobals).instrs = [] := by
  refine ⟨by decide, by decide, by decide, by decide⟩

/-! ## Comparisons, stores and helper calls -/

/-- A successful labelled load of the constant 1 appends one labelled move. -/
theorem xsetx_one_ok (cfg : Cfg) (l : Nat) (reg : Int) (s s1 : Pcb)
    (h : dt_cg_xsetx cfg none (some l) reg 1 s = Res.ok () s1) :
    s1 = { s with pcb_ir := s.pcb_ir ++
      [dt_cg_node_alloc_labelled (some l) (BPF_MOV32_IMM reg 1)] } := by
  unfold dt_cg_xsetx at h
  by_cases hi : cfg.intoff = -1
  · simp [raiseIf, hi, bind, CG.andThen, CG.raise] at h
  · simp [raiseIf, hi, bind, CG.andThen, pure, CG.ret, dt_irlist_append, CG.modify] at h
    exact h.symm

/-- C27: for a `<` node whose operands are arithmetic, not strings, and promote to a
signed type, a run of the visitor that returns the register `x` has minted the two
labels `L = dl_label` and `L + 1`, emitted the left operand's code (result in `x`)
and the right operand's code (result in `y`), and then exactly: `ALU64_SUB x, y`;
`JSLT x, 0, L`; `MOV32_IMM x, 0`; `JA L + 1`; `MOV32_IMM x, 1` carrying label `L`;
`NOP` carrying label `L + 1`. -/
theorem C27_signed_less_than_sequence (cfg : Cfg) (fuel : Nat) (dnp left right : Node)
    (s0 s1 : Pcb) (x : Int)
    (hop : dnp.info.dn_op = Tok.LT)
    (hl : dnp.dn_left = some left) (hr : dnp.dn_right = some right)
    (hls : left.info.is_string = false) (hrs : right.info.is_string = false)
    (hla : left.info.is_arith = true) (hra : right.info.is_arith = true)
    (hsg : dnp.info.promote_signed = true)
    (h : dt_cg_node cfg (fuel + 1) dnp s0 = Res.ok x s1) :
    ∃ (sa sb : Pcb) (y : Int),
      dt_cg_node cfg fuel left { s0 with dl_label := s0.dl_label + 1 + 1 } = Res.ok x sa ∧
      dt_cg_node cfg fuel right sa = Res.ok y sb ∧
      s0.dl_label ≠ s0.dl_label + 1 ∧
      s1.pcb_ir = sb.pcb_ir ++
        [dt_cg_node_alloc (BPF_ALU64_REG AluOp.SUB x y),
         dt_cg_node_alloc (BPF_JMP_IMM JmpOp.JSLT x 0 s0.dl_label),
         dt_cg_node_alloc (BPF_MOV32_IMM x 0),
         dt_cg_node_alloc (BPF_JMP_IMM JmpOp.JA 0 0 (s0.dl_label + 1)),
         dt_cg_node_alloc_labelled (some s0.dl_label) (BPF_MOV32_IMM x 1),
         dt_cg_node_alloc_labelled (some (s0.dl_label + 1)) Insn.NOP] := by
  have hb : dt_cg_node cfg (fuel + 1) dnp = dt_cg_node_body cfg (dt_cg_node cfg fuel) dnp := rfl
  rw [hb] at h
  unfold dt_cg_node_body at h
  simp only [hop] at h
  unfold dt_cg_op_compare dt_cg_compare_signed at h
  rw [hl, hr] at h
  obtain ⟨sgn, sx, hx, hcmp⟩ := bind_ok_inv h
  clear h
  have hsgn : sgn = true ∧ s0 = sx := by
    simp [deref, bind, CG.andThen, pure, CG.ret, hls, hrs, hla, hra, hsg] at hx
    exact hx
  obtain ⟨e1, e2⟩ := hsgn
  subst e1
  subst e2
  simp only [↓reduceIte] at hcmp
  have h := hcmp
  unfold dt_cg_compare_op at h
  rw [hl, hr] at h
  obtain ⟨_, sx, hx, h⟩ := bind_ok_inv h
  cases hx
  obtain ⟨_, sx, hx, h⟩ := bind_ok_inv h
  cases hx
  obtain ⟨_, sx, hx, h⟩ := bind_ok_inv h
  cases hx
  obtain ⟨lreg, sa, ha, h⟩ := bind_ok_inv h
  obtain ⟨_, sx, hx, h⟩ := bind_ok_inv h
  cases hx
  obtain ⟨y, sb, hb2, h⟩ := bind_ok_inv h
  simp only [hls, hrs, Bool.or_self, Bool.false_eq_true, if_false] at h
  obtain ⟨_, sx, hx, h⟩ := bind_ok_inv h
  cases hx
  obtain ⟨_, sx, hx, h⟩ := bind_ok_inv h
  cases hx
  obtain ⟨_, sx, hx, h⟩ := bind_ok_inv h
  cases hx
  obtain ⟨_, sc, hc, h⟩ := bind_ok_inv h
  have ec := setx_ok _ _ _ _ _ hc
  subst ec
  obtain ⟨_, sx, hx, h⟩ := bind_ok_inv h
  cases hx
  obtain ⟨_, sd, hd, h⟩ := bind_ok_inv h
  have ed := xsetx_one_ok _ _ _ _ _ hd
  subst ed
  obtain ⟨_, sx, hx, h⟩ := bind_ok_inv h
  cases hx
  cases h
  refine ⟨sa, sb, y, ha, hb2, by omega, ?_⟩
  dsimp only
  split <;> simp [setx_nodes]

/-- Witness of C27: the root `7 < 7` of signed integers, with the label counter at 0:
the visitor returns register 9 and the six instructions carry the labels 0 and 1. -/
theorem C27_signed_less_than_sequence_witness :
    ∃ (sa sb : Pcb) (y : Int),
      dt_cg_node target0 2 lit7 { pcbFree with dl_label := pcbFree.dl_label + 1 + 1 } =
        Res.ok 9 sa ∧
      dt_cg_node target0 2 lit7 sa = Res.ok y sb ∧
      pcbFree.dl_label ≠ pcbFree.dl_label + 1 ∧
      (dt_cg_node target0 3 lt_lits pcbFree).state.pcb_ir = sb.pcb_ir ++
        [dt_cg_node_alloc (BPF_ALU64_REG AluOp.SUB 9 y),
         dt_cg_node_alloc (Insn.JMP_IMM JmpOp.JSLT 9 0 pcbFree.dl_label),
         dt_cg_node_alloc (Insn.MOV32_IMM 9 0),
         dt_cg_node_alloc (Insn.JMP_IMM JmpOp.JA 0 0 (pcbFree.dl_label + 1)),
         dt_cg_node_alloc_labelled (some pcbFree.dl_label) (Insn.MOV32_IMM 9 1),
         dt_cg_node_alloc_labelled (some (pcbFree.dl_label + 1)) Insn.NOP] :=
  C27_signed_less_than_sequence target0 2 lt_lits lit7 lit7 pcbFree _ 9 rfl rfl rfl rfl rfl rfl
    rfl rfl rfl

/-- The by-reference arm of `dt_cg_store` is the call of `dt_cg_call` for the `copys`
helper with the source register, the destination register and the size, and nothing
else. -/
theorem store_by_ref_is_call (cfg : Cfg) (src : NodeInfo) (src_reg : Int)
    (dst : Node) (dst_reg : Int) (s : Pcb) (href : src.dn_flags.REF = true) :
    dt_cg_store cfg src src_reg dst dst_reg s =
      (dt_cg_call cfg (BPF_FUNC_dtrace_copys cfg)
        [src_reg, dst_reg, (dt_cg_store_size src dst : Int)] >>= fun _ => pure ()) s := by
  unfold dt_cg_store dt_cg_store_size
  simp only [href, if_true] <;> rfl

/-- A by-reference store never returns. -/
theorem store_by_ref_never_returns (cfg : Cfg) (src : NodeInfo) (src_reg : Int)
    (dst : Node) (dst_reg : Int) (s s1 : Pcb) (href : src.dn_flags.REF = true) :
    dt_cg_store cfg src src_reg dst dst_reg s ≠ Res.ok () s1 := by
  rw [store_by_ref_is_call cfg src src_reg dst dst_reg s href]
  exact neverOk_bind_left _ (neverOk_call _ _ _) s () s1

/-- C28 (the code at the failing input): a by-reference store of a 16-byte structure
with the source address in register 5 and the destination address in register 6
emits no instruction at all and ends in a raise: the prototype of `copys` is `rri`,
which holds no `d`, so the first loop of `dt_cg_call` runs off the end of the string
before anything is marshalled. No `CALL` of `copys`, with any order of its argument
registers, reaches the list; and for no target, operands and context does a
by-reference store return. -/
theorem C28_store_by_ref_emits_no_call :
    (dt_cg_store target0 { dn_flags := { REF := true }, ty := { size := 16 } } 5 struct_dst 6
        pcbFree).instrs = [] ∧
    (dt_cg_store target0 { dn_flags := { REF := true }, ty := { size := 16 } } 5 struct_dst 6
        pcbFree).error? = some Err.UNDEFINED ∧
    bpf_protos.get? (BPF_FUNC_dtrace_copys target0 - target0.FIRST_BPF_HELPER) =
      some ['r', 'r', 'i'] ∧
    (∀ (cfg : Cfg) (src : NodeInfo) (src_reg : Int) (dst : Node) (dst_reg : Int)
        (s s1 : Pcb), src.dn_flags.REF = true →
      dt_cg_store cfg src src_reg dst dst_reg s ≠ Res.ok () s1) := by
  refine ⟨by decide, by decide, by decide, fun cfg src src_reg dst dst_reg s s1 h =>
    store_by_ref_never_returns cfg src src_reg dst dst_reg s s1 h⟩

/-- The subtraction of a register from itself leaves 0 in it. -/
theorem exec_sub_self (r : Reg) (m : Vm) :
    (Vm.exec [Insn.ALU64_REG AluOp.SUB r r] m).reg r = 0 := by
  simp [Vm.exec, Vm.setReg, alu64, u64]

/-- C29 (the code at the failing input): the call of `dtrace_get_global_assoc`
(prototype `idi`) with the arguments 3, 0, 2 at stack depth 16. The first word of the
list is the unassigned word `g` that `dt_cg_mov` appended (whatever it is), not a
move of FP into R0. The second is the register form of the subtraction with the
depth 16 in the four-bit source-register field, that is `ALU64_REG SUB 0 0`: it
subtracts R0 from itself, so R0 is 0 after it on every machine, not FP minus 16. At
the `d` position the list holds the word `g` again, standing third in the
marshalling although `d` is the second prototype character; the run ends in
`EDT_INVALIDBPFHELPER` without a `CALL`. -/
theorem C29_stack_depth_subtracted_as_register :
    (∀ g : Insn,
      (dt_cg_call (target_mov g) (BPF_FUNC_dtrace_get_global_assoc target0) [3, 0, 2]
          { pcbFree with pcb_stackdepth := 16 }).instrs =
        [g, Insn.ALU64_REG AluOp.SUB 0 0, Insn.MOV32_IMM 2 3, g, Insn.MOV32_IMM 4 2] ∧
      (dt_cg_call (target_mov g) (BPF_FUNC_dtrace_get_global_assoc target0) [3, 0, 2]
          { pcbFree with pcb_stackdepth := 16 }).error? = some Err.EDT_INVALIDBPFHELPER) ∧
    BPF_ALU64_REG AluOp.SUB BPF_REG_0 16 = Insn.ALU64_REG AluOp.SUB 0 0 ∧
    (∀ m : Vm, (Vm.exec [Insn.ALU64_REG AluOp.SUB 0 0] m).reg 0 = 0) := by
  refine ⟨fun _ => ⟨rfl, rfl⟩, by decide, fun m => exec_sub_self 0 m⟩

/-- C30 (the code at the failing input): the epilogue for an unsigned bit-field of
3 bits at bit offset 3, with the container in register 9, is `MOV32_IMM 8 3`,
`ALU64_REG LSH 8 9`, `MOV32_IMM 8 7`, `ALU64_REG AND 8 9`: shift and mask go to the
scratch register 8. Run with the container 40 in register 9, it leaves 40 there, not
`(40 >> 3) AND 7 = 5`. -/
theorem C30_unsigned_field_epilogue_keeps_container :
    (dt_cg_field_get target0 bf_read.info 9 bf_f pcbAssoc).error? = none ∧
    (dt_cg_field_get target0 bf_read.info 9 bf_f pcbAssoc).instrs =
      [Insn.MOV32_IMM 8 3, Insn.ALU64_REG AluOp.LSH 8 9, Insn.MOV32_IMM 8 7,
       Insn.ALU64_REG AluOp.AND 8 9] ∧
    (Vm.exec (dt_cg_field_get target0 bf_read.info 9 bf_f pcbAssoc).instrs vmField).reg 9
      = 40 ∧
    (40 >>> (3 % 8)) &&& (2 ^ 3 - 1) = 5 := by
  refine ⟨by decide, by decide, by decide, by decide⟩

/-! ## Pointer difference and the power-of-two width -/

/-- C34: for a `-` node whose two operands are both pointers, a run of the visitor
that returns has emitted the left operand's code, the right operand's code (no
scaling of either register), the subtract of the right register from the left one,
and then, unless the element size `s` of the right operand's type is 1, the load of
`s` into a scratch register and one divide of the result register by it. -/
theorem C34_pointer_difference_divided_once (cfg : Cfg) (fuel : Nat) (dnp left right : Node)
    (s0 s1 : Pcb) (lreg : Int)
    (hop : dnp.info.dn_op = Tok.SUB)
    (hl : dnp.dn_left = some left) (hr : dnp.dn_right = some right)
    (hlp : left.info.is_pointer = true) (hrp : right.info.is_pointer = true)
    (h : dt_cg_node cfg (fuel + 1) dnp s0 = Res.ok lreg s1) :
    ∃ (sa sb : Pcb) (sreg rreg : Int),
      dt_cg_node cfg fuel left s0 = Res.ok lreg sa ∧
      dt_cg_node cfg fuel right sa = Res.ok rreg sb ∧
      s1.pcb_ir = sb.pcb_ir ++ [dt_cg_node_alloc (BPF_ALU64_REG AluOp.SUB lreg rreg)] ++
        (if right.info.ref_size = 1 then []
         else setx_nodes sreg (u64 right.info.ref_size) ++
           [dt_cg_node_alloc (BPF_ALU64_REG AluOp.DIV lreg sreg)]) := by
  have hb : dt_cg_node cfg (fuel + 1) dnp = dt_cg_node_body cfg (dt_cg_node cfg fuel) dnp := rfl
  rw [hb] at h
  unfold dt_cg_node_body at h
  simp only [hop] at h
  unfold dt_cg_op_arith at h
  obtain ⟨regs, sx, hx, hret⟩ := bind_ok_inv h
  clear h
  cases hret
  unfold dt_cg_arithmetic_op at hx
  rw [hl, hr] at hx
  obtain ⟨_, sy, hy, h2⟩ := bind_ok_inv hx
  cases hy
  obtain ⟨_, sy, hy, h3⟩ := bind_ok_inv h2
  cases hy
  simp only [hlp, hrp, hop, Bool.and_self, doIf, if_true, Bool.false_and, Bool.false_eq_true,
    if_false, cassert, decide_True] at h3
  obtain ⟨_, sy, hy, h4⟩ := bind_ok_inv h3
  cases hy
  obtain ⟨lr, sa, ha, h5⟩ := bind_ok_inv h4
  obtain ⟨_, sy, hy, h6⟩ := bind_ok_inv h5
  cases hy
  obtain ⟨rr, sb, hb2, h7⟩ := bind_ok_inv h6
  obtain ⟨_, sy, hy, h8⟩ := bind_ok_inv h7
  cases hy
  obtain ⟨_, sy, hy, h9⟩ := bind_ok_inv h8
  cases hy
  obtain ⟨_, sy, hy, h10⟩ := bind_ok_inv h9
  cases hy
  obtain ⟨_, sd, hd, h11⟩ := bind_ok_inv h10
  cases h11
  obtain ⟨sreg, hs⟩ := ptrsize_ok _ _ _ _ _ _ hd
  refine ⟨sa, sb, sreg, rr, ha, hb2, ?_⟩
  rw [hs]
  dsimp only
  split <;> simp

/-- Witness of C34: the root `(int *)7 - (int *)7` (element size 4) compiles to the
two operands, the subtract, the load of 4 and one divide of register 9. -/
theorem C34_pointer_difference_divided_once_witness :
    (dt_cg_node target0 4 intptr_diff pcbFree).instrs =
      [Insn.MOV32_IMM 9 7, Insn.MOV32_IMM 8 7, Insn.ALU64_REG AluOp.SUB 9 8,
       Insn.MOV32_IMM 8 4, Insn.ALU64_REG AluOp.DIV 9 8] ∧
    ∃ (sa sb : Pcb) (sreg rreg : Int),
      dt_cg_node target0 3 cast_intptr7 pcbFree = Res.ok 9 sa ∧
      dt_cg_node target0 3 cast_intptr7 sa = Res.ok rreg sb ∧
      (dt_cg_node target0 4 intptr_diff pcbFree).state.pcb_ir =
        sb.pcb_ir ++ [dt_cg_node_alloc (BPF_ALU64_REG AluOp.SUB 9 rreg)] ++
        (if cast_intptr7.info.ref_size = 1 then []
         else setx_nodes sreg (u64 cast_intptr7.info.ref_size) ++
           [dt_cg_node_alloc (BPF_ALU64_REG AluOp.DIV 9 sreg)]) :=
  ⟨by decide,
   C34_pointer_difference_divided_once target0 3 intptr_diff cast_intptr7 cast_intptr7 pcbFree _ 9
     rfl rfl rfl rfl rfl rfl⟩

/-- One folding step of `clp2`: if the bits of `z` are the disjunctions of `n`
consecutive bits of `y`, the bits of `z ||| z >>> n` are those of `2 * n` bits. -/
theorem clp2_fold_step (y z n : Nat)
    (h : ∀ i, z.testBit i = true ↔ ∃ j, j < n ∧ y.testBit (i + j) = true) :
    ∀ i, (z ||| (z >>> n)).testBit i = true ↔ ∃ j, j < 2 * n ∧ y.testBit (i + j) = true := by
  intro i
  rw [Nat.testBit_lor, Bool.or_eq_true, Nat.testBit_shiftRight, h, h]
  constructor
  · rintro (⟨j, hj, hb⟩ | ⟨j, hj, hb⟩)
    · exact ⟨j, by omega, hb⟩
    · exact ⟨n + j, by omega, by rwa [show i + (n + j) = n + i + j by omega]⟩
  · rintro ⟨j, hj, hb⟩
    by_cases hjn : j < n
    · exact Or.inl ⟨j, hjn, hb⟩
    · exact Or.inr ⟨j - n, by omega, by rwa [show n + i + (j - n) = i + j by omega]⟩

/-- The highest bit of a positive number, at position `size - 1`, is set. -/
theorem testBit_size_pred (y : Nat) (hy : y ≠ 0) : y.testBit (y.size - 1) = true := by
  by_contra hc
  have hf : y.testBit (y.size - 1) = false := by simpa using hc
  have hpos : 0 < y.size := Nat.size_pos.mpr (Nat.pos_of_ne_zero hy)
  have hlt : y < 2 ^ (y.size - 1) := by
    apply Nat.lt_pow_two_of_testBit
    intro i hi
    by_cases he : i = y.size - 1
    · rw [he]; exact hf
    · apply Nat.testBit_lt_two_pow
      calc y < 2 ^ y.size := Nat.lt_size_self y
        _ ≤ 2 ^ i := Nat.pow_le_pow_right (by decide) (by omega)
  have hge : 2 ^ (y.size - 1) ≤ y := Nat.lt_size.mp (by omega)
  omega

/-- The five folding steps turn a number below `2^32` into the all-ones number of the
same bit length. -/
theorem clp2_smear (y x1 x2 x3 x4 : Nat) (hy : y < 2 ^ 32)
    (e1 : x1 = y ||| (y >>> 1)) (e2 : x2 = x1 ||| (x1 >>> 2))
    (e3 : x3 = x2 ||| (x2 >>> 4)) (e4 : x4 = x3 ||| (x3 >>> 8)) :
    x4 ||| (x4 >>> 16) = 2 ^ y.size - 1 := by
  subst e1 e2 e3 e4
  have h0 : ∀ i, y.testBit i = true ↔ ∃ j, j < 1 ∧ y.testBit (i + j) = true := by
    intro i
    constructor
    · intro h; exact ⟨0, by omega, by simpa using h⟩
    · rintro ⟨j, hj, hb⟩
      have : j = 0 := by omega
      subst this
      simpa using hb
  have h1 := clp2_fold_step y y 1 h0
  have h2 := clp2_fold_step y _ 2 h1
  have h3 := clp2_fold_step y _ 4 h2
  have h4 := clp2_fold_step y _ 8 h3
  have h5 := clp2_fold_step y _ 16 h4
  have hsz : y.size ≤ 32 := Nat.size_le.mpr hy
  apply Nat.eq_of_testBit_eq
  intro i
  rw [Nat.testBit_two_pow_sub_one]
  by_cases hi : i < y.size
  · have hy0 : y ≠ 0 := by
      intro h0'
      rw [h0', Nat.size_zero] at hi
      omega
    have := (h5 i).mpr ⟨y.size - 1 - i, by omega, by
        rw [show i + (y.size - 1 - i) = y.size - 1 by omega]
        exact testBit_size_pred y hy0⟩
    rw [this]
    simp [hi]
  · have hn : ¬ ∃ j, j < 2 * 16 ∧ y.testBit (i + j) = true := by
      rintro ⟨j, _, hb⟩
      have hge := Nat.testBit_implies_ge hb
      have hlt : i + j < y.size := Nat.lt_size.mpr hge
      omega
    have := mt (h5 i).mp hn
    rw [Bool.not_eq_true] at this
    rw [this]
    simp [hi]

/-- On `1 ≤ x ≤ 2^32`, `clp2 x` is 2 to the bit length of `x - 1`. -/
theorem clp2_eq_two_pow_size (x : Nat) (h1 : 1 ≤ x) (h2 : x ≤ 2 ^ 32) :
    clp2 x = 2 ^ (x - 1).size := by
  have hy : x - 1 < 2 ^ 32 := by omega
  have hsz : (x - 1).size ≤ 32 := Nat.size_le.mpr hy
  have hx0 : (x + 2 ^ 64 - 1) % 2 ^ 64 = x - 1 := by omega
  have hs := clp2_smear (x - 1) _ _ _ _ hy rfl rfl rfl rfl
  unfold clp2
  simp only [hx0]
  rw [hs]
  have hpos : 0 < 2 ^ (x - 1).size := Nat.two_pow_pos _
  have hle : 2 ^ (x - 1).size ≤ 2 ^ 32 := Nat.pow_le_pow_right (by decide) hsz
  rw [Nat.sub_add_cancel hpos]
  apply Nat.mod_eq_of_lt
  calc 2 ^ (x - 1).size ≤ 2 ^ 32 := hle
    _ < 2 ^ 64 := by norm_num

/-- C37: for every `x` with `1 ≤ x ≤ 2^32`, `clp2 x` is the least power of two that is
at least `x`; and for every bit count `B` with `1 ≤ B ≤ 64` the bit-field access
width `clp2 (P2ROUNDUP8 B / 8)` is the least power of two that is at least
`ceil(B / 8)`, and is one of 1, 2, 4, 8. -/
theorem C37_clp2_least_power_of_two :
    (∀ x : Nat, 1 ≤ x → x ≤ 2 ^ 32 →
      ∃ k, clp2 x = 2 ^ k ∧ x ≤ 2 ^ k ∧ ∀ m, x ≤ 2 ^ m → k ≤ m) ∧
    (∀ B : Nat, 1 ≤ B → B ≤ 64 →
      (∃ k, clp2 (P2ROUNDUP8 B / 8) = 2 ^ k ∧ (B + 7) / 8 ≤ 2 ^ k ∧
        ∀ m, (B + 7) / 8 ≤ 2 ^ m → k ≤ m) ∧
      (clp2 (P2ROUNDUP8 B / 8) = 1 ∨ clp2 (P2ROUNDUP8 B / 8) = 2 ∨
        clp2 (P2ROUNDUP8 B / 8) = 4 ∨ clp2 (P2ROUNDUP8 B / 8) = 8)) := by
  have gen : ∀ x : Nat, 1 ≤ x → x ≤ 2 ^ 32 →
      ∃ k, clp2 x = 2 ^ k ∧ x ≤ 2 ^ k ∧ ∀ m, x ≤ 2 ^ m → k ≤ m := by
    intro x h1 h2
    refine ⟨(x - 1).size, clp2_eq_two_pow_size x h1 h2, ?_, ?_⟩
    · have := Nat.lt_size_self (x - 1)
      omega
    · intro m hm
      apply Nat.size_le.mpr
      omega
  refine ⟨gen, ?_⟩
  intro B hB1 hB2
  have hr : P2ROUNDUP8 B / 8 = (B + 7) / 8 := by
    unfold P2ROUNDUP8
    omega
  rw [hr]
  refine ⟨gen _ (by omega) (by omega), ?_⟩
  have hc : 1 ≤ (B + 7) / 8 ∧ (B + 7) / 8 ≤ 8 := by omega
  generalize (B + 7) / 8 = c at hc
  obtain ⟨hc1, hc8⟩ := hc
  interval_cases c <;> decide

/-- Witness of C37: `clp2 5 = 8`, and a bit-field of 12 bits is accessed through a
2-byte container. -/
theorem C37_clp2_least_power_of_two_witness :
    (∃ k, clp2 5 = 2 ^ k ∧ 5 ≤ 2 ^ k ∧ ∀ m, 5 ≤ 2 ^ m → k ≤ m) ∧
    clp2 5 = 8 ∧
    ((∃ k, clp2 (P2ROUNDUP8 12 / 8) = 2 ^ k ∧ (12 + 7) / 8 ≤ 2 ^ k ∧
        ∀ m, (12 + 7) / 8 ≤ 2 ^ m → k ≤ m) ∧
      (clp2 (P2ROUNDUP8 12 / 8) = 1 ∨ clp2 (P2ROUNDUP8 12 / 8) = 2 ∨
        clp2 (P2ROUNDUP8 12 / 8) = 4 ∨ clp2 (P2ROUNDUP8 12 / 8) = 8)) ∧
    clp2 (P2ROUNDUP8 12 / 8) = 2 :=
  ⟨C37_clp2_least_power_of_two.1 5 (by decide) (by norm_num), by decide,
   C37_clp2_least_power_of_two.2 12 (by decide) (by decide), by decide⟩

/-! ## The remaining emitters at their failing inputs -/

/-- C31 (the code at the failing input): the epilogue for a signed bit-field of 3
bits at bit offset 3, with the container in register 9, is `MOV32_IMM 8 58`,
`ALU64_REG LSH 8 9`, `MOV32_IMM 8 61`, `ALU64_REG ARSH 9 8`: the left shift goes to
the scratch register 8. Run with the container 40 (field bits `101`, the value -3) in
register 9, it leaves `40 >> 61 = 0` there, not -3. -/
theorem C31_signed_field_epilogue_skips_left_shift :
    (dt_cg_field_get target0 bf_signed_info 9 bf_f pcbAssoc).error? = none ∧
    (dt_cg_field_get target0 bf_signed_info 9 bf_f pcbAssoc).instrs =
      [Insn.MOV32_IMM 8 58, Insn.ALU64_REG AluOp.LSH 8 9, Insn.MOV32_IMM 8 61,
       Insn.ALU64_REG AluOp.ARSH 9 8] ∧
    (Vm.exec (dt_cg_field_get target0 bf_signed_info 9 bf_f pcbAssoc).instrs vmField).reg 9
      = 0 ∧
    alu64 AluOp.ARSH (alu64 AluOp.LSH 40 (64 - (3 % 8 + 3))) (64 - 3) = u64 (-3) := by
  refine ⟨by decide, by decide, by decide, by decide⟩

/-- The eight instructions that follow the word of `dt_cg_mov` in the insert code for
the 3-bit field at shift 3: whatever the machine state before them, the result
register 9 ends as its old content masked, merged with the low three bits of the
source register 5. -/
theorem field_set_tail_reg9 (m : Vm) :
    (Vm.exec [Insn.LD_IMM64_LO 8 4294967239, Insn.LD_IMM64_HI 4294967295,
       Insn.ALU64_REG AluOp.AND 9 8, Insn.MOV32_IMM 8 7, Insn.ALU64_REG AluOp.AND 8 5,
       Insn.MOV32_IMM 7 3, Insn.ALU64_REG AluOp.LSH 7 8, Insn.ALU64_REG AluOp.OR 9 8] m).reg 9 =
    (m.reg 9 &&& 18446744073709551559) ||| (m.reg 5 &&& 7) := by
  have h1 : m.reg 9 &&& 18446744073709551559 < 2 ^ 64 :=
    Nat.and_lt_two_pow _ (by norm_num)
  have h2 : m.reg 5 &&& 7 < 2 ^ 64 := Nat.and_lt_two_pow _ (by norm_num)
  have h3 : (m.reg 9 &&& 18446744073709551559) ||| (m.reg 5 &&& 7) < 2 ^ 64 :=
    Nat.or_lt_two_pow h1 h2
  norm_num at h1 h2 h3
  simp [Vm.exec, Vm.setReg, alu64, Nat.mod_eq_of_lt h1, Nat.mod_eq_of_lt h2,
    Nat.mod_eq_of_lt h3, Nat.and_comm 7]

/-- A value masked with the complement of the field mask, merged with three low bits,
has the field bits 3, 4 and 5 clear. -/
theorem field_bits_clear (a b : Nat) :
    ((a &&& 18446744073709551559) ||| (b &&& 7)) &&& 56 = 0 := by
  rw [Nat.and_distrib_right, Nat.and_assoc, Nat.and_assoc]
  have e1 : (18446744073709551559 : Nat) &&& 56 = 0 := by decide
  have e2 : (7 : Nat) &&& 56 = 0 := by decide
  rw [e1, e2]
  simp

/-- C32 (the code at the failing input): the insert code for the 3-bit field at shift
3, with the source register 5 and the destination register 6. Its first word is the
unassigned word that `dt_cg_mov` appended (on the concrete target the all-zero word):
no instruction loads the container, nor copies the address, into the result register
9. The eight instructions that follow mask the old content of register 9 and merge
the low three bits of register 5 into it unshifted (the shift goes to the scratch
register 7): whatever the machine state after the first word, the field bits 3 to 5
of the returned register are 0, whereas they are `101` in the value
`(192 AND NOT 56) OR (5 << 3) = 232` of the claim. Run from a machine with the value
5 in register 5, the address 2 in register 6 and the container 192 in memory, the
code leaves 5 in register 9. The source and destination registers keep their values,
and only register 9 stays allocated beside them. -/
theorem C32_field_set_merges_unshifted_value :
    (dt_cg_field_set target0 5 bf_dst 6 pcb56).value? = some 9 ∧
    (dt_cg_field_set target0 5 bf_dst 6 pcb56).instrs =
      [Insn.RAW 0 0 0 0 0, Insn.LD_IMM64_LO 8 4294967239, Insn.LD_IMM64_HI 4294967295,
       Insn.ALU64_REG AluOp.AND 9 8, Insn.MOV32_IMM 8 7, Insn.ALU64_REG AluOp.AND 8 5,
       Insn.MOV32_IMM 7 3, Insn.ALU64_REG AluOp.LSH 7 8, Insn.ALU64_REG AluOp.OR 9 8] ∧
    (dt_cg_field_set target0 5 bf_dst 6 pcb56).state.pcb_regs =
      [false, false, false, false, false, true, true, false, false, true] ∧
    (∀ m : Vm,
      (Vm.exec (dt_cg_field_set target0 5 bf_dst 6 pcb56).instrs.tail m).reg 9 &&& 56 = 0) ∧
    (232 : Nat) &&& 56 = 40 ∧
    (Vm.exec (dt_cg_field_set target0 5 bf_dst 6 pcb56).instrs vmStore).reg 9 = 5 ∧
    (Vm.exec (dt_cg_field_set target0 5 bf_dst 6 pcb56).instrs vmStore).reg 5 = 5 ∧
    (Vm.exec (dt_cg_field_set target0 5 bf_dst 6 pcb56).instrs vmStore).reg 6 = 2 ∧
    (192 &&& (2 ^ 64 - 1 - (7 <<< 3))) ||| ((5 &&& 7) <<< 3) = 232 := by
  have ht : (dt_cg_field_set target0 5 bf_dst 6 pcb56).instrs.tail =
      [Insn.LD_IMM64_LO 8 4294967239, Insn.LD_IMM64_HI 4294967295,
       Insn.ALU64_REG AluOp.AND 9 8, Insn.MOV32_IMM 8 7, Insn.ALU64_REG AluOp.AND 8 5,
       Insn.MOV32_IMM 7 3, Insn.ALU64_REG AluOp.LSH 7 8, Insn.ALU64_REG AluOp.OR 9 8] := by
    decide
  refine ⟨by decide, by decide, by decide, fun m => ?_, by decide, by decide, by decide,
    by decide, by decide⟩
  rw [ht, field_set_tail_reg9]
  exact field_bits_clear _ _

/-- C33 (the code at the failing input): one argument emitted at stack depth 8. The
depth grows to 24, but the two slots are written at the frame-pointer offsets -8 and
-16: the first is the slot at depth 8 that was in use before the call, and the slot
at -24 of the reserved region is not written. -/
theorem C33_arglist_first_slot_outside_reserved_region :
    (dt_cg_arglist target0 (dt_cg_node target0 4) 0 [lit7]
        { pcbAssoc with pcb_stackdepth := 8, pcb_regs := List.replicate 10 false }).instrs =
      [Insn.MOV32_IMM 9 7, BPF_STX_MEM BPF_DW BPF_REG_FP 9 (-8),
       BPF_STX_MEM BPF_DW BPF_REG_FP 0 (-16)] ∧
    (dt_cg_arglist target0 (dt_cg_node target0 4) 0 [lit7]
        { pcbAssoc with pcb_stackdepth := 8, pcb_regs := List.replicate 10 false }
      ).state.pcb_stackdepth = 8 + 16 * 1 ∧
    ¬ ((8 : Int) < 8 ∧ (8 : Int) ≤ 8 + 16 * 1) ∧
    (dt_spill ListRef.ir 3 { pcbFree with pcb_stackdepth := 0 }).instrs =
      [BPF_STX_MEM BPF_DW BPF_REG_FP 3 (-8)] := by
  refine ⟨by decide, by decide, by decide, by decide⟩

/-- C35 (the code at the failing input): the read `args[1]` of a 4-byte unsigned
scalar. After the key `MOV32_IMM 9 1` the run ends inside the helper call, without a
`CALL` and without any shift. -/
theorem C35_args_read_emits_no_shift :
    (dt_cg_node target0 4 args_read pcbArgv).error? = some Err.UNDEFINED ∧
    (dt_cg_node target0 4 args_read pcbArgv).instrs = [Insn.MOV32_IMM 9 1] := by
  refine ⟨by decide, by decide⟩

/-- C36 (the call sites that fail): of the sixteen calls of `dt_cg_call`, five do
not pass as many arguments as the prototype has characters: the two calls through
`dt_cg_stvar` in the increment emitters, which pass 2 arguments also for the array
helpers with prototype `irdi`; the two calls at lines 1319 and 1321 of
`dt_cg_assoc_op`, which pass 2 arguments for `irdi` and 1 for `idi`; and the call at
line 1931, which passes the node pointer in the position of the helper id, followed
by four arguments. A call of `dtrace_set_global_assoc` (prototype `irdi`) with the two
arguments of line 1319 reads an argument that was not passed: after the words for
`i`, `r` and `d` (the last two being the unassigned word `g` of `dt_cg_mov`) the
fourth prototype character finds the argument list exhausted. -/
theorem C36_call_sites_with_wrong_argument_count :
    dt_cg_call_sites.length = 16 ∧
    ((dt_cg_call_sites.filter fun c => !c.matches_proto).map fun c => c.line) =
      [795, 850, 1319, 1321, 1931] ∧
    bpf_protos.get? 6 = some ['i', 'r', 'd', 'i'] ∧
    bpf_protos.get? 11 = some ['i', 'd', 'i'] ∧
    (∀ g : Insn,
      (dt_cg_call (target_mov g) (BPF_FUNC_dtrace_set_global_assoc target0)
          [1280, 9] pcbFree).instrs =
        [g, Insn.ALU64_REG AluOp.SUB 0 0, Insn.MOV32_IMM 3 1280, g, g] ∧
      (dt_cg_call (target_mov g) (BPF_FUNC_dtrace_set_global_assoc target0)
          [1280, 9] pcbFree).error? = some Err.UNDEFINED) := by
  refine ⟨by decide, by decide, by decide, by decide, fun _ => ⟨rfl, rfl⟩⟩

/-- C38 (the code at the failing input): the unsigned comparison `1 < 2` compiles to
subtract, `JLT 9, 0`, set 0, jump, set 1. Run from the first instruction it leaves 0
in the result register 9, because no unsigned value is below 0; likewise `1 >= 2`
leaves 1. The signed comparison `1 < 2` leaves 1. -/
theorem C38_unsigned_less_than_always_false :
    (dt_cg_node target0 3 lt_unsigned pcbFree).value? = some 9 ∧
    (dt_cg_node target0 3 lt_unsigned pcbFree).instrs =
      [Insn.MOV32_IMM 9 1, Insn.MOV32_IMM 8 2, Insn.ALU64_REG AluOp.SUB 9 8,
       Insn.JMP_IMM JmpOp.JLT 9 0 0, Insn.MOV32_IMM 9 0, Insn.JMP_IMM JmpOp.JA 0 0 1,
       Insn.MOV32_IMM 9 1, Insn.NOP] ∧
    (Vm.run (dt_cg_node target0 3 lt_unsigned pcbFree).state.pcb_ir 20 0 vm0).reg 9 = 0 ∧
    (Vm.run (dt_cg_node target0 3 ge_unsigned pcbFree).state.pcb_ir 20 0 vm0).reg 9 = 1 ∧
    (Vm.run (dt_cg_node target0 3 lt_signed pcbFree).state.pcb_ir 20 0 vm0).reg 9 = 1 ∧
    (∀ a : Nat, jmp_taken JmpOp.JLT a 0 = false) := by
  refine ⟨by decide, by decide, by decide, by decide, by decide, fun a => by simp [jmp_taken]⟩

/-- C39 (the code at the failing input): `~7` compiles to the literal followed by
`ALU64_REG NEG 9 9`, the arithmetic negation: the result register holds
`2^64 - 7`, not the complement `2^64 - 1 - 7`. -/
theorem C39_complement_emits_negation :
    (dt_cg_node target0 3 bneg_lit pcbFree).value? = some 9 ∧
    (dt_cg_node target0 3 bneg_lit pcbFree).instrs =
      [Insn.MOV32_IMM 9 7, Insn.ALU64_REG AluOp.NEG 9 9] ∧
    (Vm.exec (dt_cg_node target0 3 bneg_lit pcbFree).instrs vm0).reg 9 = 2 ^ 64 - 7 ∧
    (2 ^ 64 - 7 : Nat) ≠ 2 ^ 64 - 1 - 7 := by
  refine ⟨by decide, by decide, by decide, by decide⟩

/-- C40 (the code at the failing input): `dt_cg_ptrsize` for the element size 1, with
only register 9 allocated, returns with registers 8 and 9 allocated: the scratch
register is not freed on the early return. For the element size 4 the register set
is as before. -/
theorem C40_ptrsize_early_return_keeps_scratch :
    (dt_cg_ptrsize target0 ptr_plus_lit.info AluOp.MUL 9 pcbAssoc).error? = none ∧
    (dt_cg_ptrsize target0 ptr_plus_lit.info AluOp.MUL 9 pcbAssoc).instrs = [] ∧
    pcbAssoc.pcb_regs =
      [false, false, false, false, false, false, false, false, false, true] ∧
    (dt_cg_ptrsize target0 ptr_plus_lit.info AluOp.MUL 9 pcbAssoc).state.pcb_regs =
      [false, false, false, false, false, false, false, false, true, true] ∧
    (dt_cg_ptrsize target0 intptr_plus_lit.info AluOp.MUL 9 pcbAssoc).state.pcb_regs =
      [false, false, false, false, false, false, false, false, false, true] := by
  refine ⟨by decide, by decide, by decide, by decide, by decide⟩

end DtCg
